import Mathlib

/-!
# VROChoreographer: feature toggles, render-target allocation and the render cycle

A shallow embedding of `ViroRenderer/VROChoreographer.cpp`.  The choreographer object is
a record of its member fields; every member function becomes a function on that record.
Objects the choreographer only holds or forwards (render targets, passes, scenes) are
modelled by the data the choreographer itself decides: which slot holds a target, with how
many attachments, which viewport and clear colour it was given, and in which order the
passes are invoked.
-/

namespace Viro

/-! ## Collaborator types -/

/-- Modelled from the spec: the enum VROGPUType is declared in VRODriver.h, which is not
among the sources.  The code names one enumerator, Adreno330OrOlder (the known low-end
tier); every other enumerator is represented by its tag. -/
inductive VROGPUType where
  | Adreno330OrOlder
  | other (tag : Nat)
  deriving DecidableEq, Repr

/-- Modelled from the spec: the enum VROColorRenderingMode is declared in VRODriver.h, which
is not among the sources.  The code names NonLinear and LinearSoftware; every other
enumerator is represented by its tag. -/
inductive VROColorRenderingMode where
  | NonLinear
  | LinearSoftware
  | other (tag : Nat)
  deriving DecidableEq, Repr

/-- The eye a render call is issued for (VROEye.h). -/
inductive VROEyeType where
  | Left
  | Right
  | Monocular
  deriving DecidableEq, Repr

/-- The colour formats the choreographer asks for. -/
inductive VRORenderTargetType where
  | ColorTexture
  | ColorTextureHDR16
  deriving DecidableEq, Repr

/-- A viewport: origin and integer size. -/
structure VROViewport where
  x : Int
  y : Int
  width : Int
  height : Int
  deriving DecidableEq, Repr

/-- A four-component colour.  The choreographer only stores and forwards colours, it never
computes with them, so the components are kept as uninterpreted numbers. -/
structure VROVector4f where
  x : Int
  y : Int
  z : Int
  w : Int
  deriving DecidableEq, Repr

/-- The feature switches handed to the constructor. -/
structure VRORendererConfiguration where
  enableShadows : Bool
  enableHDR : Bool
  enablePBR : Bool
  enableBloom : Bool
  deriving DecidableEq, Repr

/-- A render target as the choreographer sees it: the creation arguments of
`newRenderTarget(type, attachments, samples, stencil)` and the last viewport and clear
colour the choreographer gave it (`none`: never given one). -/
structure VRORenderTarget where
  type : VRORenderTargetType
  numAttachments : Nat
  numSamples : Nat
  enableStencil : Bool
  viewport : Option VROViewport
  clearColor : Option VROVector4f
  attachedTexture : Option Nat
  deriving DecidableEq, Repr

/-- The driver as the choreographer queries it: GPU type, colour rendering mode, the bloom
query, and its display target. -/
structure VRODriver where
  gpuType : VROGPUType
  colorRenderingMode : VROColorRenderingMode
  bloomSupported : Bool
  display : VRORenderTarget
  deriving DecidableEq, Repr

/-- An image post-process built from a shader: its sampler names and fragment code. -/
structure VROImagePostProcess where
  samplers : List String
  code : List String
  deriving DecidableEq, Repr

/-- The tone-mapping curve. -/
inductive VROToneMappingMethod where
  | HableLuminanceOnly
  deriving DecidableEq, Repr

/-- The tone-mapping pass: its curve and whether gamma is linearised in software. -/
structure VROToneMappingRenderPass where
  method : VROToneMappingMethod
  gammaCorrectSoftware : Bool
  deriving DecidableEq, Repr

/-- The gaussian blur pass carries no parameter chosen by the choreographer. -/
structure VROGaussianBlurRenderPass where
  deriving DecidableEq, Repr

/-- The two preprocesses the choreographer installs. -/
inductive VROPreprocess where
  | shadow
  | ibl
  deriving DecidableEq, Repr

/-- A scene is only passed through; it is identified by a number. -/
abbrev VROScene := Nat

/-- The render metadata exposes one query to the choreographer. -/
structure VRORenderMetadata where
  requiresBloomPass : Bool
  deriving DecidableEq, Repr

/-- Result of `driver->newRenderTarget(type, attachments, samples, stencil)`. -/
def VRODriver.newRenderTarget (type : VRORenderTargetType) (numAttachments numSamples : Nat)
    (enableStencil : Bool) : VRORenderTarget :=
  { type := type, numAttachments := numAttachments, numSamples := numSamples,
    enableStencil := enableStencil, viewport := none, clearColor := none,
    attachedTexture := none }

/-- The effect of setViewport on a render target. -/
def VRORenderTarget.setViewport (t : VRORenderTarget) (v : VROViewport) : VRORenderTarget :=
  { t with viewport := some v }

/-- The effect of setClearColor on a render target. -/
def VRORenderTarget.setClearColor (t : VRORenderTarget) (c : VROVector4f) : VRORenderTarget :=
  { t with clearColor := some c }

/-- The effect of attachTexture(texture, 0) on a render target. -/
def VRORenderTarget.attachTexture (t : VRORenderTarget) (texture : Nat) : VRORenderTarget :=
  { t with attachedTexture := some texture }

/-- The distance between neighbouring single-precision floats at the magnitude `a` of a
32-bit int: 1 below 2^24 (every such integer is a float), and doubling with each further
power of two, since a float keeps 24 significant bits. -/
def floatSpacing (a : Nat) : Nat :=
  if a < 2 ^ 24 then 1
  else if a < 2 ^ 25 then 2
  else if a < 2 ^ 26 then 4
  else if a < 2 ^ 27 then 8
  else if a < 2 ^ 28 then 16
  else if a < 2 ^ 29 then 32
  else if a < 2 ^ 30 then 64
  else if a < 2 ^ 31 then 128
  else 256

/-- The value of an int converted to single-precision float, as the usual arithmetic
conversions do to the int operand of `int * float`: the nearest multiple of the float
spacing at its magnitude, a tie going to the multiple with the even significand. -/
def floatOfInt (n : Int) : Int :=
  let a := n.natAbs
  let ulp := floatSpacing a
  let q := a / ulp
  let r := a % ulp
  let q2 := if ulp < 2 * r ∨ (2 * r = ulp ∧ q % 2 = 1) then q + 1 else q
  Int.sign n * ((q2 * ulp : Nat) : Int)

/-- The value of `(int)(dim * _blurScaling)` for the single-precision member
`_blurScaling`, which the constructor sets to 0.25: the int `dim` is converted to float
(rounded when its magnitude exceeds 2^24), the product by the power of two 0.25 is exact,
and the cast to int truncates toward zero. -/
def blurScaled (dim : Int) : Int := Int.tdiv (floatOfInt dim) 4

/-! ## The choreographer -/

/-- The member fields of VROChoreographer.  `driver` is the driver the calls act on,
`driverAlive` tells whether the weak reference `_driver` still locks.  A null shared
pointer is `none`; for the base render pass, the delegate and the callback only their
presence is recorded. -/
structure VROChoreographer where
  driver : VRODriver
  driverAlive : Bool
  clearColor : VROVector4f
  renderTargetsChanged : Bool
  renderToTexture : Bool
  mrtSupported : Bool
  hdrSupported : Bool
  pbrSupported : Bool
  bloomSupported : Bool
  shadowsEnabled : Bool
  hdrEnabled : Bool
  pbrEnabled : Bool
  bloomEnabled : Bool
  viewport : Option VROViewport
  blitPostProcess : Option VROImagePostProcess
  blitTarget : Option VRORenderTarget
  renderToTextureTarget : Option VRORenderTarget
  postProcessTarget : Option VRORenderTarget
  hdrTarget : Option VRORenderTarget
  blurTargetA : Option VRORenderTarget
  blurTargetB : Option VRORenderTarget
  gaussianBlurPass : Option VROGaussianBlurRenderPass
  additiveBlendPostProcess : Option VROImagePostProcess
  toneMappingPass : Option VROToneMappingRenderPass
  preprocesses : List VROPreprocess
  baseRenderPass : Bool
  renderToTextureDelegate : Bool
  renderToTextureCallback : Bool
  deriving DecidableEq, Repr

namespace VROChoreographer

/-- The member `setViewport(viewport, driver)`: records the viewport, gives the
display the full viewport, every present target the untranslated one, and the blur targets
the untranslated one scaled by the blur factor. -/
def setViewport (self : VROChoreographer) (viewport : VROViewport) : VROChoreographer :=
  let rtViewport : VROViewport := ⟨0, 0, viewport.width, viewport.height⟩
  let blurViewport : VROViewport :=
    ⟨rtViewport.x, rtViewport.y, blurScaled rtViewport.width, blurScaled rtViewport.height⟩
  { self with
    viewport := some viewport
    driver := { self.driver with display := self.driver.display.setViewport viewport }
    blitTarget := self.blitTarget.map (fun t => t.setViewport rtViewport)
    postProcessTarget := self.postProcessTarget.map (fun t => t.setViewport rtViewport)
    renderToTextureTarget := self.renderToTextureTarget.map (fun t => t.setViewport rtViewport)
    hdrTarget := self.hdrTarget.map (fun t => t.setViewport rtViewport)
    blurTargetA := self.blurTargetA.map (fun t => t.setViewport blurViewport)
    blurTargetB := self.blurTargetB.map (fun t => t.setViewport blurViewport) }

/-- The member `setClearColor(color, driver)`: records the colour and sets it on the display
and on the blit, hdr, blur and post-process targets that are present. -/
def setClearColor (self : VROChoreographer) (color : VROVector4f) : VROChoreographer :=
  { self with
    clearColor := color
    driver := { self.driver with display := self.driver.display.setClearColor color }
    blitTarget := self.blitTarget.map (fun t => t.setClearColor color)
    hdrTarget := self.hdrTarget.map (fun t => t.setClearColor color)
    blurTargetA := self.blurTargetA.map (fun t => t.setClearColor color)
    blurTargetB := self.blurTargetB.map (fun t => t.setClearColor color)
    postProcessTarget := self.postProcessTarget.map (fun t => t.setClearColor color) }

/-- The blit shader of createRenderTargets. -/
def blitShader : VROImagePostProcess :=
  { samplers := ["source_texture"],
    code := ["uniform sampler2D source_texture;",
             "frag_color = texture(source_texture, v_texcoord);"] }

/-- The additive blend shader of createRenderTargets. -/
def additiveBlendShader : VROImagePostProcess :=
  { samplers := ["hdr_texture", "bloom_texture"],
    code := ["uniform sampler2D hdr_texture;",
             "uniform sampler2D bloom_texture;",
             "highp vec4 hdr_rgba = texture(hdr_texture, v_texcoord).rgba;",
             "highp vec4 bloom_rbga = texture(bloom_texture, v_texcoord).rgba;",
             "frag_color = vec4(hdr_rgba + bloom_rbga);"] }

/-- The resets at the top of createRenderTargets (lines 73 to 83). -/
def resetTargets (self : VROChoreographer) : VROChoreographer :=
  { self with
    blitPostProcess := none
    blitTarget := none
    renderToTextureTarget := none
    postProcessTarget := none
    hdrTarget := none
    blurTargetA := none
    blurTargetB := none
    gaussianBlurPass := none
    additiveBlendPostProcess := none
    toneMappingPass := none
    preprocesses := [] }

/-- The block of createRenderTargets guarded by `_mrtSupported` (lines 87 to 106). -/
def createBlitTargets (self : VROChoreographer) (colorType : VRORenderTargetType) :
    VROChoreographer :=
  if self.mrtSupported then
    { self with
      blitPostProcess := some blitShader
      blitTarget := some (VRODriver.newRenderTarget colorType 1 1 false)
      renderToTextureTarget := some (VRODriver.newRenderTarget colorType 1 1 false)
      preprocesses :=
        (if self.shadowsEnabled then [VROPreprocess.shadow] else []) ++
        (if self.pbrEnabled then [VROPreprocess.ibl] else []) }
  else self

/-- The block of createRenderTargets guarded by `_hdrEnabled` (lines 108 to 134). -/
def createHDRTargets (self : VROChoreographer) (colorType : VRORenderTargetType) :
    VROChoreographer :=
  if self.hdrEnabled then
    let s1 := { self with postProcessTarget := some (VRODriver.newRenderTarget colorType 1 1 false) }
    let s2 :=
      if s1.bloomEnabled then
        { s1 with
          hdrTarget := some (VRODriver.newRenderTarget .ColorTextureHDR16 2 1 false)
          blurTargetA := some (VRODriver.newRenderTarget .ColorTextureHDR16 1 1 false)
          blurTargetB := some (VRODriver.newRenderTarget .ColorTextureHDR16 1 1 false)
          gaussianBlurPass := some {}
          additiveBlendPostProcess := some additiveBlendShader }
      else
        { s1 with hdrTarget := some (VRODriver.newRenderTarget .ColorTextureHDR16 1 1 false) }
    { s2 with
      toneMappingPass := some
        { method := .HableLuminanceOnly,
          gammaCorrectSoftware :=
            decide (s2.driver.colorRenderingMode = VROColorRenderingMode.LinearSoftware) } }
  else self

/-- The member createRenderTargets: nothing happens when the weak driver reference no
longer locks; otherwise every target and pass is dropped and recreated from the flags, then
the last viewport (if any) and the clear colour are applied again. -/
def createRenderTargets (self : VROChoreographer) : VROChoreographer :=
  if !self.driverAlive then self
  else
    let s0 := resetTargets self
    let colorType : VRORenderTargetType :=
      if s0.hdrEnabled then .ColorTextureHDR16 else .ColorTexture
    let s1 := createBlitTargets s0 colorType
    let s2 := createHDRTargets s1 colorType
    let s3 := match s2.viewport with
      | some v => s2.setViewport v
      | none => s2
    s3.setClearColor s3.clearColor

/-- The constructor: derives the supported flags from the driver, the enabled flags from
the configuration and the supported flags, and creates the render targets. -/
def construct (config : VRORendererConfiguration) (driver : VRODriver) : VROChoreographer :=
  let mrtSupported := decide (driver.gpuType ≠ VROGPUType.Adreno330OrOlder)
  let hdrSupported := mrtSupported &&
    decide (driver.colorRenderingMode ≠ VROColorRenderingMode.NonLinear)
  let pbrSupported := hdrSupported
  let bloomSupported := mrtSupported && hdrSupported && driver.bloomSupported
  createRenderTargets
    { driver := driver
      driverAlive := true
      clearColor := ⟨0, 0, 0, 1⟩
      renderTargetsChanged := false
      renderToTexture := false
      mrtSupported := mrtSupported
      hdrSupported := hdrSupported
      pbrSupported := pbrSupported
      bloomSupported := bloomSupported
      shadowsEnabled := mrtSupported && config.enableShadows
      hdrEnabled := hdrSupported && config.enableHDR
      pbrEnabled := hdrSupported && config.enablePBR
      bloomEnabled := bloomSupported && config.enableBloom
      viewport := none
      blitPostProcess := none
      blitTarget := none
      renderToTextureTarget := none
      postProcessTarget := none
      hdrTarget := none
      blurTargetA := none
      blurTargetB := none
      gaussianBlurPass := none
      additiveBlendPostProcess := none
      toneMappingPass := none
      preprocesses := []
      baseRenderPass := false
      renderToTextureDelegate := false
      renderToTextureCallback := false }

/-! ### Renderer settings -/

/-- The member setHDREnabled: the returned flag and the state after the call. -/
def setHDREnabled (self : VROChoreographer) (enableHDR : Bool) : Bool × VROChoreographer :=
  if !enableHDR then
    if self.hdrEnabled then
      (true, { self with hdrEnabled := false, renderTargetsChanged := true })
    else (true, self)
  else
    if !self.hdrSupported then (false, self)
    else if !self.hdrEnabled then
      (true, { self with hdrEnabled := true, renderTargetsChanged := true })
    else (true, self)

/-- The member setPBREnabled: the returned flag and the state after the call. -/
def setPBREnabled (self : VROChoreographer) (enablePBR : Bool) : Bool × VROChoreographer :=
  if !enablePBR then
    if self.pbrEnabled then
      (true, { self with pbrEnabled := false, renderTargetsChanged := true })
    else (true, self)
  else
    if !self.pbrSupported then (false, self)
    else if !self.pbrEnabled then
      (true, { self with pbrEnabled := true, renderTargetsChanged := true })
    else (true, self)

/-- The member setShadowsEnabled: the returned flag and the state after the call. -/
def setShadowsEnabled (self : VROChoreographer) (enableShadows : Bool) :
    Bool × VROChoreographer :=
  if !enableShadows then
    if self.shadowsEnabled then
      (true, { self with shadowsEnabled := false, renderTargetsChanged := true })
    else (true, self)
  else
    if !self.mrtSupported then (false, self)
    else if !self.shadowsEnabled then
      (true, { self with shadowsEnabled := true, renderTargetsChanged := true })
    else (true, self)

/-- The member setBloomEnabled: the returned flag and the state after the call. -/
def setBloomEnabled (self : VROChoreographer) (enableBloom : Bool) : Bool × VROChoreographer :=
  if !enableBloom then
    if self.bloomEnabled then
      (true, { self with bloomEnabled := false, renderTargetsChanged := true })
    else (true, self)
  else
    if !self.bloomSupported then (false, self)
    else if !self.bloomEnabled then
      (true, { self with bloomEnabled := true, renderTargetsChanged := true })
    else (true, self)

/-! ### The render cycle -/

/-- The places a render target can be taken from: the driver display or one of the six
target fields of the choreographer. -/
inductive TargetSlot where
  | display
  | blitTarget
  | renderToTextureTarget
  | postProcessTarget
  | hdrTarget
  | blurTargetA
  | blurTargetB
  deriving DecidableEq, Repr

/-- The texture `getTexture(index)` of the target in a slot. -/
structure TextureRef where
  target : TargetSlot
  index : Nat
  deriving DecidableEq, Repr

/-- What a render call does, in order: the calls the choreographer makes on its passes,
targets and observers. -/
inductive Event where
  | createRenderTargets
  | setPBREnabled (enabled : Bool)
  | preprocess (p : VROPreprocess) (scene : VROScene)
  | baseRenderPass (scene outgoingScene : VROScene) (outputTarget : TargetSlot)
  | gaussianBlurPass (input pingPong outputTarget : TargetSlot)
  | additiveBlend (textures : List TextureRef) (destination : TargetSlot)
  | handlePostProcessing (source destination : TargetSlot) (postProcessed : Bool)
  | toneMappingPass (hdrInput : TextureRef) (outputTarget : TargetSlot)
  | blitColor (source destination : TargetSlot) (flip : Bool)
  | renderedFrameTexture (input : TargetSlot)
  | blitPostProcess (textures : List TextureRef) (destination : TargetSlot)
  | renderToTextureCallback
  deriving DecidableEq, Repr

/-- The target currently held in a slot, `none` for a null pointer. -/
def target (self : VROChoreographer) : TargetSlot → Option VRORenderTarget
  | .display => some self.driver.display
  | .blitTarget => self.blitTarget
  | .renderToTextureTarget => self.renderToTextureTarget
  | .postProcessTarget => self.postProcessTarget
  | .hdrTarget => self.hdrTarget
  | .blurTargetA => self.blurTargetA
  | .blurTargetB => self.blurTargetB

/-- Whether the slot holds a target. -/
def present (self : VROChoreographer) (slot : TargetSlot) : Bool :=
  (self.target slot).isSome

/-- One call of the render cycle: the event it produces, or `none` when an object the
call needs is a null pointer. -/
def invoke (ok : Bool) (e : Event) : Option Event :=
  if ok then some e else none

/-- Runs the calls in order up to the first one that meets a null pointer: the events
produced, and whether every call went through. -/
def runSteps : List (Option Event) → List Event × Bool
  | [] => ([], true)
  | none :: _ => ([], false)
  | some e :: rest => ((e :: (runSteps rest).1), (runSteps rest).2)

/-- The member renderToTextureAndDisplay, called with `input` in the given slot. -/
def renderToTextureAndDisplay (self : VROChoreographer) (input : TargetSlot) :
    List (Option Event) :=
  [invoke (self.present input && self.present .renderToTextureTarget)
      (.blitColor input .renderToTextureTarget true)]
  ++ (if self.renderToTextureDelegate then [some (.renderedFrameTexture input)] else [])
  ++ [invoke (self.blitPostProcess.isSome && self.present input)
      (.blitPostProcess [⟨input, 0⟩] .display)]
  ++ (if self.renderToTextureCallback then [some .renderToTextureCallback] else [])

/-- The tone-mapping call that ends both HDR branches of renderScene (lines 235 to 243,
repeated at lines 260 to 268), with the render-to-texture bridge when `_renderToTexture`
is set.  `hdrInput` is the texture stored under kToneMappingHDRInput just before. -/
def toneMapAndPresent (self : VROChoreographer) (hdrInput : TextureRef) : List (Option Event) :=
  if self.renderToTexture then
    [invoke (self.toneMappingPass.isSome && self.present hdrInput.target
        && self.present .blitTarget) (.toneMappingPass hdrInput .blitTarget)]
    ++ self.renderToTextureAndDisplay .blitTarget
  else
    [invoke (self.toneMappingPass.isSome && self.present hdrInput.target)
      (.toneMappingPass hdrInput .display)]

/-- The member renderScene.  `postProcessed` is the answer of the post-process effect
factory to handlePostProcessing in this call. -/
def renderScene (self : VROChoreographer) (scene outgoingScene : VROScene)
    (metadata : VRORenderMetadata) (postProcessed : Bool) : List (Option Event) :=
  if self.hdrEnabled then
    if self.bloomEnabled && metadata.requiresBloomPass then
      [invoke (self.baseRenderPass && self.present .hdrTarget)
          (.baseRenderPass scene outgoingScene .hdrTarget),
       invoke (self.gaussianBlurPass.isSome && self.present .hdrTarget
          && self.present .blurTargetA && self.present .blurTargetB)
          (.gaussianBlurPass .hdrTarget .blurTargetA .blurTargetB),
       invoke (self.additiveBlendPostProcess.isSome && self.present .hdrTarget
          && self.present .blurTargetB && self.present .postProcessTarget)
          (.additiveBlend [⟨.hdrTarget, 0⟩, ⟨.blurTargetB, 0⟩] .postProcessTarget),
       invoke (!postProcessed || (self.present .postProcessTarget && self.present .hdrTarget))
          (.handlePostProcessing .postProcessTarget .hdrTarget postProcessed)]
      ++ self.toneMapAndPresent
          (if postProcessed then ⟨.hdrTarget, 0⟩ else ⟨.postProcessTarget, 0⟩)
    else
      [invoke (self.baseRenderPass && self.present .hdrTarget)
          (.baseRenderPass scene outgoingScene .hdrTarget),
       invoke (!postProcessed || (self.present .hdrTarget && self.present .postProcessTarget))
          (.handlePostProcessing .hdrTarget .postProcessTarget postProcessed)]
      ++ self.toneMapAndPresent
          (if postProcessed then ⟨.postProcessTarget, 0⟩ else ⟨.hdrTarget, 0⟩)
  else if self.mrtSupported && self.renderToTexture then
    [invoke (self.baseRenderPass && self.present .blitTarget)
        (.baseRenderPass scene outgoingScene .blitTarget)]
    ++ self.renderToTextureAndDisplay .blitTarget
  else
    [invoke self.baseRenderPass (.baseRenderPass scene outgoingScene .display)]

/-- The outcome of a render call: the choreographer afterwards, the calls made in order,
and whether the call ran to its end without meeting a null pointer. -/
structure RenderResult where
  state : VROChoreographer
  trace : List Event
  completed : Bool
  deriving DecidableEq, Repr

/-- The reconfiguration gate at the top of render (lines 191 to 194). -/
def renderGate (self : VROChoreographer) : VROChoreographer :=
  if self.renderTargetsChanged then
    { self.createRenderTargets with renderTargetsChanged := false }
  else self

/-- The calls of a render call that follow the gate, on the state `s` the gate left: the
preprocesses (not for the right eye), then renderScene. -/
def passSteps (s : VROChoreographer) (eye : VROEyeType) (scene outgoingScene : VROScene)
    (metadata : VRORenderMetadata) (postProcessed : Bool) : List (Option Event) :=
  (if eye = VROEyeType.Left ∨ eye = VROEyeType.Monocular then
      some (Event.setPBREnabled (s.hdrEnabled && s.pbrEnabled))
        :: s.preprocesses.map (fun p => some (Event.preprocess p scene))
    else [])
  ++ s.renderScene scene outgoingScene metadata postProcessed

/-- The calls of a render call, in order: createRenderTargets when the dirty flag is set,
then the passes on the state left by the gate. -/
def renderSteps (self : VROChoreographer) (eye : VROEyeType) (scene outgoingScene : VROScene)
    (metadata : VRORenderMetadata) (postProcessed : Bool) : List (Option Event) :=
  (if self.renderTargetsChanged then [some Event.createRenderTargets] else [])
  ++ self.renderGate.passSteps eye scene outgoingScene metadata postProcessed

/-- The member render. -/
def render (self : VROChoreographer) (eye : VROEyeType) (scene outgoingScene : VROScene)
    (metadata : VRORenderMetadata) (postProcessed : Bool) : RenderResult :=
  let r := runSteps (self.renderSteps eye scene outgoingScene metadata postProcessed)
  { state := self.renderGate, trace := r.1, completed := r.2 }

/-- The member setRenderToTextureEnabled. -/
def setRenderToTextureEnabled (self : VROChoreographer) (enabled : Bool) : VROChoreographer :=
  { self with renderToTexture := enabled }

/-- The member setRenderToTextureCallback; only the presence of a callback is recorded. -/
def setRenderToTextureCallback (self : VROChoreographer) (callback : Bool) : VROChoreographer :=
  { self with renderToTextureCallback := callback }

/-- The member setRenderToTextureDelegate; only the presence of a delegate is recorded. -/
def setRenderToTextureDelegate (self : VROChoreographer) (delegate : Bool) : VROChoreographer :=
  { self with renderToTextureDelegate := delegate }

/-- The member setRenderTexture: attaches the texture to the render-to-texture target;
`none` when that target is a null pointer. -/
def setRenderTexture (self : VROChoreographer) (texture : Nat) : Option VROChoreographer :=
  match self.renderToTextureTarget with
  | some t => some { self with renderToTextureTarget := some (t.attachTexture texture) }
  | none => none

/-- Modelled from the spec: the setter of the base render pass is declared in
VROChoreographer.h, which is not among the sources; it installs (or removes) the base
render pass that renderScene invokes. -/
def setBaseRenderPass (self : VROChoreographer) (pass : Bool) : VROChoreographer :=
  { self with baseRenderPass := pass }

/-- The driver is destroyed by its owner: from now on the weak reference no longer locks. -/
def driverExpired (self : VROChoreographer) : VROChoreographer :=
  { self with driverAlive := false }

end VROChoreographer

/-! ## Operations and reachable states -/

/-- The calls a client can make on a choreographer, and the one thing its environment can
do to it (let the driver expire). -/
inductive Op where
  | setHDREnabled (enable : Bool)
  | setPBREnabled (enable : Bool)
  | setShadowsEnabled (enable : Bool)
  | setBloomEnabled (enable : Bool)
  | setRenderToTextureEnabled (enabled : Bool)
  | setViewport (viewport : VROViewport)
  | setClearColor (color : VROVector4f)
  | render (eye : VROEyeType) (scene outgoingScene : VROScene) (metadata : VRORenderMetadata)
      (postProcessed : Bool)
  | setRenderToTextureCallback (callback : Bool)
  | setRenderToTextureDelegate (delegate : Bool)
  | setRenderTexture (texture : Nat)
  | setBaseRenderPass (pass : Bool)
  | driverExpired
  deriving DecidableEq, Repr

/-- The choreographer after the call. -/
def Op.next (op : Op) (s : VROChoreographer) : VROChoreographer :=
  match op with
  | .setHDREnabled b => (s.setHDREnabled b).2
  | .setPBREnabled b => (s.setPBREnabled b).2
  | .setShadowsEnabled b => (s.setShadowsEnabled b).2
  | .setBloomEnabled b => (s.setBloomEnabled b).2
  | .setRenderToTextureEnabled b => s.setRenderToTextureEnabled b
  | .setViewport v => s.setViewport v
  | .setClearColor c => s.setClearColor c
  | .render eye scene outgoing metadata pp => (s.render eye scene outgoing metadata pp).state
  | .setRenderToTextureCallback c => s.setRenderToTextureCallback c
  | .setRenderToTextureDelegate d => s.setRenderToTextureDelegate d
  | .setRenderTexture t => (s.setRenderTexture t).getD s
  | .setBaseRenderPass p => s.setBaseRenderPass p
  | .driverExpired => s.driverExpired

/-- Whether the call runs to its end (no null pointer is dereferenced on the way). -/
def Op.completes (op : Op) (s : VROChoreographer) : Bool :=
  match op with
  | .render eye scene outgoing metadata pp => (s.render eye scene outgoing metadata pp).completed
  | .setRenderTexture t => (s.setRenderTexture t).isSome
  | _ => true

/-- The states reached from `s0` by calls that run to their end. -/
inductive ReachableFrom (s0 : VROChoreographer) : VROChoreographer → Prop where
  | refl : ReachableFrom s0 s0
  | step {s : VROChoreographer} (op : Op) :
      ReachableFrom s0 s → op.completes s = true → ReachableFrom s0 (op.next s)

/-- The states reachable from construction. -/
def Reachable (s : VROChoreographer) : Prop :=
  ∃ config driver, ReachableFrom (VROChoreographer.construct config driver) s

/-! ## The four toggles, uniformly -/

/-- The four features that have a toggle. -/
inductive Feature where
  | hdr
  | pbr
  | shadows
  | bloom
  deriving DecidableEq, Repr

/-- The enabled flag of a feature. -/
def Feature.enabled : Feature → VROChoreographer → Bool
  | .hdr, s => s.hdrEnabled
  | .pbr, s => s.pbrEnabled
  | .shadows, s => s.shadowsEnabled
  | .bloom, s => s.bloomEnabled

/-- The supported flag a feature is gated on (`_mrtSupported` for shadows). -/
def Feature.supported : Feature → VROChoreographer → Bool
  | .hdr, s => s.hdrSupported
  | .pbr, s => s.pbrSupported
  | .shadows, s => s.mrtSupported
  | .bloom, s => s.bloomSupported

/-- The setter of a feature. -/
def Feature.set : Feature → VROChoreographer → Bool → Bool × VROChoreographer
  | .hdr, s, b => s.setHDREnabled b
  | .pbr, s, b => s.setPBREnabled b
  | .shadows, s, b => s.setShadowsEnabled b
  | .bloom, s, b => s.setBloomEnabled b

/-- The FeatureFlags invariant: enabled implies supported for the four gated features, and
the dependencies among the supported flags. -/
def FeatureFlagsInvariant (s : VROChoreographer) : Prop :=
  (s.shadowsEnabled = true → s.mrtSupported = true) ∧
  (s.hdrEnabled = true → s.hdrSupported = true) ∧
  (s.pbrEnabled = true → s.pbrSupported = true) ∧
  (s.bloomEnabled = true → s.bloomSupported = true) ∧
  (s.pbrSupported = true → s.hdrSupported = true) ∧
  (s.bloomSupported = true → s.mrtSupported = true ∧ s.hdrSupported = true)

/-- Membership of the render target set as the flags prescribe it: blit and
render-to-texture targets iff MRT is supported, hdr and post-process targets iff HDR is
enabled, blur targets iff HDR and bloom are enabled. -/
def TargetsMatchFlags (s : VROChoreographer) : Prop :=
  s.blitTarget.isSome = s.mrtSupported ∧
  s.renderToTextureTarget.isSome = s.mrtSupported ∧
  s.hdrTarget.isSome = s.hdrEnabled ∧
  s.postProcessTarget.isSome = s.hdrEnabled ∧
  s.blurTargetA.isSome = (s.hdrEnabled && s.bloomEnabled) ∧
  s.blurTargetB.isSome = (s.hdrEnabled && s.bloomEnabled)

/-- HDR support needs MRT support: a dependency the constructor establishes besides those
of the FeatureFlags invariant. -/
def HdrNeedsMrt (s : VROChoreographer) : Prop :=
  s.hdrSupported = true → s.mrtSupported = true

instance (s : VROChoreographer) : Decidable (FeatureFlagsInvariant s) := by
  unfold FeatureFlagsInvariant; infer_instance

instance (s : VROChoreographer) : Decidable (TargetsMatchFlags s) := by
  unfold TargetsMatchFlags; infer_instance

/-- The common shape of the four setters: from the requested value, the enabled flag, the
supported flag and the dirty flag to the returned value and the new enabled and dirty
flags. -/
def toggle (requested enabled supported dirty : Bool) : Bool × Bool × Bool :=
  if !requested then
    if enabled then (true, false, true) else (true, enabled, dirty)
  else
    if !supported then (false, enabled, dirty)
    else if !enabled then (true, true, true)
    else (true, enabled, dirty)

/-! ## Sample inputs -/

/-- A display target as a driver hands it out. -/
def sampleDisplay : VRORenderTarget :=
  VRODriver.newRenderTarget .ColorTexture 1 4 true

/-- A driver with a capable GPU, a linear colour mode and bloom support. -/
def capableDriver : VRODriver :=
  { gpuType := .other 1, colorRenderingMode := .other 2, bloomSupported := true,
    display := sampleDisplay }

/-- A driver of the low-end tier. -/
def lowEndDriver : VRODriver :=
  { gpuType := .Adreno330OrOlder, colorRenderingMode := .other 2, bloomSupported := true,
    display := sampleDisplay }

/-- Every feature requested. -/
def allOn : VRORendererConfiguration :=
  { enableShadows := true, enableHDR := true, enablePBR := true, enableBloom := true }

/-- No feature requested. -/
def allOff : VRORendererConfiguration :=
  { enableShadows := false, enableHDR := false, enablePBR := false, enableBloom := false }

/-- A state reached from construction in which the driver has expired: a capable driver,
nothing enabled, a base render pass installed. -/
def expiredDriverState : VROChoreographer :=
  ((VROChoreographer.construct allOff capableDriver).setBaseRenderPass true).driverExpired

/-! ## Describing a render call -/

open VROChoreographer

/-- The event of the gate of a render call: createRenderTargets is called when the dirty
flag is set on entry. -/
def gateEvents (s : VROChoreographer) : List Event :=
  if s.renderTargetsChanged then [Event.createRenderTargets] else []

/-- The events of the preprocess block of a render call on the state `g` the gate left: for
the left or the single eye, setPBREnabled on the context and every preprocess of the list
against the incoming scene; nothing for the right eye. -/
def preprocessEvents (g : VROChoreographer) (eye : VROEyeType) (scene : VROScene) :
    List Event :=
  if eye = VROEyeType.Left ∨ eye = VROEyeType.Monocular then
    Event.setPBREnabled (g.hdrEnabled && g.pbrEnabled)
      :: g.preprocesses.map (fun p => Event.preprocess p scene)
  else []

/-- Whether the event is the execution of a preprocess. -/
def VROChoreographer.Event.isPreprocess : VROChoreographer.Event → Bool
  | .preprocess _ _ => true
  | _ => false

/-- Whether the event is a call of the base render pass. -/
def VROChoreographer.Event.isBaseRenderPass : VROChoreographer.Event → Bool
  | .baseRenderPass _ _ _ => true
  | _ => false

/-- Whether the event is a call of the tone-mapping pass. -/
def VROChoreographer.Event.isToneMapping : VROChoreographer.Event → Bool
  | .toneMappingPass _ _ => true
  | _ => false

/-- Whether the event belongs to the render-to-texture bridge (renderToTextureAndDisplay):
the flip blit, the delegate call, the shader blit to the display, the callback. -/
def VROChoreographer.Event.isBridge : VROChoreographer.Event → Bool
  | .blitColor _ _ _ => true
  | .renderedFrameTexture _ => true
  | .blitPostProcess _ _ => true
  | .renderToTextureCallback => true
  | _ => false

/-- The output target of a pass, for the events that are passes with an output target. -/
def VROChoreographer.Event.outputTarget : VROChoreographer.Event → Option VROChoreographer.TargetSlot
  | .baseRenderPass _ _ t => some t
  | .gaussianBlurPass _ _ t => some t
  | .additiveBlend _ t => some t
  | .toneMappingPass _ t => some t
  | _ => none

/-- The events of the render-to-texture bridge run on blitTarget, when every call goes
through: flip blit into renderToTextureTarget, the delegate (if one is set) with the input
target, the shader blit of the input texture to the display, the callback (if one is
set). -/
def bridgeEvents (g : VROChoreographer) : List Event :=
  [Event.blitColor .blitTarget .renderToTextureTarget true]
  ++ (if g.renderToTextureDelegate then [Event.renderedFrameTexture .blitTarget] else [])
  ++ [Event.blitPostProcess [⟨.blitTarget, 0⟩] .display]
  ++ (if g.renderToTextureCallback then [Event.renderToTextureCallback] else [])

/-- The four branches of renderScene. -/
inductive Branch where
  | hdrBloom
  | hdrOnly
  | renderToTexture
  | direct
  deriving DecidableEq, Repr

/-- The branch chosen in priority order: HDR with bloom if hdrEnabled, bloomEnabled and the
metadata requires the bloom pass; else HDR only if hdrEnabled; else non-HDR
render-to-texture if mrtSupported and render-to-texture is enabled; else direct. -/
def selectBranch (g : VROChoreographer) (metadata : VRORenderMetadata) : Branch :=
  if g.hdrEnabled && g.bloomEnabled && metadata.requiresBloomPass then Branch.hdrBloom
  else if g.hdrEnabled then Branch.hdrOnly
  else if g.mrtSupported && g.renderToTexture then Branch.renderToTexture
  else Branch.direct

/-- The output target of the base pass in each branch. -/
def Branch.baseOutput : Branch → VROChoreographer.TargetSlot
  | .hdrBloom => .hdrTarget
  | .hdrOnly => .hdrTarget
  | .renderToTexture => .blitTarget
  | .direct => .display

/-- Whether the last pass of the selected branch writes to blitTarget: the tone-mapping
pass of the HDR branches iff render-to-texture is enabled, the base pass otherwise iff
mrtSupported and render-to-texture is enabled. -/
def finalPassWritesBlit (g : VROChoreographer) : Bool :=
  if g.hdrEnabled then g.renderToTexture else g.mrtSupported && g.renderToTexture

/-- The render targets, the pass objects and the preprocess list of a choreographer. -/
def targetSet (s : VROChoreographer) :
    (Option VRORenderTarget × Option VRORenderTarget × Option VRORenderTarget ×
      Option VRORenderTarget × Option VRORenderTarget × Option VRORenderTarget) ×
    (Option VROImagePostProcess × Option VROGaussianBlurRenderPass ×
      Option VROImagePostProcess × Option VROToneMappingRenderPass) ×
    List VROPreprocess :=
  ((s.blitTarget, s.renderToTextureTarget, s.postProcessTarget, s.hdrTarget, s.blurTargetA,
      s.blurTargetB),
   (s.blitPostProcess, s.gaussianBlurPass, s.additiveBlendPostProcess, s.toneMappingPass),
   s.preprocesses)

/-- The targets and passes are those the flags call for: membership of the target set as
in TargetsMatchFlags, the blit post-process iff mrtSupported, the blur pass and the additive
blend iff HDR and bloom are enabled, the tone-mapping pass iff HDR is enabled, and an
hdrTarget with 2 attachments under bloom and 1 otherwise. -/
def TargetSetConsistent (s : VROChoreographer) : Prop :=
  TargetsMatchFlags s ∧
  s.blitPostProcess.isSome = s.mrtSupported ∧
  s.gaussianBlurPass.isSome = (s.hdrEnabled && s.bloomEnabled) ∧
  s.additiveBlendPostProcess.isSome = (s.hdrEnabled && s.bloomEnabled) ∧
  s.toneMappingPass.isSome = s.hdrEnabled ∧
  s.hdrTarget.map (fun t => t.numAttachments)
    = (if s.hdrEnabled then some (if s.bloomEnabled then 2 else 1) else none)

/-- The dirty-flag protocol: while the driver is alive, a clear dirty flag means the
targets and passes are those the flags call for. -/
def DirtyProtocol (s : VROChoreographer) : Prop :=
  s.driverAlive = true → s.renderTargetsChanged = false → TargetSetConsistent s

/-- The passes of renderScene in the selected branch, when every call goes through, up to
and including the last pass (the tone-mapping pass in the HDR branches, the base pass
otherwise). -/
def mainPasses (g : VROChoreographer) (scene outgoingScene : VROScene)
    (metadata : VRORenderMetadata) (postProcessed : Bool) : List Event :=
  match selectBranch g metadata with
  | .hdrBloom =>
    [Event.baseRenderPass scene outgoingScene .hdrTarget,
     Event.gaussianBlurPass .hdrTarget .blurTargetA .blurTargetB,
     Event.additiveBlend [⟨.hdrTarget, 0⟩, ⟨.blurTargetB, 0⟩] .postProcessTarget,
     Event.handlePostProcessing .postProcessTarget .hdrTarget postProcessed,
     Event.toneMappingPass (if postProcessed then ⟨.hdrTarget, 0⟩ else ⟨.postProcessTarget, 0⟩)
       (if g.renderToTexture then .blitTarget else .display)]
  | .hdrOnly =>
    [Event.baseRenderPass scene outgoingScene .hdrTarget,
     Event.handlePostProcessing .hdrTarget .postProcessTarget postProcessed,
     Event.toneMappingPass (if postProcessed then ⟨.postProcessTarget, 0⟩ else ⟨.hdrTarget, 0⟩)
       (if g.renderToTexture then .blitTarget else .display)]
  | .renderToTexture => [Event.baseRenderPass scene outgoingScene .blitTarget]
  | .direct => [Event.baseRenderPass scene outgoingScene .display]

/-- Whether the event is a call of the gaussian blur pass. -/
def VROChoreographer.Event.isGaussianBlur : VROChoreographer.Event → Bool
  | .gaussianBlurPass _ _ _ => true
  | _ => false

/-- Whether the event is the additive blend. -/
def VROChoreographer.Event.isAdditiveBlend : VROChoreographer.Event → Bool
  | .additiveBlend _ _ => true
  | _ => false

/-- Whether the event belongs to renderScene: a pass, the post-process stage, or a step of
the bridge; the gate call and the preprocess block are the ones that do not. -/
def VROChoreographer.Event.isSceneStep : VROChoreographer.Event → Bool
  | .createRenderTargets => false
  | .setPBREnabled _ => false
  | .preprocess _ _ => false
  | _ => true

/-- The state between the two eyes of a stereo frame in which HDR was switched on after the
left eye was rendered: a capable driver, nothing enabled at construction, a base render pass
installed. -/
def toggledBetweenEyes : VROChoreographer :=
  ((((VROChoreographer.construct allOff capableDriver).setBaseRenderPass true).render
      .Left 1 0 ⟨false⟩ false).state.setHDREnabled true).2

/-- The viewport each slot is to have once the viewport `v` is set: the display the full
viewport, the blur targets the untranslated viewport with width and height multiplied by
the blur factor 0.25 in single precision and cut to an int, every other target the
untranslated viewport. -/
def expectedViewport (v : VROViewport) : VROChoreographer.TargetSlot → VROViewport
  | .display => v
  | .blurTargetA => ⟨0, 0, Int.tdiv (floatOfInt v.width) 4, Int.tdiv (floatOfInt v.height) 4⟩
  | .blurTargetB => ⟨0, 0, Int.tdiv (floatOfInt v.width) 4, Int.tdiv (floatOfInt v.height) 4⟩
  | _ => ⟨0, 0, v.width, v.height⟩

/-- A state reached by toggles and a render call on a live driver: a bare construction,
the base render pass installed, HDR switched on, one frame rendered, then bloom and
render-to-texture switched on. -/
def busyState : VROChoreographer :=
  (Op.setRenderToTextureEnabled true).next
    ((Op.setBloomEnabled true).next
      ((Op.render .Left 1 0 ⟨true⟩ false).next
        ((Op.setHDREnabled true).next
          ((Op.setBaseRenderPass true).next
            (VROChoreographer.construct allOff capableDriver)))))

/-- HDR requested, nothing else. -/
def hdrOnlyConfig : VRORendererConfiguration :=
  { enableShadows := false, enableHDR := true, enablePBR := false, enableBloom := false }

/-- A state reached from construction in which bloom was switched on after the driver
expired: HDR on and bloom off at construction, a base render pass installed. -/
def bloomAfterExpiryState : VROChoreographer :=
  ((((VROChoreographer.construct hdrOnlyConfig capableDriver).setBaseRenderPass
      true).driverExpired).setBloomEnabled true).2

/-- The render target without the texture attached to it by setRenderTexture. -/
def VRORenderTarget.detached (t : VRORenderTarget) : VRORenderTarget :=
  { t with attachedTexture := none }

/-- What createRenderTargets reads of the state: the flags it branches on, the colour mode
of the driver, the last viewport and the last clear colour. -/
def allocKey (s : VROChoreographer) :
    Bool × Bool × Bool × Bool × Bool × VROColorRenderingMode × Option VROViewport
      × VROVector4f :=
  (s.mrtSupported, s.shadowsEnabled, s.hdrEnabled, s.pbrEnabled, s.bloomEnabled,
    s.driver.colorRenderingMode, s.viewport, s.clearColor)

/-- The render targets (up to a texture attached by setRenderTexture), the pass objects and
the preprocess list of `s` are those of `r`. -/
def SameTargetSet (s r : VROChoreographer) : Prop :=
  (∀ slot : VROChoreographer.TargetSlot, slot ≠ .display →
    (s.target slot).map VRORenderTarget.detached
      = (r.target slot).map VRORenderTarget.detached) ∧
  s.blitPostProcess = r.blitPostProcess ∧
  s.gaussianBlurPass = r.gaussianBlurPass ∧
  s.additiveBlendPostProcess = r.additiveBlendPostProcess ∧
  s.toneMappingPass = r.toneMappingPass ∧
  s.preprocesses = r.preprocesses

/-- The dirty-flag protocol in full: while the driver is alive, a clear dirty flag means the
render targets, the pass objects and the preprocess list are those createRenderTargets
would produce now. -/
def RebuildProtocol (s : VROChoreographer) : Prop :=
  s.driverAlive = true → s.renderTargetsChanged = false →
    SameTargetSet s s.createRenderTargets

/-- The effect of setClearColor on the target of a slot: renderToTextureTarget is left
alone. -/
def clearColorOn (c : VROVector4f) :
    VROChoreographer.TargetSlot → VRORenderTarget → VRORenderTarget
  | .renderToTextureTarget, t => t
  | _, t => t.setClearColor c

/-- A state reached from construction with a dead driver and a clear dirty flag: bloom was
switched on after the driver expired, then a frame was rendered with metadata that does not
require bloom. -/
def staleBloomState : VROChoreographer :=
  (Op.render .Left 1 0 ⟨false⟩ false).next bloomAfterExpiryState

/-- A state reached from construction on a live driver with a clear dirty flag in which a
texture was attached to the render-to-texture target. -/
def textureAttachedState : VROChoreographer :=
  (Op.setRenderTexture 5).next (VROChoreographer.construct allOff capableDriver)

instance (s : VROChoreographer) : Decidable (TargetSetConsistent s) := by
  unfold TargetSetConsistent; infer_instance

/-- A state reached from construction in which HDR was switched off after the driver
expired: everything on at construction, a base render pass installed. -/
def hdrOffAfterExpiryState : VROChoreographer :=
  ((((VROChoreographer.construct allOn capableDriver).setBaseRenderPass
      true).driverExpired).setHDREnabled false).2

/-- A state reached from construction in which HDR was switched on after the driver
expired: nothing on at construction, a base render pass installed. -/
def hdrAfterExpiryState : VROChoreographer :=
  ((((VROChoreographer.construct allOff capableDriver).setBaseRenderPass
      true).driverExpired).setHDREnabled true).2

/-! ## Shared lemmas -/

open VROChoreographer

/-- The flags one by one are untouched by createRenderTargets. -/
theorem createRenderTargets_flags (s : VROChoreographer) :
    s.createRenderTargets.mrtSupported = s.mrtSupported ∧
    s.createRenderTargets.hdrSupported = s.hdrSupported ∧
    s.createRenderTargets.pbrSupported = s.pbrSupported ∧
    s.createRenderTargets.bloomSupported = s.bloomSupported ∧
    s.createRenderTargets.shadowsEnabled = s.shadowsEnabled ∧
    s.createRenderTargets.hdrEnabled = s.hdrEnabled ∧
    s.createRenderTargets.pbrEnabled = s.pbrEnabled ∧
    s.createRenderTargets.bloomEnabled = s.bloomEnabled := by
  cases h1 : s.driverAlive <;> cases h2 : s.mrtSupported <;> cases h3 : s.hdrEnabled <;>
    cases h4 : s.bloomEnabled <;> cases h5 : s.viewport <;>
    simp [createRenderTargets, createHDRTargets, createBlitTargets, resetTargets, setViewport,
      setClearColor, h1, h2, h3, h4, h5]

/-- The remaining settings are untouched by createRenderTargets as well. -/
theorem createRenderTargets_settings (s : VROChoreographer) :
    s.createRenderTargets.driverAlive = s.driverAlive ∧
    s.createRenderTargets.renderTargetsChanged = s.renderTargetsChanged ∧
    s.createRenderTargets.renderToTexture = s.renderToTexture ∧
    s.createRenderTargets.clearColor = s.clearColor ∧
    s.createRenderTargets.viewport = s.viewport ∧
    s.createRenderTargets.baseRenderPass = s.baseRenderPass ∧
    s.createRenderTargets.renderToTextureDelegate = s.renderToTextureDelegate ∧
    s.createRenderTargets.renderToTextureCallback = s.renderToTextureCallback := by
  cases h1 : s.driverAlive <;> cases h2 : s.mrtSupported <;> cases h3 : s.hdrEnabled <;>
    cases h4 : s.bloomEnabled <;> cases h5 : s.viewport <;>
    simp [createRenderTargets, createHDRTargets, createBlitTargets, resetTargets, setViewport,
      setClearColor, h1, h2, h3, h4, h5]

/-- The gate of render leaves the eight flags as they are. -/
theorem renderGate_flags (s : VROChoreographer) :
    s.renderGate.mrtSupported = s.mrtSupported ∧
    s.renderGate.hdrSupported = s.hdrSupported ∧
    s.renderGate.pbrSupported = s.pbrSupported ∧
    s.renderGate.bloomSupported = s.bloomSupported ∧
    s.renderGate.shadowsEnabled = s.shadowsEnabled ∧
    s.renderGate.hdrEnabled = s.hdrEnabled ∧
    s.renderGate.pbrEnabled = s.pbrEnabled ∧
    s.renderGate.bloomEnabled = s.bloomEnabled := by
  unfold renderGate
  split
  · exact createRenderTargets_flags s
  · simp

/-- No operation changes a supported flag. -/
theorem next_supported (op : Op) (s : VROChoreographer) :
    (op.next s).mrtSupported = s.mrtSupported ∧
    (op.next s).hdrSupported = s.hdrSupported ∧
    (op.next s).pbrSupported = s.pbrSupported ∧
    (op.next s).bloomSupported = s.bloomSupported := by
  cases op with
  | setHDREnabled b =>
    cases b <;> cases h1 : s.hdrEnabled <;> cases h2 : s.hdrSupported <;>
      simp [Op.next, setHDREnabled, h1, h2]
  | setPBREnabled b =>
    cases b <;> cases h1 : s.pbrEnabled <;> cases h2 : s.pbrSupported <;>
      simp [Op.next, setPBREnabled, h1, h2]
  | setShadowsEnabled b =>
    cases b <;> cases h1 : s.shadowsEnabled <;> cases h2 : s.mrtSupported <;>
      simp [Op.next, setShadowsEnabled, h1, h2]
  | setBloomEnabled b =>
    cases b <;> cases h1 : s.bloomEnabled <;> cases h2 : s.bloomSupported <;>
      simp [Op.next, setBloomEnabled, h1, h2]
  | setRenderToTextureEnabled b => simp [Op.next, setRenderToTextureEnabled]
  | setViewport v => simp [Op.next, setViewport]
  | setClearColor c => simp [Op.next, setClearColor]
  | render eye scene outgoing metadata pp =>
    have h := renderGate_flags s
    simp only [Op.next, render]
    exact ⟨h.1, h.2.1, h.2.2.1, h.2.2.2.1⟩
  | setRenderToTextureCallback c => simp [Op.next, setRenderToTextureCallback]
  | setRenderToTextureDelegate d => simp [Op.next, setRenderToTextureDelegate]
  | setRenderTexture t =>
    cases h : s.renderToTextureTarget <;> simp [Op.next, setRenderTexture, h]
  | setBaseRenderPass p => simp [Op.next, setBaseRenderPass]
  | driverExpired => simp [Op.next, driverExpired]

/-- The supported flags of a state reached from `s0` are those of `s0`. -/
theorem reachableFrom_supported {s0 s : VROChoreographer} (h : ReachableFrom s0 s) :
    s.mrtSupported = s0.mrtSupported ∧
    s.hdrSupported = s0.hdrSupported ∧
    s.pbrSupported = s0.pbrSupported ∧
    s.bloomSupported = s0.bloomSupported := by
  induction h with
  | refl => exact ⟨rfl, rfl, rfl, rfl⟩
  | @step t op _ _ ih =>
    have hn := next_supported op t
    exact ⟨hn.1.trans ih.1, hn.2.1.trans ih.2.1, hn.2.2.1.trans ih.2.2.1,
      hn.2.2.2.trans ih.2.2.2⟩

/-- The supported flags the constructor derives from the driver. -/
theorem construct_supported (config : VRORendererConfiguration) (driver : VRODriver) :
    (construct config driver).mrtSupported
      = decide (driver.gpuType ≠ VROGPUType.Adreno330OrOlder) ∧
    (construct config driver).hdrSupported
      = (decide (driver.gpuType ≠ VROGPUType.Adreno330OrOlder)
          && decide (driver.colorRenderingMode ≠ VROColorRenderingMode.NonLinear)) ∧
    (construct config driver).pbrSupported
      = (decide (driver.gpuType ≠ VROGPUType.Adreno330OrOlder)
          && decide (driver.colorRenderingMode ≠ VROColorRenderingMode.NonLinear)) ∧
    (construct config driver).bloomSupported
      = (decide (driver.gpuType ≠ VROGPUType.Adreno330OrOlder)
          && (decide (driver.gpuType ≠ VROGPUType.Adreno330OrOlder)
              && decide (driver.colorRenderingMode ≠ VROColorRenderingMode.NonLinear))
          && driver.bloomSupported) := by
  unfold construct
  refine ⟨?_, ?_, ?_, ?_⟩
  · exact (createRenderTargets_flags _).1
  · exact (createRenderTargets_flags _).2.1
  · exact (createRenderTargets_flags _).2.2.1
  · exact (createRenderTargets_flags _).2.2.2.1

/-- The enabled flags the constructor derives from the configuration. -/
theorem construct_enabled (config : VRORendererConfiguration) (driver : VRODriver) :
    (construct config driver).shadowsEnabled
      = ((construct config driver).mrtSupported && config.enableShadows) ∧
    (construct config driver).hdrEnabled
      = ((construct config driver).hdrSupported && config.enableHDR) ∧
    (construct config driver).pbrEnabled
      = ((construct config driver).hdrSupported && config.enablePBR) ∧
    (construct config driver).bloomEnabled
      = ((construct config driver).bloomSupported && config.enableBloom) := by
  unfold construct
  refine ⟨?_, ?_, ?_, ?_⟩
  · rw [(createRenderTargets_flags _).2.2.2.2.1, (createRenderTargets_flags _).1]
  · rw [(createRenderTargets_flags _).2.2.2.2.2.1, (createRenderTargets_flags _).2.1]
  · rw [(createRenderTargets_flags _).2.2.2.2.2.2.1, (createRenderTargets_flags _).2.1]
  · rw [(createRenderTargets_flags _).2.2.2.2.2.2.2, (createRenderTargets_flags _).2.2.2.1]

/-- The constructed state satisfies the FeatureFlags invariant. -/
theorem construct_invariant (config : VRORendererConfiguration) (driver : VRODriver) :
    FeatureFlagsInvariant (construct config driver) := by
  have hs := construct_supported config driver
  have he := construct_enabled config driver
  unfold FeatureFlagsInvariant
  rw [he.1, he.2.1, he.2.2.1, he.2.2.2, hs.1, hs.2.1, hs.2.2.1, hs.2.2.2]
  simp
  tauto

/-- In the constructed state HDR support implies MRT support. -/
theorem construct_hdrNeedsMrt (config : VRORendererConfiguration) (driver : VRODriver) :
    HdrNeedsMrt (construct config driver) := by
  have hs := construct_supported config driver
  unfold HdrNeedsMrt
  rw [hs.1, hs.2.1]
  simp
  tauto

/-- Every operation preserves the FeatureFlags invariant. -/
theorem next_invariant (op : Op) (s : VROChoreographer) (h : FeatureFlagsInvariant s) :
    FeatureFlagsInvariant (op.next s) := by
  unfold FeatureFlagsInvariant at *
  cases op with
  | setHDREnabled b =>
    cases b <;> cases h1 : s.hdrEnabled <;> cases h2 : s.hdrSupported <;>
      simp_all [Op.next, setHDREnabled]
  | setPBREnabled b =>
    cases b <;> cases h1 : s.pbrEnabled <;> cases h2 : s.pbrSupported <;>
      simp_all [Op.next, setPBREnabled]
  | setShadowsEnabled b =>
    cases b <;> cases h1 : s.shadowsEnabled <;> cases h2 : s.mrtSupported <;>
      simp_all [Op.next, setShadowsEnabled]
  | setBloomEnabled b =>
    cases b <;> cases h1 : s.bloomEnabled <;> cases h2 : s.bloomSupported <;>
      simp_all [Op.next, setBloomEnabled]
  | setRenderToTextureEnabled b => simpa [Op.next, setRenderToTextureEnabled] using h
  | setViewport v => simpa [Op.next, setViewport] using h
  | setClearColor c => simpa [Op.next, setClearColor] using h
  | render eye scene outgoing metadata pp =>
    have hg := renderGate_flags s
    simp only [Op.next, render]
    rw [hg.1, hg.2.1, hg.2.2.1, hg.2.2.2.1, hg.2.2.2.2.1, hg.2.2.2.2.2.1, hg.2.2.2.2.2.2.1,
      hg.2.2.2.2.2.2.2]
    exact h
  | setRenderToTextureCallback c => simpa [Op.next, setRenderToTextureCallback] using h
  | setRenderToTextureDelegate d => simpa [Op.next, setRenderToTextureDelegate] using h
  | setRenderTexture t =>
    cases ht : s.renderToTextureTarget <;> simpa [Op.next, setRenderTexture, ht] using h
  | setBaseRenderPass p => simpa [Op.next, setBaseRenderPass] using h
  | driverExpired => simpa [Op.next, driverExpired] using h

/-- Every reachable state satisfies the FeatureFlags invariant and has HDR support only
with MRT support. -/
theorem reachable_invariant {s : VROChoreographer} (h : Reachable s) :
    FeatureFlagsInvariant s ∧ HdrNeedsMrt s := by
  obtain ⟨config, driver, hr⟩ := h
  induction hr with
  | refl => exact ⟨construct_invariant config driver, construct_hdrNeedsMrt config driver⟩
  | @step t op _ _ ih =>
    refine ⟨next_invariant op t ih.1, ?_⟩
    have hn := next_supported op t
    unfold HdrNeedsMrt
    rw [hn.1, hn.2.1]
    exact ih.2

/-- What createRenderTargets puts in each target slot when the driver is alive. -/
theorem createRenderTargets_targets (s : VROChoreographer) (h : s.driverAlive = true) :
    s.createRenderTargets.blitTarget.isSome = s.mrtSupported ∧
    s.createRenderTargets.renderToTextureTarget.isSome = s.mrtSupported ∧
    s.createRenderTargets.hdrTarget.isSome = s.hdrEnabled ∧
    s.createRenderTargets.postProcessTarget.isSome = s.hdrEnabled ∧
    s.createRenderTargets.blurTargetA.isSome = (s.hdrEnabled && s.bloomEnabled) ∧
    s.createRenderTargets.blurTargetB.isSome = (s.hdrEnabled && s.bloomEnabled) ∧
    s.createRenderTargets.hdrTarget.map (fun t => t.numAttachments)
      = (if s.hdrEnabled then some (if s.bloomEnabled then 2 else 1) else none) := by
  cases h2 : s.mrtSupported <;> cases h3 : s.hdrEnabled <;>
    cases h4 : s.bloomEnabled <;> cases h5 : s.viewport <;>
    simp [createRenderTargets, createHDRTargets, createBlitTargets, resetTargets, setViewport,
      setClearColor, VRODriver.newRenderTarget, VRORenderTarget.setViewport,
      VRORenderTarget.setClearColor, h, h2, h3, h4, h5]

/-- The preprocess list createRenderTargets builds when the driver is alive. -/
theorem createRenderTargets_preprocesses (s : VROChoreographer) (h : s.driverAlive = true) :
    s.createRenderTargets.preprocesses
      = (if s.mrtSupported then
          (if s.shadowsEnabled then [VROPreprocess.shadow] else [])
            ++ (if s.pbrEnabled then [VROPreprocess.ibl] else [])
        else []) := by
  cases h2 : s.mrtSupported <;> cases h3 : s.hdrEnabled <;>
    cases h4 : s.bloomEnabled <;> cases h5 : s.viewport <;>
    simp [createRenderTargets, createHDRTargets, createBlitTargets, resetTargets, setViewport,
      setClearColor, h, h2, h3, h4, h5]

/-- The reset at the top of createRenderTargets keeps the liveness of the driver. -/
theorem resetTargets_driverAlive (s : VROChoreographer) :
    s.resetTargets.driverAlive = s.driverAlive := rfl

/-- With a live driver createRenderTargets only looks at the state through the reset. -/
theorem createRenderTargets_of_reset (s : VROChoreographer) (h : s.driverAlive = true) :
    s.createRenderTargets = s.resetTargets.createRenderTargets := by
  have h2 : s.resetTargets.resetTargets = s.resetTargets := rfl
  unfold createRenderTargets
  simp only [resetTargets_driverAlive, h, h2, Bool.not_true, Bool.false_eq_true, if_false]

/-- A step that goes through puts its event at the head of the run. -/
theorem runSteps_cons_some (e : Event) (l : List (Option Event)) :
    (runSteps (some e :: l)).1 = e :: (runSteps l).1 := rfl

/-! ## Capability negotiation -/

/-- C1: for every driver descriptor the constructor computes mrtSupported as "the GPU type
is not Adreno330OrOlder", hdrSupported as mrtSupported and "the colour mode is not
NonLinear", pbrSupported as hdrSupported, and bloomSupported as mrtSupported and
hdrSupported and the driver bloom query. -/
theorem construct_capabilities (config : VRORendererConfiguration) (driver : VRODriver) :
    (construct config driver).mrtSupported
      = decide (driver.gpuType ≠ VROGPUType.Adreno330OrOlder) ∧
    (construct config driver).hdrSupported
      = ((construct config driver).mrtSupported
          && decide (driver.colorRenderingMode ≠ VROColorRenderingMode.NonLinear)) ∧
    (construct config driver).pbrSupported = (construct config driver).hdrSupported ∧
    (construct config driver).bloomSupported
      = ((construct config driver).mrtSupported && (construct config driver).hdrSupported
          && driver.bloomSupported) := by
  have hs := construct_supported config driver
  refine ⟨hs.1, ?_, ?_, ?_⟩
  · rw [hs.2.1, hs.1]
  · rw [hs.2.2.1, hs.2.1]
  · rw [hs.2.2.2, hs.2.1, hs.1]

/-- C2: when the constructed choreographer has mrtSupported = false, then hdrSupported,
pbrSupported and bloomSupported are false, and in every state reached afterwards
setShadowsEnabled(true) and setBloomEnabled(true) return false and leave the state as it
was. -/
theorem no_mrt_refuses_shadows_and_bloom (config : VRORendererConfiguration)
    (driver : VRODriver) (h : (construct config driver).mrtSupported = false) :
    (construct config driver).hdrSupported = false ∧
    (construct config driver).pbrSupported = false ∧
    (construct config driver).bloomSupported = false ∧
    ∀ s, ReachableFrom (construct config driver) s →
      s.setShadowsEnabled true = (false, s) ∧ s.setBloomEnabled true = (false, s) := by
  have hs := construct_supported config driver
  have hm : decide (driver.gpuType ≠ VROGPUType.Adreno330OrOlder) = false := by
    rw [← hs.1]; exact h
  have hhdr : (construct config driver).hdrSupported = false := by rw [hs.2.1, hm]; rfl
  have hpbr : (construct config driver).pbrSupported = false := by rw [hs.2.2.1, hm]; rfl
  have hbloom : (construct config driver).bloomSupported = false := by rw [hs.2.2.2, hm]; rfl
  refine ⟨hhdr, hpbr, hbloom, ?_⟩
  intro s hr
  have hk := reachableFrom_supported hr
  have h1 : s.mrtSupported = false := hk.1.trans h
  have h2 : s.bloomSupported = false := hk.2.2.2.trans hbloom
  constructor
  · simp [setShadowsEnabled, h1]
  · simp [setBloomEnabled, h2]

/-- Witness of C2 on the low-end driver: the refusal of shadows right after a viewport was
set. -/
theorem no_mrt_refuses_shadows_and_bloom_witness :
    (construct allOn lowEndDriver).mrtSupported = false ∧
    ((Op.setViewport ⟨0, 0, 640, 480⟩).next (construct allOn lowEndDriver)).setShadowsEnabled true
      = (false, (Op.setViewport ⟨0, 0, 640, 480⟩).next (construct allOn lowEndDriver)) :=
  ⟨by decide,
   ((no_mrt_refuses_shadows_and_bloom allOn lowEndDriver (by decide)).2.2.2 _
      (ReachableFrom.step (Op.setViewport ⟨0, 0, 640, 480⟩) ReachableFrom.refl rfl)).1⟩

/-! ## The toggle policy -/

/-- C3: for each of the four toggles and every state in which the feature is not supported
(mrtSupported for shadows), the setter called with true returns false and leaves the whole
state unchanged. -/
theorem enable_unsupported_refused (f : Feature) (s : VROChoreographer)
    (h : f.supported s = false) : f.set s true = (false, s) := by
  cases f <;> simp only [Feature.supported] at h <;>
    simp [Feature.set, setHDREnabled, setPBREnabled, setShadowsEnabled, setBloomEnabled, h]

/-- Witness of C3: HDR on the low-end driver. -/
theorem enable_unsupported_refused_witness :
    Feature.hdr.supported (construct allOn lowEndDriver) = false ∧
    Feature.hdr.set (construct allOn lowEndDriver) true = (false, construct allOn lowEndDriver) :=
  ⟨by decide, enable_unsupported_refused Feature.hdr (construct allOn lowEndDriver) (by decide)⟩

/-- C4: for each of the four toggles and every state, the setter called with false returns
true; and when the feature was enabled before the call, afterwards its enabled flag is
false and the dirty flag is set. -/
theorem disable_always_succeeds (f : Feature) (s : VROChoreographer) :
    (f.set s false).1 = true ∧
    (f.enabled s = true →
      f.enabled (f.set s false).2 = false ∧ (f.set s false).2.renderTargetsChanged = true) := by
  cases f
  · cases h : s.hdrEnabled <;> simp [Feature.set, Feature.enabled, setHDREnabled, h]
  · cases h : s.pbrEnabled <;> simp [Feature.set, Feature.enabled, setPBREnabled, h]
  · cases h : s.shadowsEnabled <;> simp [Feature.set, Feature.enabled, setShadowsEnabled, h]
  · cases h : s.bloomEnabled <;> simp [Feature.set, Feature.enabled, setBloomEnabled, h]

/-- Witness of C4: disabling bloom where it is enabled. -/
theorem disable_always_succeeds_witness :
    Feature.bloom.enabled (construct allOn capableDriver) = true ∧
    Feature.bloom.enabled (Feature.bloom.set (construct allOn capableDriver) false).2 = false ∧
    (Feature.bloom.set (construct allOn capableDriver) false).2.renderTargetsChanged = true :=
  ⟨by decide, (disable_always_succeeds Feature.bloom (construct allOn capableDriver)).2 (by decide)⟩

/-- C6, as the code has it: for each of the four toggles and every state in which the
feature is already enabled and supported, the setter called with true returns true and
leaves the whole state unchanged; in particular the dirty flag keeps the value it had. -/
theorem enable_enabled_is_noop (f : Feature) (s : VROChoreographer)
    (he : f.enabled s = true) (hs : f.supported s = true) : f.set s true = (true, s) := by
  cases f <;> simp only [Feature.supported, Feature.enabled] at he hs <;>
    simp [Feature.set, setHDREnabled, setPBREnabled, setShadowsEnabled, setBloomEnabled, he, hs]

/-- Witness of the amended C6: HDR enabled by the constructor. -/
theorem enable_enabled_is_noop_witness :
    Feature.hdr.enabled (construct allOn capableDriver) = true ∧
    Feature.hdr.supported (construct allOn capableDriver) = true ∧
    Feature.hdr.set (construct allOn capableDriver) true = (true, construct allOn capableDriver) :=
  ⟨by decide, by decide,
   enable_enabled_is_noop Feature.hdr (construct allOn capableDriver) (by decide) (by decide)⟩

/-- C6 fails as stated: in the constructed state with every feature on, HDR is enabled and
the dirty flag is clear, and after setHDREnabled(true) the dirty flag is still clear; and
in a state with HDR enabled but not supported the call returns false. -/
theorem enable_enabled_marks_dirty_counterexample :
    ((construct allOn capableDriver).hdrEnabled = true ∧
     (construct allOn capableDriver).renderTargetsChanged = false ∧
     ((construct allOn capableDriver).setHDREnabled true).1 = true ∧
     ((construct allOn capableDriver).setHDREnabled true).2.renderTargetsChanged = false) ∧
    (({ construct allOn capableDriver with hdrSupported := false }).hdrEnabled = true ∧
     (({ construct allOn capableDriver with hdrSupported := false }).setHDREnabled true).1
        = false) := by
  decide

/-- C7: the four setters are one function `toggle(requested, enabled, supported, dirty)`
applied to their own pair of flags: hdrEnabled with hdrSupported, pbrEnabled with
pbrSupported, shadowsEnabled with mrtSupported, bloomEnabled with bloomSupported. -/
theorem toggles_share_one_policy :
    ∃ tg : Bool → Bool → Bool → Bool → Bool × Bool × Bool,
      ∀ (s : VROChoreographer) (b : Bool),
        s.setHDREnabled b
          = ((tg b s.hdrEnabled s.hdrSupported s.renderTargetsChanged).1,
             { s with
               hdrEnabled := (tg b s.hdrEnabled s.hdrSupported s.renderTargetsChanged).2.1
               renderTargetsChanged :=
                 (tg b s.hdrEnabled s.hdrSupported s.renderTargetsChanged).2.2 }) ∧
        s.setPBREnabled b
          = ((tg b s.pbrEnabled s.pbrSupported s.renderTargetsChanged).1,
             { s with
               pbrEnabled := (tg b s.pbrEnabled s.pbrSupported s.renderTargetsChanged).2.1
               renderTargetsChanged :=
                 (tg b s.pbrEnabled s.pbrSupported s.renderTargetsChanged).2.2 }) ∧
        s.setShadowsEnabled b
          = ((tg b s.shadowsEnabled s.mrtSupported s.renderTargetsChanged).1,
             { s with
               shadowsEnabled := (tg b s.shadowsEnabled s.mrtSupported s.renderTargetsChanged).2.1
               renderTargetsChanged :=
                 (tg b s.shadowsEnabled s.mrtSupported s.renderTargetsChanged).2.2 }) ∧
        s.setBloomEnabled b
          = ((tg b s.bloomEnabled s.bloomSupported s.renderTargetsChanged).1,
             { s with
               bloomEnabled := (tg b s.bloomEnabled s.bloomSupported s.renderTargetsChanged).2.1
               renderTargetsChanged :=
                 (tg b s.bloomEnabled s.bloomSupported s.renderTargetsChanged).2.2 }) := by
  refine ⟨toggle, fun s b => ?_⟩
  obtain ⟨driver, alive, clear, dirty, rtt, mrtS, hdrS, pbrS, bloomS, shadows, hdr, pbr, bloom,
    vp, bp, bt, rt, ppt, ht, ba, bb, gp, ab, tm, pre, base, dlg, cb⟩ := s
  refine ⟨?_, ?_, ?_, ?_⟩
  · cases b <;> cases hdr <;> cases hdrS <;> rfl
  · cases b <;> cases pbr <;> cases pbrS <;> rfl
  · cases b <;> cases shadows <;> cases mrtS <;> rfl
  · cases b <;> cases bloom <;> cases bloomS <;> rfl

/-- C8: the FeatureFlags invariant holds in the state the constructor produces, for every
driver and configuration, and every operation preserves it. -/
theorem featureFlags_invariant :
    (∀ config driver, FeatureFlagsInvariant (construct config driver)) ∧
    (∀ (op : Op) (s : VROChoreographer),
      FeatureFlagsInvariant s → FeatureFlagsInvariant (op.next s)) :=
  ⟨construct_invariant, next_invariant⟩

/-- Witness of C8: the invariant before and after enabling bloom, then before and after the
render call that follows. -/
theorem featureFlags_invariant_witness :
    FeatureFlagsInvariant (construct allOff capableDriver) ∧
    FeatureFlagsInvariant ((Op.setBloomEnabled true).next (construct allOff capableDriver)) ∧
    FeatureFlagsInvariant
      ((Op.render .Left 0 0 ⟨true⟩ false).next
        ((Op.setBloomEnabled true).next (construct allOff capableDriver))) :=
  ⟨featureFlags_invariant.1 allOff capableDriver,
   featureFlags_invariant.2 _ _ (featureFlags_invariant.1 allOff capableDriver),
   featureFlags_invariant.2 _ _
     (featureFlags_invariant.2 _ _ (featureFlags_invariant.1 allOff capableDriver))⟩

/-! ## Enabling a feature and the next render call -/

/-- C5, with the guard of createRenderTargets: for each of the four toggles and every state
in which the feature is supported and disabled, the setter called with true returns true,
sets the enabled flag and sets the dirty flag; and, when the driver is still alive, the
next render call first calls createRenderTargets, clears the dirty flag, and runs all its
passes on a state whose flags are those the setter left and whose target set matches
them. -/
theorem enable_supported_then_render (f : Feature) (s : VROChoreographer)
    (hs : f.supported s = true) (he : f.enabled s = false) :
    (f.set s true).1 = true ∧
    f.enabled (f.set s true).2 = true ∧
    (f.set s true).2.renderTargetsChanged = true ∧
    (s.driverAlive = true →
    ∀ (eye : VROEyeType) (scene outgoing : VROScene) (metadata : VRORenderMetadata)
      (pp : Bool),
      ((f.set s true).2.render eye scene outgoing metadata pp).trace
        = Event.createRenderTargets ::
            (runSteps (((f.set s true).2.render eye scene outgoing metadata pp).state.passSteps
              eye scene outgoing metadata pp)).1 ∧
      ((f.set s true).2.render eye scene outgoing metadata pp).state.renderTargetsChanged
        = false ∧
      ((f.set s true).2.render eye scene outgoing metadata pp).state.mrtSupported
        = (f.set s true).2.mrtSupported ∧
      ((f.set s true).2.render eye scene outgoing metadata pp).state.hdrEnabled
        = (f.set s true).2.hdrEnabled ∧
      ((f.set s true).2.render eye scene outgoing metadata pp).state.bloomEnabled
        = (f.set s true).2.bloomEnabled ∧
      TargetsMatchFlags ((f.set s true).2.render eye scene outgoing metadata pp).state) := by
  have key : ∀ t : VROChoreographer, t.renderTargetsChanged = true → t.driverAlive = true →
      ∀ (eye : VROEyeType) (scene outgoing : VROScene) (metadata : VRORenderMetadata)
        (pp : Bool),
        (t.render eye scene outgoing metadata pp).trace
          = Event.createRenderTargets ::
              (runSteps ((t.render eye scene outgoing metadata pp).state.passSteps
                eye scene outgoing metadata pp)).1 ∧
        (t.render eye scene outgoing metadata pp).state.renderTargetsChanged = false ∧
        (t.render eye scene outgoing metadata pp).state.mrtSupported = t.mrtSupported ∧
        (t.render eye scene outgoing metadata pp).state.hdrEnabled = t.hdrEnabled ∧
        (t.render eye scene outgoing metadata pp).state.bloomEnabled = t.bloomEnabled ∧
        TargetsMatchFlags (t.render eye scene outgoing metadata pp).state := by
    intro t hdirty halive eye scene outgoing metadata pp
    have hg := renderGate_flags t
    have ht := createRenderTargets_targets t halive
    have hgate : t.renderGate = { t.createRenderTargets with renderTargetsChanged := false } := by
      simp [renderGate, hdirty]
    refine ⟨?_, ?_, hg.1, hg.2.2.2.2.2.1, hg.2.2.2.2.2.2.2, ?_⟩
    · simp only [render, renderSteps, hdirty, if_true, List.singleton_append,
        runSteps_cons_some]
    · simp [render, hgate]
    · unfold TargetsMatchFlags
      simp only [render]
      rw [hg.1, hg.2.2.2.2.2.1, hg.2.2.2.2.2.2.2, hgate]
      exact ⟨ht.1, ht.2.1, ht.2.2.1, ht.2.2.2.1, ht.2.2.2.2.1, ht.2.2.2.2.2.1⟩
  cases f <;> simp only [Feature.supported, Feature.enabled] at hs he
  · have e : Feature.hdr.set s true
        = (true, { s with hdrEnabled := true, renderTargetsChanged := true }) := by
      simp [Feature.set, setHDREnabled, hs, he]
    rw [e]
    exact ⟨rfl, rfl, rfl, fun hd => key _ rfl hd⟩
  · have e : Feature.pbr.set s true
        = (true, { s with pbrEnabled := true, renderTargetsChanged := true }) := by
      simp [Feature.set, setPBREnabled, hs, he]
    rw [e]
    exact ⟨rfl, rfl, rfl, fun hd => key _ rfl hd⟩
  · have e : Feature.shadows.set s true
        = (true, { s with shadowsEnabled := true, renderTargetsChanged := true }) := by
      simp [Feature.set, setShadowsEnabled, hs, he]
    rw [e]
    exact ⟨rfl, rfl, rfl, fun hd => key _ rfl hd⟩
  · have e : Feature.bloom.set s true
        = (true, { s with bloomEnabled := true, renderTargetsChanged := true }) := by
      simp [Feature.set, setBloomEnabled, hs, he]
    rw [e]
    exact ⟨rfl, rfl, rfl, fun hd => key _ rfl hd⟩

/-- Witness of the amended C5: enabling HDR on a capable driver with the base render pass
installed and nothing enabled before; the setter part is also checked on the state whose
driver has expired.  Before the render call there is no hdrTarget; the call runs to its end
on a target set that matches the flags and has one. -/
theorem enable_supported_then_render_witness :
    Feature.hdr.supported ((construct allOff capableDriver).setBaseRenderPass true) = true ∧
    Feature.hdr.enabled ((construct allOff capableDriver).setBaseRenderPass true) = false ∧
    ((construct allOff capableDriver).setBaseRenderPass true).driverAlive = true ∧
    (Feature.hdr.set ((construct allOff capableDriver).setBaseRenderPass true) true).2.hdrTarget
      = none ∧
    TargetsMatchFlags
      ((Feature.hdr.set ((construct allOff capableDriver).setBaseRenderPass true) true).2.render
        .Left 0 0 ⟨false⟩ false).state ∧
    ((Feature.hdr.set ((construct allOff capableDriver).setBaseRenderPass true) true).2.render
        .Left 0 0 ⟨false⟩ false).state.hdrTarget.isSome = true ∧
    ((Feature.hdr.set ((construct allOff capableDriver).setBaseRenderPass true) true).2.render
        .Left 0 0 ⟨false⟩ false).completed = true ∧
    expiredDriverState.driverAlive = false ∧
    (Feature.hdr.set expiredDriverState true).2.renderTargetsChanged = true :=
  ⟨by decide, by decide, by decide, by decide,
   ((enable_supported_then_render Feature.hdr
      ((construct allOff capableDriver).setBaseRenderPass true)
      (by decide) (by decide)).2.2.2 (by decide) .Left 0 0 ⟨false⟩ false).2.2.2.2.2,
   by decide, by decide, by decide,
   (enable_supported_then_render Feature.hdr expiredDriverState
      (by decide) (by decide)).2.2.1⟩

/-- C5 fails as stated once the driver has expired: the state is reached from
construction, HDR is supported and disabled, setHDREnabled(true) returns true, and the next
render call calls createRenderTargets, which returns at its guard: HDR is enabled, no
hdrTarget exists, the target set does not match the flags, and the base pass meets a null
pointer. -/
theorem enable_then_render_expired_driver_counterexample :
    Reachable expiredDriverState ∧
    Feature.hdr.supported expiredDriverState = true ∧
    Feature.hdr.enabled expiredDriverState = false ∧
    (expiredDriverState.setHDREnabled true).1 = true ∧
    ((expiredDriverState.setHDREnabled true).2.render .Left 0 0 ⟨false⟩ false).state.hdrEnabled
      = true ∧
    ((expiredDriverState.setHDREnabled true).2.render .Left 0 0 ⟨false⟩ false).state.hdrTarget
      = none ∧
    ¬ TargetsMatchFlags
      ((expiredDriverState.setHDREnabled true).2.render .Left 0 0 ⟨false⟩ false).state ∧
    ((expiredDriverState.setHDREnabled true).2.render .Left 0 0 ⟨false⟩ false).trace
      = [Event.createRenderTargets, Event.setPBREnabled false] ∧
    ((expiredDriverState.setHDREnabled true).2.render .Left 0 0 ⟨false⟩ false).completed
      = false := by
  refine ⟨⟨allOff, capableDriver, ?_⟩, by decide, by decide, by decide, by decide, by decide,
    by decide, by decide, by decide⟩
  exact ReachableFrom.step Op.driverExpired
    (ReachableFrom.step (Op.setBaseRenderPass true) ReachableFrom.refl rfl) rfl

/-! ## The target allocator -/

/-- C9: after createRenderTargets with a live driver, whatever the targets were before:
blitTarget and renderToTextureTarget are present iff mrtSupported; hdrTarget and
postProcessTarget iff hdrEnabled; blurTargetA and blurTargetB iff hdrEnabled and
bloomEnabled; hdrTarget, when present, has 2 colour attachments if bloomEnabled and 1
otherwise; and the result is the same from every state that differs only in what the reset
drops, so nothing of the previous target set remains. -/
theorem rebuild_targets_follow_flags (s : VROChoreographer) (h : s.driverAlive = true) :
    s.createRenderTargets.blitTarget.isSome = s.mrtSupported ∧
    s.createRenderTargets.renderToTextureTarget.isSome = s.mrtSupported ∧
    s.createRenderTargets.hdrTarget.isSome = s.hdrEnabled ∧
    s.createRenderTargets.postProcessTarget.isSome = s.hdrEnabled ∧
    s.createRenderTargets.blurTargetA.isSome = (s.hdrEnabled && s.bloomEnabled) ∧
    s.createRenderTargets.blurTargetB.isSome = (s.hdrEnabled && s.bloomEnabled) ∧
    (∀ t, s.createRenderTargets.hdrTarget = some t →
      t.numAttachments = if s.bloomEnabled then 2 else 1) ∧
    (∀ s0 : VROChoreographer, s0.resetTargets = s.resetTargets →
      s0.createRenderTargets = s.createRenderTargets) := by
  have ht := createRenderTargets_targets s h
  refine ⟨ht.1, ht.2.1, ht.2.2.1, ht.2.2.2.1, ht.2.2.2.2.1, ht.2.2.2.2.2.1, ?_, ?_⟩
  · intro t hsome
    have hm := ht.2.2.2.2.2.2
    rw [hsome] at hm
    cases h3 : s.hdrEnabled <;> simp [h3] at hm
    exact hm
  · intro s0 h0
    have halive : s0.driverAlive = true := by
      rw [← resetTargets_driverAlive s0, h0, resetTargets_driverAlive s, h]
    rw [createRenderTargets_of_reset s0 halive, createRenderTargets_of_reset s h, h0]

/-- Witness of C9: the constructed state with a stale hdrTarget and HDR switched off. -/
theorem rebuild_targets_follow_flags_witness :
    (construct allOn capableDriver).driverAlive = true ∧
    ((construct allOn capableDriver).setHDREnabled false).2.createRenderTargets.hdrTarget.isSome
      = ((construct allOn capableDriver).setHDREnabled false).2.hdrEnabled :=
  ⟨by decide,
   (rebuild_targets_follow_flags ((construct allOn capableDriver).setHDREnabled false).2
      (by decide)).2.2.1⟩

/-- C10: the preprocess list right after a rebuild, in the constructed state and after
createRenderTargets with a live driver in every state reachable from construction, is the
shadow preprocess iff shadowsEnabled followed by the IBL preprocess iff pbrEnabled. -/
theorem preprocesses_after_rebuild :
    (∀ config driver,
      (construct config driver).preprocesses
        = (if (construct config driver).shadowsEnabled then [VROPreprocess.shadow] else [])
          ++ (if (construct config driver).pbrEnabled then [VROPreprocess.ibl] else [])) ∧
    (∀ s : VROChoreographer, Reachable s → s.driverAlive = true →
      s.createRenderTargets.preprocesses
        = (if s.createRenderTargets.shadowsEnabled then [VROPreprocess.shadow] else [])
          ++ (if s.createRenderTargets.pbrEnabled then [VROPreprocess.ibl] else [])) := by
  have gen : ∀ s : VROChoreographer, s.driverAlive = true →
      (s.shadowsEnabled = true → s.mrtSupported = true) →
      (s.pbrEnabled = true → s.mrtSupported = true) →
      s.createRenderTargets.preprocesses
        = (if s.createRenderTargets.shadowsEnabled then [VROPreprocess.shadow] else [])
          ++ (if s.createRenderTargets.pbrEnabled then [VROPreprocess.ibl] else []) := by
    intro s halive h1 h2
    have hf := createRenderTargets_flags s
    rw [createRenderTargets_preprocesses s halive, hf.2.2.2.2.1, hf.2.2.2.2.2.2.1]
    cases hm : s.mrtSupported
    · have a : s.shadowsEnabled = false := by
        cases hx : s.shadowsEnabled
        · rfl
        · rw [h1 hx] at hm; cases hm
      have b : s.pbrEnabled = false := by
        cases hx : s.pbrEnabled
        · rfl
        · rw [h2 hx] at hm; cases hm
      simp [a, b]
    · simp
  constructor
  · intro config driver
    unfold construct
    apply gen
    · rfl
    · simp only [Bool.and_eq_true]
      intro hx
      exact hx.1
    · simp only [Bool.and_eq_true]
      intro hx
      exact hx.1.1
  · intro s hr halive
    have hi := reachable_invariant hr
    apply gen s halive hi.1.1
    intro hp
    exact hi.2 (hi.1.2.2.2.2.1 (hi.1.2.2.1 hp))

/-- Witness of C10: the rebuild after shadows were switched off leaves the IBL preprocess
alone. -/
theorem preprocesses_after_rebuild_witness :
    Reachable ((Op.setShadowsEnabled false).next (construct allOn capableDriver)) ∧
    ((Op.setShadowsEnabled false).next (construct allOn capableDriver)).driverAlive = true ∧
    ((Op.setShadowsEnabled false).next (construct allOn capableDriver)).createRenderTargets.preprocesses
      = [VROPreprocess.ibl] :=
  ⟨⟨allOn, capableDriver, ReachableFrom.step (Op.setShadowsEnabled false) ReachableFrom.refl rfl⟩,
   by decide,
   (preprocesses_after_rebuild.2 _
      ⟨allOn, capableDriver, ReachableFrom.step (Op.setShadowsEnabled false) ReachableFrom.refl rfl⟩
      (by decide)).trans (by decide)⟩

/-! ## Lemmas on the render cycle -/

/-- Calls that all go through, followed by further calls. -/
theorem runSteps_map_some_append (es : List Event) (l : List (Option Event)) :
    runSteps (es.map some ++ l) = (es ++ (runSteps l).1, (runSteps l).2) := by
  induction es with
  | nil => rfl
  | cons e es ih => simp [runSteps, ih]

/-- An event of a run comes from one of its calls. -/
theorem mem_runSteps {e : Event} {l : List (Option Event)} (h : e ∈ (runSteps l).1) :
    some e ∈ l := by
  induction l with
  | nil => simp [runSteps] at h
  | cons a l ih =>
    cases a with
    | none => simp [runSteps] at h
    | some a =>
      simp only [runSteps, List.mem_cons] at h
      rcases h with h | h
      · simp [h]
      · exact List.mem_cons_of_mem _ (ih h)

/-- The gate of render leaves the settings that are not flags as they are, the dirty flag
apart. -/
theorem renderGate_settings (s : VROChoreographer) :
    s.renderGate.driverAlive = s.driverAlive ∧
    s.renderGate.renderTargetsChanged = false ∧
    s.renderGate.renderToTexture = s.renderToTexture ∧
    s.renderGate.baseRenderPass = s.baseRenderPass ∧
    s.renderGate.renderToTextureDelegate = s.renderToTextureDelegate ∧
    s.renderGate.renderToTextureCallback = s.renderToTextureCallback := by
  have h := createRenderTargets_settings s
  unfold renderGate
  cases hd : s.renderTargetsChanged
  · simp [hd]
  · simp only [if_true]
    exact ⟨h.1, trivial, h.2.2.1, h.2.2.2.2.2.1, h.2.2.2.2.2.2.1, h.2.2.2.2.2.2.2⟩

/-- The steps of the gate and of the preprocess block all go through. -/
theorem renderSteps_eq (s : VROChoreographer) (eye : VROEyeType) (scene outgoing : VROScene)
    (metadata : VRORenderMetadata) (pp : Bool) :
    s.renderSteps eye scene outgoing metadata pp
      = (gateEvents s ++ preprocessEvents s.renderGate eye scene).map some
        ++ s.renderGate.renderScene scene outgoing metadata pp := by
  unfold renderSteps passSteps gateEvents preprocessEvents
  cases s.renderTargetsChanged <;> by_cases he : eye = VROEyeType.Left ∨ eye = VROEyeType.Monocular <;>
    simp [he, List.map_map, Function.comp_def]

/-- A render call: its state is the one the gate leaves, its trace is the gate event, the
preprocess events and the events of renderScene, and it completes iff renderScene does. -/
theorem render_eq (s : VROChoreographer) (eye : VROEyeType) (scene outgoing : VROScene)
    (metadata : VRORenderMetadata) (pp : Bool) :
    (s.render eye scene outgoing metadata pp).state = s.renderGate ∧
    (s.render eye scene outgoing metadata pp).trace
      = gateEvents s ++ preprocessEvents s.renderGate eye scene
        ++ (runSteps (s.renderGate.renderScene scene outgoing metadata pp)).1 ∧
    (s.render eye scene outgoing metadata pp).completed
      = (runSteps (s.renderGate.renderScene scene outgoing metadata pp)).2 := by
  simp [render, renderSteps_eq, runSteps_map_some_append]

/-- The steps of the bridge run on blitTarget. -/
theorem runSteps_bridge (g : VROChoreographer)
    (h : (runSteps (g.renderToTextureAndDisplay .blitTarget)).2 = true) :
    (runSteps (g.renderToTextureAndDisplay .blitTarget)).1 = bridgeEvents g := by
  unfold renderToTextureAndDisplay bridgeEvents at *
  cases hd : g.renderToTextureDelegate <;> cases hc : g.renderToTextureCallback <;>
    cases h1 : (g.present .blitTarget && g.present .renderToTextureTarget) <;>
    cases h2 : (g.blitPostProcess.isSome && g.present .blitTarget) <;>
    simp [hd, hc, h1, h2, runSteps, invoke] at h ⊢

/-- A guarded call in front of a run completes iff it goes through and the rest completes. -/
theorem runSteps_invoke_cons_completed (ok : Bool) (e : Event) (l : List (Option Event)) :
    (runSteps (invoke ok e :: l)).2 = true ↔ ok = true ∧ (runSteps l).2 = true := by
  cases ok <;> simp [invoke, runSteps]

/-- A guarded call that goes through puts its event in front. -/
theorem runSteps_invoke_cons_trace (ok : Bool) (e : Event) (l : List (Option Event))
    (h : ok = true) : (runSteps (invoke ok e :: l)).1 = e :: (runSteps l).1 := by
  subst h; rfl

/-- The end of both HDR branches when every call goes through: the tone-mapping pass into
blitTarget followed by the bridge when render-to-texture is enabled, into the display
otherwise. -/
theorem runSteps_toneMapAndPresent (g : VROChoreographer) (hdrInput : TextureRef)
    (h : (runSteps (g.toneMapAndPresent hdrInput)).2 = true) :
    (runSteps (g.toneMapAndPresent hdrInput)).1
      = Event.toneMappingPass hdrInput (if g.renderToTexture then .blitTarget else .display)
        :: (if g.renderToTexture then bridgeEvents g else []) := by
  unfold toneMapAndPresent at *
  cases hr : g.renderToTexture
  · simp only [hr, Bool.false_eq_true, if_false] at h ⊢
    rw [runSteps_invoke_cons_completed] at h
    rw [runSteps_invoke_cons_trace _ _ _ h.1]
    rfl
  · simp only [hr, if_true, List.singleton_append] at h ⊢
    rw [runSteps_invoke_cons_completed] at h
    rw [runSteps_invoke_cons_trace _ _ _ h.1, runSteps_bridge g h.2]

/-- The trace of renderScene when every call goes through: the passes of the selected
branch, then the bridge iff the last pass wrote to blitTarget. -/
theorem runSteps_renderScene (g : VROChoreographer) (scene outgoing : VROScene)
    (metadata : VRORenderMetadata) (pp : Bool)
    (h : (runSteps (g.renderScene scene outgoing metadata pp)).2 = true) :
    (runSteps (g.renderScene scene outgoing metadata pp)).1
      = mainPasses g scene outgoing metadata pp
        ++ (if finalPassWritesBlit g then bridgeEvents g else []) := by
  unfold renderScene at *
  unfold mainPasses selectBranch finalPassWritesBlit
  cases hh : g.hdrEnabled
  · cases hm : (g.mrtSupported && g.renderToTexture)
    · simp only [hh, hm, Bool.false_eq_true, if_false, Bool.false_and] at h ⊢
      rw [runSteps_invoke_cons_completed] at h
      rw [runSteps_invoke_cons_trace _ _ _ h.1]
      rfl
    · simp only [hh, hm, Bool.false_eq_true, if_false, if_true, Bool.false_and,
        List.singleton_append] at h ⊢
      rw [runSteps_invoke_cons_completed] at h
      rw [runSteps_invoke_cons_trace _ _ _ h.1, runSteps_bridge g h.2]
  · cases hb : (g.bloomEnabled && metadata.requiresBloomPass)
    · have hb2 : (true && g.bloomEnabled && metadata.requiresBloomPass) = false := by
        simpa using hb
      simp only [hh, hb, hb2, Bool.false_eq_true, if_false, if_true, List.cons_append,
        List.nil_append] at h ⊢
      rw [runSteps_invoke_cons_completed, runSteps_invoke_cons_completed] at h
      rw [runSteps_invoke_cons_trace _ _ _ h.1, runSteps_invoke_cons_trace _ _ _ h.2.1,
        runSteps_toneMapAndPresent g _ h.2.2]
    · have hb2 : (true && g.bloomEnabled && metadata.requiresBloomPass) = true := by
        simpa using hb
      simp only [hh, hb, hb2, if_true, List.cons_append, List.nil_append] at h ⊢
      rw [runSteps_invoke_cons_completed, runSteps_invoke_cons_completed,
        runSteps_invoke_cons_completed, runSteps_invoke_cons_completed] at h
      rw [runSteps_invoke_cons_trace _ _ _ h.1, runSteps_invoke_cons_trace _ _ _ h.2.1,
        runSteps_invoke_cons_trace _ _ _ h.2.2.1, runSteps_invoke_cons_trace _ _ _ h.2.2.2.1,
        runSteps_toneMapAndPresent g _ h.2.2.2.2]

/-! ## The dirty-flag protocol and completion of render -/

/-- With a live driver createRenderTargets leaves the targets and passes the flags call
for. -/
theorem createRenderTargets_consistent (s : VROChoreographer) (h : s.driverAlive = true) :
    TargetSetConsistent s.createRenderTargets := by
  unfold TargetSetConsistent TargetsMatchFlags
  cases h2 : s.mrtSupported <;> cases h3 : s.hdrEnabled <;>
    cases h4 : s.bloomEnabled <;> cases h5 : s.viewport <;>
    simp [createRenderTargets, createHDRTargets, createBlitTargets, resetTargets, setViewport,
      setClearColor, VRODriver.newRenderTarget, VRORenderTarget.setViewport,
      VRORenderTarget.setClearColor, h, h2, h3, h4, h5]

/-- Consistency does not look at the dirty flag. -/
theorem consistent_clear_dirty (s : VROChoreographer) (d : Bool)
    (h : TargetSetConsistent s) : TargetSetConsistent { s with renderTargetsChanged := d } := h

/-- With a live driver and the dirty-flag protocol, the gate of render leaves the targets
and passes the flags call for. -/
theorem renderGate_consistent (s : VROChoreographer) (ha : s.driverAlive = true)
    (hp : DirtyProtocol s) : TargetSetConsistent s.renderGate := by
  unfold renderGate
  cases hd : s.renderTargetsChanged
  · simp only [Bool.false_eq_true, if_false]
    exact hp ha hd
  · simp only [if_true]
    exact consistent_clear_dirty _ _ (createRenderTargets_consistent s ha)

/-- The constructed state follows the dirty-flag protocol. -/
theorem construct_dirtyProtocol (config : VRORendererConfiguration) (driver : VRODriver) :
    DirtyProtocol (construct config driver) := by
  intro _ _
  unfold construct
  exact createRenderTargets_consistent _ rfl

/-- Every operation preserves the dirty-flag protocol. -/
theorem next_dirtyProtocol (op : Op) (s : VROChoreographer) (h : DirtyProtocol s) :
    DirtyProtocol (op.next s) := by
  cases op with
  | setHDREnabled b =>
    cases b <;> cases h1 : s.hdrEnabled <;> cases h2 : s.hdrSupported <;>
      simp [Op.next, setHDREnabled, h1, h2, DirtyProtocol] <;> exact h
  | setPBREnabled b =>
    cases b <;> cases h1 : s.pbrEnabled <;> cases h2 : s.pbrSupported <;>
      simp [Op.next, setPBREnabled, h1, h2, DirtyProtocol] <;> exact h
  | setShadowsEnabled b =>
    cases b <;> cases h1 : s.shadowsEnabled <;> cases h2 : s.mrtSupported <;>
      simp [Op.next, setShadowsEnabled, h1, h2, DirtyProtocol] <;> exact h
  | setBloomEnabled b =>
    cases b <;> cases h1 : s.bloomEnabled <;> cases h2 : s.bloomSupported <;>
      simp [Op.next, setBloomEnabled, h1, h2, DirtyProtocol] <;> exact h
  | setRenderToTextureEnabled b => exact h
  | setViewport v =>
    intro ha hd
    have hc := h ha hd
    unfold TargetSetConsistent TargetsMatchFlags at *
    simpa [Op.next, setViewport, Option.map_map, Function.comp_def,
      VRORenderTarget.setViewport] using hc
  | setClearColor c =>
    intro ha hd
    have hc := h ha hd
    unfold TargetSetConsistent TargetsMatchFlags at *
    simpa [Op.next, setClearColor, Option.map_map, Function.comp_def,
      VRORenderTarget.setClearColor] using hc
  | render eye scene outgoing metadata pp =>
    intro ha _
    have hs := renderGate_settings s
    simp only [Op.next, render] at ha ⊢
    rw [hs.1] at ha
    exact renderGate_consistent s ha h
  | setRenderToTextureCallback c => exact h
  | setRenderToTextureDelegate d => exact h
  | setRenderTexture t =>
    intro ha hd
    cases ht : s.renderToTextureTarget with
    | none =>
      simp only [Op.next, setRenderTexture, ht, Option.getD_none] at ha hd ⊢
      exact h ha hd
    | some r =>
      simp only [Op.next, setRenderTexture, ht, Option.getD_some] at ha hd ⊢
      have hc := h ha hd
      unfold TargetSetConsistent TargetsMatchFlags at *
      simpa [ht] using hc
  | setBaseRenderPass p => exact h
  | driverExpired =>
    intro ha
    simp [Op.next, driverExpired] at ha

/-- Every reachable state follows the dirty-flag protocol. -/
theorem reachable_dirtyProtocol {s : VROChoreographer} (h : Reachable s) : DirtyProtocol s := by
  obtain ⟨config, driver, hr⟩ := h
  induction hr with
  | refl => exact construct_dirtyProtocol config driver
  | @step t op _ _ ih => exact next_dirtyProtocol op t ih

/-- On targets and passes the flags call for, with the base render pass installed and the
supported flags in their dependency order, every call of renderScene goes through. -/
theorem renderScene_completes (g : VROChoreographer) (scene outgoing : VROScene)
    (metadata : VRORenderMetadata) (pp : Bool) (hb : g.baseRenderPass = true)
    (hc : TargetSetConsistent g) (hi : FeatureFlagsInvariant g) (hm : HdrNeedsMrt g) :
    (runSteps (g.renderScene scene outgoing metadata pp)).2 = true := by
  obtain ⟨⟨c1, c2, c3, c4, c5, c6⟩, c7, c8, c9, c10, _⟩ := hc
  have hmrt : g.hdrEnabled = true → g.mrtSupported = true := fun hh => hm (hi.2.1 hh)
  cases h1 : g.mrtSupported <;> cases h2 : g.hdrEnabled <;> cases h3 : g.bloomEnabled <;>
    cases h4 : g.renderToTexture <;> cases h5 : metadata.requiresBloomPass <;>
    cases pp <;> cases h7 : g.renderToTextureDelegate <;>
    cases h8 : g.renderToTextureCallback <;>
    simp [h1, h2, h3, h4] at c1 c2 c3 c4 c5 c6 c7 c8 c9 c10 hmrt <;>
    simp [renderScene, toneMapAndPresent, renderToTextureAndDisplay, present, target, invoke,
      runSteps, h1, h2, h3, h4, h5, h7, h8, hb, c1, c2, c3, c4, c5, c6, c7, c8, c9, c10]

/-- In every reachable state with a live driver and the base render pass installed, a
render call runs to its end. -/
theorem render_completes {s : VROChoreographer} (hr : Reachable s)
    (ha : s.driverAlive = true) (hb : s.baseRenderPass = true) (eye : VROEyeType)
    (scene outgoing : VROScene) (metadata : VRORenderMetadata) (pp : Bool) :
    (s.render eye scene outgoing metadata pp).completed = true := by
  rw [(render_eq s eye scene outgoing metadata pp).2.2]
  have hg := renderGate_flags s
  have hs := renderGate_settings s
  have hi := reachable_invariant hr
  apply renderScene_completes
  · rw [hs.2.2.2.1]; exact hb
  · exact renderGate_consistent s ha (reachable_dirtyProtocol hr)
  · unfold FeatureFlagsInvariant
    rw [hg.1, hg.2.1, hg.2.2.1, hg.2.2.2.1, hg.2.2.2.2.1, hg.2.2.2.2.2.1, hg.2.2.2.2.2.2.1,
      hg.2.2.2.2.2.2.2]
    exact hi.1
  · unfold HdrNeedsMrt
    rw [hg.1, hg.2.1]
    exact hi.2

/-! ## Events of renderScene -/

/-- A guarded call yields an event iff it goes through, and then the event is its own. -/
theorem invoke_eq_some (ok : Bool) (e x : Event) :
    invoke ok e = some x ↔ ok = true ∧ e = x := by
  cases ok <;> simp [invoke]

/-- Every event of the bridge is a bridge step. -/
theorem renderToTextureAndDisplay_events (g : VROChoreographer) (input : TargetSlot) :
    ∀ st ∈ g.renderToTextureAndDisplay input, ∀ e, st = some e → e.isBridge = true := by
  unfold renderToTextureAndDisplay
  cases hd : g.renderToTextureDelegate <;> cases hc : g.renderToTextureCallback <;>
    simp [invoke_eq_some, Event.isBridge]

/-- A bridge step belongs to renderScene. -/
theorem isSceneStep_of_isBridge (e : Event) (h : e.isBridge = true) : e.isSceneStep = true := by
  cases e <;> first | rfl | simp [Event.isBridge] at h

/-- A guarded call in front of steps: a property of the events of all steps. -/
theorem forall_steps_invoke_cons (P : Event → Prop) (ok : Bool) (e : Event)
    (l : List (Option Event)) (he : P e) (hl : ∀ st ∈ l, ∀ x, st = some x → P x) :
    ∀ st ∈ invoke ok e :: l, ∀ x, st = some x → P x := by
  intro st hst x hx
  rcases List.mem_cons.1 hst with h | h
  · subst h
    rw [invoke_eq_some] at hx
    obtain ⟨_, rfl⟩ := hx
    exact he
  · exact hl st h x hx

/-- Every step of the end of the HDR branches belongs to renderScene. -/
theorem toneMapAndPresent_steps (g : VROChoreographer) (hdrInput : TextureRef) :
    ∀ st ∈ g.toneMapAndPresent hdrInput, ∀ e, st = some e → e.isSceneStep = true := by
  unfold toneMapAndPresent
  cases h : g.renderToTexture
  · simp only [Bool.false_eq_true, if_false]
    exact forall_steps_invoke_cons _ _ _ _ rfl (by simp)
  · simp only [if_true, List.singleton_append]
    refine forall_steps_invoke_cons _ _ _ _ rfl ?_
    intro st hst e he
    exact isSceneStep_of_isBridge e (renderToTextureAndDisplay_events g _ st hst e he)

/-- No step of renderScene is the gate call or part of the preprocess block. -/
theorem renderScene_steps (g : VROChoreographer) (scene outgoing : VROScene)
    (metadata : VRORenderMetadata) (pp : Bool) :
    ∀ st ∈ g.renderScene scene outgoing metadata pp, ∀ e, st = some e →
      e.isSceneStep = true := by
  unfold renderScene
  cases h1 : g.hdrEnabled
  · cases h3 : (g.mrtSupported && g.renderToTexture)
    · simp only [Bool.false_eq_true, if_false]
      exact forall_steps_invoke_cons _ _ _ _ rfl (by simp)
    · simp only [Bool.false_eq_true, if_false, if_true, List.singleton_append]
      refine forall_steps_invoke_cons _ _ _ _ rfl ?_
      intro st hst e he
      exact isSceneStep_of_isBridge e (renderToTextureAndDisplay_events g _ st hst e he)
  · cases h2 : (g.bloomEnabled && metadata.requiresBloomPass)
    · simp only [Bool.false_eq_true, if_false, if_true, List.cons_append, List.nil_append]
      exact forall_steps_invoke_cons _ _ _ _ rfl
        (forall_steps_invoke_cons _ _ _ _ rfl (toneMapAndPresent_steps g _))
    · simp only [if_true, List.cons_append, List.nil_append]
      exact forall_steps_invoke_cons _ _ _ _ rfl
        (forall_steps_invoke_cons _ _ _ _ rfl
          (forall_steps_invoke_cons _ _ _ _ rfl
            (forall_steps_invoke_cons _ _ _ _ rfl (toneMapAndPresent_steps g _))))

/-- No step of renderScene is the gate call or part of the preprocess block. -/
theorem renderScene_events (g : VROChoreographer) (scene outgoing : VROScene)
    (metadata : VRORenderMetadata) (pp : Bool) (e : Event)
    (h : some e ∈ g.renderScene scene outgoing metadata pp) : e.isSceneStep = true :=
  renderScene_steps g scene outgoing metadata pp _ h e rfl

/-- No event of the trace of renderScene is the gate call or part of the preprocess
block. -/
theorem runSteps_renderScene_events (g : VROChoreographer) (scene outgoing : VROScene)
    (metadata : VRORenderMetadata) (pp : Bool) (e : Event)
    (h : e ∈ (runSteps (g.renderScene scene outgoing metadata pp)).1) :
    e.isSceneStep = true :=
  renderScene_events g scene outgoing metadata pp e (mem_runSteps h)

/-- No event of the preprocess block is a step of renderScene or the gate call. -/
theorem preprocessEvents_events (g : VROChoreographer) (eye : VROEyeType) (scene : VROScene)
    (e : Event) (h : e ∈ preprocessEvents g eye scene) :
    e.isSceneStep = false ∧ e ≠ Event.createRenderTargets := by
  unfold preprocessEvents at h
  split at h
  · simp only [List.mem_cons, List.mem_map] at h
    rcases h with h | ⟨p, _, h⟩
    · subst h; exact ⟨rfl, by simp⟩
    · subst h; exact ⟨rfl, by simp⟩
  · simp at h

/-- The gate call occurs neither in the preprocess block nor in renderScene. -/
theorem no_rebuild_after_gate (g : VROChoreographer) (eye : VROEyeType)
    (scene outgoing : VROScene) (metadata : VRORenderMetadata) (pp : Bool) :
    Event.createRenderTargets ∉ preprocessEvents g eye scene
      ++ (runSteps (g.renderScene scene outgoing metadata pp)).1 := by
  intro h
  rcases List.mem_append.1 h with h | h
  · exact (preprocessEvents_events g eye scene _ h).2 rfl
  · have := runSteps_renderScene_events g scene outgoing metadata pp _ h
    simp [Event.isSceneStep] at this

/-- A toggle leaves the render targets, the pass objects and the preprocess list alone. -/
theorem set_targetSet (f : Feature) (s : VROChoreographer) (b : Bool) :
    targetSet (f.set s b).2 = targetSet s := by
  cases f
  · cases b <;> cases h1 : s.hdrEnabled <;> cases h2 : s.hdrSupported <;>
      simp [Feature.set, setHDREnabled, h1, h2, targetSet]
  · cases b <;> cases h1 : s.pbrEnabled <;> cases h2 : s.pbrSupported <;>
      simp [Feature.set, setPBREnabled, h1, h2, targetSet]
  · cases b <;> cases h1 : s.shadowsEnabled <;> cases h2 : s.mrtSupported <;>
      simp [Feature.set, setShadowsEnabled, h1, h2, targetSet]
  · cases b <;> cases h1 : s.bloomEnabled <;> cases h2 : s.bloomSupported <;>
      simp [Feature.set, setBloomEnabled, h1, h2, targetSet]

/-- A toggle that changes its enabled flag sets the dirty flag. -/
theorem set_changed_dirty (f : Feature) (s : VROChoreographer) (b : Bool)
    (h : f.enabled (f.set s b).2 ≠ f.enabled s) : (f.set s b).2.renderTargetsChanged = true := by
  cases f
  · cases b <;> cases h1 : s.hdrEnabled <;> cases h2 : s.hdrSupported <;>
      simp [Feature.set, Feature.enabled, setHDREnabled, h1, h2] at h ⊢
  · cases b <;> cases h1 : s.pbrEnabled <;> cases h2 : s.pbrSupported <;>
      simp [Feature.set, Feature.enabled, setPBREnabled, h1, h2] at h ⊢
  · cases b <;> cases h1 : s.shadowsEnabled <;> cases h2 : s.mrtSupported <;>
      simp [Feature.set, Feature.enabled, setShadowsEnabled, h1, h2] at h ⊢
  · cases b <;> cases h1 : s.bloomEnabled <;> cases h2 : s.bloomSupported <;>
      simp [Feature.set, Feature.enabled, setBloomEnabled, h1, h2] at h ⊢

/-- A render call on a state whose dirty flag is clear does not call createRenderTargets. -/
theorem render_clean_no_rebuild (s : VROChoreographer) (h : s.renderTargetsChanged = false)
    (eye : VROEyeType) (scene outgoing : VROScene) (metadata : VRORenderMetadata) (pp : Bool) :
    Event.createRenderTargets ∉ (s.render eye scene outgoing metadata pp).trace := by
  rw [(render_eq s eye scene outgoing metadata pp).2.1]
  have hg : gateEvents s = [] := by simp [gateEvents, h]
  rw [hg, List.nil_append]
  exact no_rebuild_after_gate _ eye scene outgoing metadata pp

/-- A render call on a state whose dirty flag is set starts with createRenderTargets. -/
theorem render_dirty_trace (s : VROChoreographer) (h : s.renderTargetsChanged = true)
    (eye : VROEyeType) (scene outgoing : VROScene) (metadata : VRORenderMetadata) (pp : Bool) :
    (s.render eye scene outgoing metadata pp).trace
      = Event.createRenderTargets ::
          (preprocessEvents (s.render eye scene outgoing metadata pp).state eye scene
            ++ (runSteps ((s.render eye scene outgoing metadata pp).state.renderScene
                  scene outgoing metadata pp)).1) := by
  have hr := render_eq s eye scene outgoing metadata pp
  rw [hr.2.1, hr.1]
  simp [gateEvents, h]

/-! ## The reconfiguration gate -/

/-- A render call on a state whose driver has expired leaves the render targets, the pass
objects and the preprocess list as they were. -/
theorem render_expired_targetSet (s : VROChoreographer) (ha : s.driverAlive = false)
    (eye : VROEyeType) (scene outgoing : VROScene) (metadata : VRORenderMetadata) (pp : Bool) :
    targetSet (s.render eye scene outgoing metadata pp).state = targetSet s := by
  rw [(render_eq s eye scene outgoing metadata pp).1]
  have hc : s.createRenderTargets = s := by simp [createRenderTargets, ha]
  unfold renderGate
  cases hd : s.renderTargetsChanged
  · simp
  · simp only [if_true, hc]
    rfl

/-- A toggle leaves the liveness of the driver alone. -/
theorem set_driverAlive (f : Feature) (s : VROChoreographer) (b : Bool) :
    (f.set s b).2.driverAlive = s.driverAlive := by
  cases f
  · cases b <;> cases h1 : s.hdrEnabled <;> cases h2 : s.hdrSupported <;>
      simp [Feature.set, setHDREnabled, h1, h2]
  · cases b <;> cases h1 : s.pbrEnabled <;> cases h2 : s.pbrSupported <;>
      simp [Feature.set, setPBREnabled, h1, h2]
  · cases b <;> cases h1 : s.shadowsEnabled <;> cases h2 : s.mrtSupported <;>
      simp [Feature.set, setShadowsEnabled, h1, h2]
  · cases b <;> cases h1 : s.bloomEnabled <;> cases h2 : s.bloomSupported <;>
      simp [Feature.set, setBloomEnabled, h1, h2]

/-- C11, with the guard of createRenderTargets: for every render call, if the dirty flag is
set on entry then createRenderTargets is called first, before every preprocess and pass of
the call, which run on the state it left with the dirty flag cleared; when the driver is
still alive that call rebuilds the target set, so that the targets, the passes and the
preprocess list the call runs on are those the flags call for, whereas with an expired
driver the targets, passes and preprocess list stay as they were; if the dirty flag is clear
on entry then the call does not call createRenderTargets and leaves the state as it was; in
both cases the dirty flag is false when render returns. -/
theorem render_gate_protocol (s : VROChoreographer) (eye : VROEyeType)
    (scene outgoing : VROScene) (metadata : VRORenderMetadata) (pp : Bool) :
    (s.renderTargetsChanged = true →
      (s.render eye scene outgoing metadata pp).state
        = { s.createRenderTargets with renderTargetsChanged := false } ∧
      (s.render eye scene outgoing metadata pp).trace
        = Event.createRenderTargets ::
            (preprocessEvents (s.render eye scene outgoing metadata pp).state eye scene
              ++ (runSteps ((s.render eye scene outgoing metadata pp).state.renderScene
                    scene outgoing metadata pp)).1) ∧
      Event.createRenderTargets ∉
        preprocessEvents (s.render eye scene outgoing metadata pp).state eye scene
          ++ (runSteps ((s.render eye scene outgoing metadata pp).state.renderScene
                scene outgoing metadata pp)).1 ∧
      (s.driverAlive = true →
        TargetSetConsistent (s.render eye scene outgoing metadata pp).state ∧
        (s.render eye scene outgoing metadata pp).state.preprocesses
          = (if s.mrtSupported then
              (if s.shadowsEnabled then [VROPreprocess.shadow] else [])
                ++ (if s.pbrEnabled then [VROPreprocess.ibl] else [])
            else [])) ∧
      (s.driverAlive = false →
        targetSet (s.render eye scene outgoing metadata pp).state = targetSet s)) ∧
    (s.renderTargetsChanged = false →
      (s.render eye scene outgoing metadata pp).state = s ∧
      Event.createRenderTargets ∉ (s.render eye scene outgoing metadata pp).trace) ∧
    (s.render eye scene outgoing metadata pp).state.renderTargetsChanged = false := by
  refine ⟨?_, ?_, ?_⟩
  · intro h
    have hstate : (s.render eye scene outgoing metadata pp).state
        = { s.createRenderTargets with renderTargetsChanged := false } := by
      simp [render, renderGate, h]
    refine ⟨hstate, render_dirty_trace s h eye scene outgoing metadata pp,
      no_rebuild_after_gate _ eye scene outgoing metadata pp, ?_,
      fun ha => render_expired_targetSet s ha eye scene outgoing metadata pp⟩
    intro ha
    have hcons : TargetSetConsistent s.createRenderTargets := by
      unfold TargetSetConsistent TargetsMatchFlags
      cases h2 : s.mrtSupported <;> cases h3 : s.hdrEnabled <;>
        cases h4 : s.bloomEnabled <;> cases h5 : s.viewport <;>
        simp [createRenderTargets, createHDRTargets, createBlitTargets, resetTargets,
          setViewport, setClearColor, VRODriver.newRenderTarget, VRORenderTarget.setViewport,
          VRORenderTarget.setClearColor, ha, h2, h3, h4, h5]
    rw [hstate]
    exact ⟨consistent_clear_dirty _ _ hcons, createRenderTargets_preprocesses s ha⟩
  · intro h
    refine ⟨?_, render_clean_no_rebuild s h eye scene outgoing metadata pp⟩
    simp [render, renderGate, h]
  · rw [(render_eq s eye scene outgoing metadata pp).1]
    exact (renderGate_settings s).2.1

/-- Witness of the amended C11: HDR was switched on, on a live driver, and no HDR target or
tone-mapping pass exists yet; the render call rebuilds first and runs on a target set with
hdrTarget, postProcessTarget and the tone-mapping pass; the call after it does not
rebuild. -/
theorem render_gate_protocol_witness :
    toggledBetweenEyes.renderTargetsChanged = true ∧
    toggledBetweenEyes.driverAlive = true ∧
    toggledBetweenEyes.hdrTarget = none ∧
    toggledBetweenEyes.toneMappingPass = none ∧
    TargetSetConsistent (toggledBetweenEyes.render .Right 1 0 ⟨false⟩ false).state ∧
    (toggledBetweenEyes.render .Right 1 0 ⟨false⟩ false).state.hdrTarget
      = some ((VRODriver.newRenderTarget .ColorTextureHDR16 1 1 false).setClearColor
          ⟨0, 0, 0, 1⟩) ∧
    (toggledBetweenEyes.render .Right 1 0 ⟨false⟩ false).state.blitTarget.isSome = true ∧
    (toggledBetweenEyes.render .Right 1 0 ⟨false⟩ false).state.toneMappingPass.isSome = true ∧
    (toggledBetweenEyes.render .Right 1 0 ⟨false⟩ false).trace
      = [Event.createRenderTargets, Event.baseRenderPass 1 0 .hdrTarget,
         Event.handlePostProcessing .hdrTarget .postProcessTarget false,
         Event.toneMappingPass ⟨.hdrTarget, 0⟩ .display] ∧
    (toggledBetweenEyes.render .Right 1 0 ⟨false⟩ false).state.renderTargetsChanged = false ∧
    Event.createRenderTargets ∉
      ((toggledBetweenEyes.render .Right 1 0 ⟨false⟩ false).state.render
        .Left 2 1 ⟨false⟩ false).trace :=
  ⟨by decide, by decide, by decide, by decide,
   (((render_gate_protocol toggledBetweenEyes .Right 1 0 ⟨false⟩ false).1
      (by decide)).2.2.2.1 (by decide)).1,
   by decide, by decide, by decide,
   ((render_gate_protocol toggledBetweenEyes .Right 1 0 ⟨false⟩ false).1 (by decide)).2.1.trans
     (by decide),
   (render_gate_protocol toggledBetweenEyes .Right 1 0 ⟨false⟩ false).2.2,
   ((render_gate_protocol (toggledBetweenEyes.render .Right 1 0 ⟨false⟩ false).state
      .Left 2 1 ⟨false⟩ false).2.1 (by decide)).2⟩

/-- C11 fails as stated once the driver has expired: the state is reached from
construction, HDR was switched off after the expiry and the dirty flag is set; the render
call calls createRenderTargets, which returns at its guard, and clears the dirty flag: the
render targets, the passes and the preprocess list are the ones from before the call, with
the hdrTarget, the blur targets and the tone-mapping pass of the HDR that is now off, so no
rebuild of the target set was performed. -/
theorem gate_clears_flag_without_rebuild_counterexample :
    Reachable hdrOffAfterExpiryState ∧
    hdrOffAfterExpiryState.renderTargetsChanged = true ∧
    hdrOffAfterExpiryState.hdrEnabled = false ∧
    (hdrOffAfterExpiryState.render .Left 1 0 ⟨false⟩ false).trace
      = [Event.createRenderTargets, Event.setPBREnabled false,
         Event.preprocess .shadow 1, Event.preprocess .ibl 1,
         Event.baseRenderPass 1 0 .display] ∧
    (hdrOffAfterExpiryState.render .Left 1 0 ⟨false⟩ false).state.renderTargetsChanged
      = false ∧
    targetSet (hdrOffAfterExpiryState.render .Left 1 0 ⟨false⟩ false).state
      = targetSet hdrOffAfterExpiryState ∧
    (hdrOffAfterExpiryState.render .Left 1 0 ⟨false⟩ false).state.hdrEnabled = false ∧
    (hdrOffAfterExpiryState.render .Left 1 0 ⟨false⟩ false).state.hdrTarget.isSome = true ∧
    (hdrOffAfterExpiryState.render .Left 1 0 ⟨false⟩ false).state.blurTargetA.isSome = true ∧
    (hdrOffAfterExpiryState.render .Left 1 0 ⟨false⟩ false).state.toneMappingPass.isSome
      = true ∧
    ¬ TargetsMatchFlags (hdrOffAfterExpiryState.render .Left 1 0 ⟨false⟩ false).state := by
  refine ⟨⟨allOn, capableDriver, ?_⟩, by decide, by decide, by decide, by decide,
    render_expired_targetSet _ (by decide) _ _ _ _ _,
    by decide, by decide, by decide, by decide, by decide⟩
  exact ReachableFrom.step (Op.setHDREnabled false)
    (ReachableFrom.step Op.driverExpired
      (ReachableFrom.step (Op.setBaseRenderPass true) ReachableFrom.refl rfl) rfl) rfl

/-- C12: for every state and every toggle call, the render targets, the pass objects and
the preprocess list are unchanged by the call; in the render call that follows they are
those the gate leaves: rebuilt by createRenderTargets when the dirty flag is set, unchanged
otherwise. -/
theorem toggle_leaves_target_set (f : Feature) (s : VROChoreographer) (b : Bool) :
    targetSet (f.set s b).2 = targetSet s ∧
    ∀ (eye : VROEyeType) (scene outgoing : VROScene) (metadata : VRORenderMetadata)
      (pp : Bool),
      targetSet ((f.set s b).2.render eye scene outgoing metadata pp).state
        = if (f.set s b).2.renderTargetsChanged = true
          then targetSet (f.set s b).2.createRenderTargets
          else targetSet s := by
  refine ⟨set_targetSet f s b, ?_⟩
  intro eye scene outgoing metadata pp
  rw [(render_eq _ eye scene outgoing metadata pp).1]
  unfold renderGate
  cases h : (f.set s b).2.renderTargetsChanged
  · simp only [Bool.false_eq_true, if_false]
    exact set_targetSet f s b
  · simp only [if_true]
    rfl

/-- C13, as the code has it: a toggle that changes its flag is staged only (it changes no
render target, pass or preprocess); the next render call, whichever eye it is for, the right
eye included, starts with createRenderTargets, before its preprocesses and passes; when the
driver is still alive that call rebuilds the target set, so that the call runs on the
targets, passes and preprocess list that the flags the toggle left call for; and the render
call after that one does not rebuild and leaves the state as it is. -/
theorem toggle_rebuilds_at_next_render (f : Feature) (s : VROChoreographer) (b : Bool)
    (hchg : f.enabled (f.set s b).2 ≠ f.enabled s) :
    targetSet (f.set s b).2 = targetSet s ∧
    ∀ (eye : VROEyeType) (scene outgoing : VROScene) (metadata : VRORenderMetadata)
      (pp : Bool),
      ((f.set s b).2.render eye scene outgoing metadata pp).trace
        = Event.createRenderTargets ::
            (preprocessEvents ((f.set s b).2.render eye scene outgoing metadata pp).state
                eye scene
              ++ (runSteps (((f.set s b).2.render eye scene outgoing metadata pp).state.renderScene
                    scene outgoing metadata pp)).1) ∧
      (s.driverAlive = true →
        ((f.set s b).2.render eye scene outgoing metadata pp).state
          = { (f.set s b).2.createRenderTargets with renderTargetsChanged := false } ∧
        f.enabled ((f.set s b).2.render eye scene outgoing metadata pp).state
          = f.enabled (f.set s b).2 ∧
        TargetSetConsistent ((f.set s b).2.render eye scene outgoing metadata pp).state ∧
        ((f.set s b).2.render eye scene outgoing metadata pp).state.preprocesses
          = (if (f.set s b).2.mrtSupported then
              (if (f.set s b).2.shadowsEnabled then [VROPreprocess.shadow] else [])
                ++ (if (f.set s b).2.pbrEnabled then [VROPreprocess.ibl] else [])
            else [])) ∧
      ∀ (eye2 : VROEyeType) (scene2 outgoing2 : VROScene) (metadata2 : VRORenderMetadata)
        (pp2 : Bool),
        Event.createRenderTargets ∉
          (((f.set s b).2.render eye scene outgoing metadata pp).state.render
            eye2 scene2 outgoing2 metadata2 pp2).trace ∧
        (((f.set s b).2.render eye scene outgoing metadata pp).state.render
            eye2 scene2 outgoing2 metadata2 pp2).state
          = ((f.set s b).2.render eye scene outgoing metadata pp).state := by
  have hd := set_changed_dirty f s b hchg
  refine ⟨set_targetSet f s b, ?_⟩
  intro eye scene outgoing metadata pp
  have hclean : ((f.set s b).2.render eye scene outgoing metadata pp).state.renderTargetsChanged
      = false := by
    rw [(render_eq _ eye scene outgoing metadata pp).1]
    exact (renderGate_settings _).2.1
  refine ⟨render_dirty_trace _ hd eye scene outgoing metadata pp, ?_, ?_⟩
  · intro ha
    have ha2 : (f.set s b).2.driverAlive = true := (set_driverAlive f s b).trans ha
    have hcons : ∀ t : VROChoreographer, t.driverAlive = true →
        TargetSetConsistent t.createRenderTargets := by
      intro t ht
      unfold TargetSetConsistent TargetsMatchFlags
      cases h2 : t.mrtSupported <;> cases h3 : t.hdrEnabled <;>
        cases h4 : t.bloomEnabled <;> cases h5 : t.viewport <;>
        simp [createRenderTargets, createHDRTargets, createBlitTargets, resetTargets,
          setViewport, setClearColor, VRODriver.newRenderTarget, VRORenderTarget.setViewport,
          VRORenderTarget.setClearColor, ht, h2, h3, h4, h5]
    have hstate : ((f.set s b).2.render eye scene outgoing metadata pp).state
        = { (f.set s b).2.createRenderTargets with renderTargetsChanged := false } := by
      simp [render, renderGate, hd]
    refine ⟨hstate, ?_, ?_, ?_⟩
    · rw [(render_eq _ eye scene outgoing metadata pp).1]
      have hg := renderGate_flags (f.set s b).2
      cases f
      · exact hg.2.2.2.2.2.1
      · exact hg.2.2.2.2.2.2.1
      · exact hg.2.2.2.2.1
      · exact hg.2.2.2.2.2.2.2
    · rw [hstate]
      exact consistent_clear_dirty _ _ (hcons _ ha2)
    · rw [hstate]
      exact createRenderTargets_preprocesses _ ha2
  · intro eye2 scene2 outgoing2 metadata2 pp2
    refine ⟨render_clean_no_rebuild _ hclean _ _ _ _ _, ?_⟩
    rw [(render_eq _ eye2 scene2 outgoing2 metadata2 pp2).1]
    simp [renderGate, hclean]

/-- Witness of the amended C13: HDR switched on between the eyes on a live driver, then the
right eye: before the call there is no hdrTarget, the call leaves the HDR targets and the
tone-mapping pass, and the left eye of the next frame does not rebuild. -/
theorem toggle_rebuilds_at_next_render_witness :
    Feature.hdr.enabled
        (Feature.hdr.set (((construct allOff capableDriver).setBaseRenderPass true).render
          .Left 1 0 ⟨false⟩ false).state true).2
      ≠ Feature.hdr.enabled (((construct allOff capableDriver).setBaseRenderPass true).render
          .Left 1 0 ⟨false⟩ false).state ∧
    (((construct allOff capableDriver).setBaseRenderPass true).render
        .Left 1 0 ⟨false⟩ false).state.driverAlive = true ∧
    (Feature.hdr.set (((construct allOff capableDriver).setBaseRenderPass true).render
        .Left 1 0 ⟨false⟩ false).state true).2.hdrTarget = none ∧
    TargetSetConsistent
      ((Feature.hdr.set (((construct allOff capableDriver).setBaseRenderPass true).render
        .Left 1 0 ⟨false⟩ false).state true).2.render .Right 1 0 ⟨false⟩ false).state ∧
    ((Feature.hdr.set (((construct allOff capableDriver).setBaseRenderPass true).render
        .Left 1 0 ⟨false⟩ false).state true).2.render .Right 1 0 ⟨false⟩ false).state.hdrTarget
      = some ((VRODriver.newRenderTarget .ColorTextureHDR16 1 1 false).setClearColor
          ⟨0, 0, 0, 1⟩) ∧
    ((Feature.hdr.set (((construct allOff capableDriver).setBaseRenderPass true).render
        .Left 1 0 ⟨false⟩ false).state true).2.render
          .Right 1 0 ⟨false⟩ false).state.toneMappingPass.isSome = true ∧
    ((Feature.hdr.set (((construct allOff capableDriver).setBaseRenderPass true).render
        .Left 1 0 ⟨false⟩ false).state true).2.render
          .Right 1 0 ⟨false⟩ false).state.blitTarget.isSome = true ∧
    Event.createRenderTargets ∉
      (((Feature.hdr.set (((construct allOff capableDriver).setBaseRenderPass true).render
          .Left 1 0 ⟨false⟩ false).state true).2.render .Right 1 0 ⟨false⟩ false).state.render
        .Left 2 1 ⟨false⟩ false).trace :=
  ⟨by decide, by decide, by decide,
   (((toggle_rebuilds_at_next_render Feature.hdr
      (((construct allOff capableDriver).setBaseRenderPass true).render
        .Left 1 0 ⟨false⟩ false).state true (by decide)).2 .Right 1 0 ⟨false⟩ false).2.1
      (by decide)).2.2.1,
   by decide, by decide, by decide,
   (((toggle_rebuilds_at_next_render Feature.hdr
      (((construct allOff capableDriver).setBaseRenderPass true).render
        .Left 1 0 ⟨false⟩ false).state true (by decide)).2 .Right 1 0 ⟨false⟩ false).2.2
      .Left 2 1 ⟨false⟩ false).1⟩

/-- C13 fails as stated: in a stereo frame on a live driver, HDR is switched on after the
left eye; no hdrTarget exists then; the right-eye render call starts with
createRenderTargets, runs the HDR passes to its end, and leaves an hdrTarget: the rebuild
took place during the right-eye call. -/
theorem rebuild_during_right_eye_counterexample :
    toggledBetweenEyes.driverAlive = true ∧
    toggledBetweenEyes.renderTargetsChanged = true ∧
    toggledBetweenEyes.hdrTarget = none ∧
    (toggledBetweenEyes.render .Right 1 0 ⟨false⟩ false).trace
      = [Event.createRenderTargets, Event.baseRenderPass 1 0 .hdrTarget,
         Event.handlePostProcessing .hdrTarget .postProcessTarget false,
         Event.toneMappingPass ⟨.hdrTarget, 0⟩ .display] ∧
    (toggledBetweenEyes.render .Right 1 0 ⟨false⟩ false).completed = true ∧
    (toggledBetweenEyes.render .Right 1 0 ⟨false⟩ false).state.hdrTarget.isSome = true ∧
    Event.createRenderTargets ∉
      ((toggledBetweenEyes.render .Right 1 0 ⟨false⟩ false).state.render
        .Left 2 1 ⟨false⟩ false).trace := by
  decide

/-! ## The preprocess gate -/

/-- Filtering the preprocess executions out of a list of events without any. -/
theorem filter_isPreprocess_scene (l : List Event) (h : ∀ e ∈ l, e.isSceneStep = true) :
    l.filter Event.isPreprocess = [] := by
  rw [List.filter_eq_nil_iff]
  intro e he
  have := h e he
  cases e <;> simp [Event.isSceneStep, Event.isPreprocess] at this ⊢

/-- The preprocess executions among the events of the preprocess block. -/
theorem filter_isPreprocess_preprocessEvents (g : VROChoreographer) (eye : VROEyeType)
    (scene : VROScene) :
    (preprocessEvents g eye scene).filter Event.isPreprocess
      = if eye = VROEyeType.Left ∨ eye = VROEyeType.Monocular
        then g.preprocesses.map (fun p => Event.preprocess p scene) else [] := by
  unfold preprocessEvents
  split
  · rw [List.filter_cons]
    simp only [Event.isPreprocess, Bool.false_eq_true, if_false]
    rw [List.filter_eq_self]
    intro e he
    obtain ⟨p, _, rfl⟩ := List.mem_map.1 he
    rfl
  · rfl

/-- The preprocess executions in the trace of a render call. -/
theorem render_filter_isPreprocess (s : VROChoreographer) (eye : VROEyeType)
    (scene outgoing : VROScene) (metadata : VRORenderMetadata) (pp : Bool) :
    (s.render eye scene outgoing metadata pp).trace.filter Event.isPreprocess
      = if eye = VROEyeType.Left ∨ eye = VROEyeType.Monocular
        then (s.render eye scene outgoing metadata pp).state.preprocesses.map
          (fun p => Event.preprocess p scene)
        else [] := by
  have hr := render_eq s eye scene outgoing metadata pp
  rw [hr.2.1, hr.1, List.filter_append, List.filter_append,
    filter_isPreprocess_preprocessEvents,
    filter_isPreprocess_scene _ (runSteps_renderScene_events _ scene outgoing metadata pp)]
  have hg : (gateEvents s).filter Event.isPreprocess = [] := by
    unfold gateEvents
    split <;> rfl
  rw [hg]
  simp

/-- C14: render for the right eye executes no preprocess; render for the left or the single
eye executes every element of the preprocess list once, in list order, against the incoming
scene, after the gate and before every step of renderScene, the base render pass included;
hence over a stereo frame (left, then right) the preprocess executions are exactly those of
the list, all in the left call. -/
theorem preprocesses_run_for_left_or_single_eye (s : VROChoreographer)
    (scene outgoing : VROScene) (metadata : VRORenderMetadata) (pp : Bool) :
    (s.render .Right scene outgoing metadata pp).trace.filter Event.isPreprocess = [] ∧
    (∀ eye : VROEyeType, eye = VROEyeType.Left ∨ eye = VROEyeType.Monocular →
      (s.render eye scene outgoing metadata pp).trace
        = gateEvents s
          ++ (Event.setPBREnabled
                ((s.render eye scene outgoing metadata pp).state.hdrEnabled
                  && (s.render eye scene outgoing metadata pp).state.pbrEnabled)
              :: (s.render eye scene outgoing metadata pp).state.preprocesses.map
                  (fun p => Event.preprocess p scene))
          ++ (runSteps ((s.render eye scene outgoing metadata pp).state.renderScene
                scene outgoing metadata pp)).1 ∧
      (∀ e ∈ (runSteps ((s.render eye scene outgoing metadata pp).state.renderScene
                scene outgoing metadata pp)).1, e.isPreprocess = false) ∧
      (∀ e ∈ gateEvents s
          ++ (Event.setPBREnabled
                ((s.render eye scene outgoing metadata pp).state.hdrEnabled
                  && (s.render eye scene outgoing metadata pp).state.pbrEnabled)
              :: (s.render eye scene outgoing metadata pp).state.preprocesses.map
                  (fun p => Event.preprocess p scene)),
        e.isBaseRenderPass = false) ∧
      (s.render eye scene outgoing metadata pp).trace.filter Event.isPreprocess
        = (s.render eye scene outgoing metadata pp).state.preprocesses.map
            (fun p => Event.preprocess p scene)) ∧
    (∀ (scene2 outgoing2 : VROScene) (metadata2 : VRORenderMetadata) (pp2 : Bool),
      ((s.render .Left scene outgoing metadata pp).trace
        ++ ((s.render .Left scene outgoing metadata pp).state.render
              .Right scene2 outgoing2 metadata2 pp2).trace).filter Event.isPreprocess
        = (s.render .Left scene outgoing metadata pp).state.preprocesses.map
            (fun p => Event.preprocess p scene)) := by
  refine ⟨?_, ?_, ?_⟩
  · rw [render_filter_isPreprocess]
    simp
  · intro eye he
    have hr := render_eq s eye scene outgoing metadata pp
    refine ⟨?_, ?_, ?_, ?_⟩
    · rw [hr.2.1, hr.1]
      simp [preprocessEvents, he]
    · intro e hmem
      have := runSteps_renderScene_events _ scene outgoing metadata pp e hmem
      cases e <;> simp [Event.isSceneStep, Event.isPreprocess] at this ⊢
    · intro e hmem
      rcases List.mem_append.1 hmem with h | h
      · unfold gateEvents at h
        split at h
        · simp only [List.mem_singleton] at h
          subst h; rfl
        · simp at h
      · rcases List.mem_cons.1 h with h | h
        · subst h; rfl
        · obtain ⟨p, _, rfl⟩ := List.mem_map.1 h
          rfl
    · rw [render_filter_isPreprocess]
      simp [he]
  · intro scene2 outgoing2 metadata2 pp2
    rw [List.filter_append, render_filter_isPreprocess, render_filter_isPreprocess]
    simp

/-- Witness of C14: shadows and IBL, left eye then right eye. -/
theorem preprocesses_run_for_left_or_single_eye_witness :
    (((construct allOn capableDriver).setBaseRenderPass true).render
        .Left 7 8 ⟨true⟩ false).trace.filter Event.isPreprocess
      = [Event.preprocess .shadow 7, Event.preprocess .ibl 7] ∧
    (((construct allOn capableDriver).setBaseRenderPass true).render
        .Right 7 8 ⟨true⟩ false).trace.filter Event.isPreprocess = [] :=
  ⟨((preprocesses_run_for_left_or_single_eye
        ((construct allOn capableDriver).setBaseRenderPass true) 7 8 ⟨true⟩ false).2.1
      .Left (Or.inl rfl)).2.2.2.trans (by decide),
   (preprocesses_run_for_left_or_single_eye
        ((construct allOn capableDriver).setBaseRenderPass true) 7 8 ⟨true⟩ false).1⟩

/-! ## Branch selection -/

/-- A bridge step is not a call of the base render pass. -/
theorem not_base_of_isBridge (e : Event) (h : e.isBridge = true) : e.isBaseRenderPass = false := by
  cases e <;> first | rfl | simp [Event.isBridge] at h

/-- No step of the end of the HDR branches is a call of the base render pass. -/
theorem toneMapAndPresent_no_base (g : VROChoreographer) (hdrInput : TextureRef) :
    ∀ st ∈ g.toneMapAndPresent hdrInput, ∀ e, st = some e → e.isBaseRenderPass = false := by
  unfold toneMapAndPresent
  cases h : g.renderToTexture
  · simp only [Bool.false_eq_true, if_false]
    exact forall_steps_invoke_cons _ _ _ _ rfl (by simp)
  · simp only [if_true, List.singleton_append]
    refine forall_steps_invoke_cons _ _ _ _ rfl ?_
    intro st hst e he
    exact not_base_of_isBridge e (renderToTextureAndDisplay_events g _ st hst e he)

/-- The first call of renderScene is the base render pass into the output target of the
selected branch; it goes through when the pass is installed and the target exists; no later
call is the base render pass. -/
theorem renderScene_head (g : VROChoreographer) (scene outgoing : VROScene)
    (metadata : VRORenderMetadata) (pp : Bool) :
    ∃ (ok : Bool) (tail : List (Option Event)),
      g.renderScene scene outgoing metadata pp
        = invoke ok (Event.baseRenderPass scene outgoing (selectBranch g metadata).baseOutput)
            :: tail ∧
      (g.baseRenderPass = true → g.present (selectBranch g metadata).baseOutput = true →
        ok = true) ∧
      (∀ st ∈ tail, ∀ e, st = some e → e.isBaseRenderPass = false) := by
  unfold renderScene selectBranch
  cases h1 : g.hdrEnabled
  · cases h3 : (g.mrtSupported && g.renderToTexture)
    · simp only [Bool.false_and, Bool.false_eq_true, if_false, Branch.baseOutput]
      exact ⟨g.baseRenderPass, [], rfl, fun hb _ => hb, by simp⟩
    · simp only [Bool.false_and, Bool.false_eq_true, if_false, if_true, Branch.baseOutput,
        List.singleton_append]
      refine ⟨_, _, rfl, ?_, ?_⟩
      · intro hb hp
        simp [hb, hp]
      · intro st hst e he
        exact not_base_of_isBridge e (renderToTextureAndDisplay_events g _ st hst e he)
  · cases h2 : (g.bloomEnabled && metadata.requiresBloomPass)
    · have h2b : (true && g.bloomEnabled && metadata.requiresBloomPass) = false := by
        simpa using h2
      simp only [h2b, Bool.false_eq_true, if_false, if_true, Branch.baseOutput,
        List.cons_append, List.nil_append]
      refine ⟨_, _, rfl, ?_, ?_⟩
      · intro hb hp
        simp [hb, hp]
      · exact forall_steps_invoke_cons _ _ _ _ rfl (toneMapAndPresent_no_base g _)
    · have h2b : (true && g.bloomEnabled && metadata.requiresBloomPass) = true := by
        simpa using h2
      simp only [h2b, if_true, Branch.baseOutput, List.cons_append, List.nil_append]
      refine ⟨_, _, rfl, ?_, ?_⟩
      · intro hb hp
        simp [hb, hp]
      · exact forall_steps_invoke_cons _ _ _ _ rfl
          (forall_steps_invoke_cons _ _ _ _ rfl
            (forall_steps_invoke_cons _ _ _ _ rfl (toneMapAndPresent_no_base g _)))

/-- C15: for every state and metadata, renderScene takes the branch selected in priority
order (HDR with bloom, HDR only, non-HDR render-to-texture, direct) and calls the base
render pass exactly once, first, into the output target of that branch: hdrTarget in the
two HDR branches, blitTarget in the non-HDR render-to-texture branch, the display in the
direct branch; when every call goes through, the calls are those of the selected branch,
followed by the bridge iff the last pass wrote to blitTarget. -/
theorem renderScene_selects_one_branch (g : VROChoreographer) (scene outgoing : VROScene)
    (metadata : VRORenderMetadata) (pp : Bool) :
    (g.baseRenderPass = true → g.present (selectBranch g metadata).baseOutput = true →
      (runSteps (g.renderScene scene outgoing metadata pp)).1.head?
        = some (Event.baseRenderPass scene outgoing (selectBranch g metadata).baseOutput) ∧
      (runSteps (g.renderScene scene outgoing metadata pp)).1.filter Event.isBaseRenderPass
        = [Event.baseRenderPass scene outgoing (selectBranch g metadata).baseOutput]) ∧
    ((runSteps (g.renderScene scene outgoing metadata pp)).2 = true →
      (runSteps (g.renderScene scene outgoing metadata pp)).1
        = mainPasses g scene outgoing metadata pp
          ++ (if finalPassWritesBlit g then bridgeEvents g else [])) := by
  refine ⟨?_, runSteps_renderScene g scene outgoing metadata pp⟩
  intro hb hp
  obtain ⟨ok, tail, heq, hok, htail⟩ := renderScene_head g scene outgoing metadata pp
  rw [heq, runSteps_invoke_cons_trace _ _ _ (hok hb hp)]
  refine ⟨rfl, ?_⟩
  rw [List.filter_cons]
  simp only [Event.isBaseRenderPass, if_true]
  congr 1
  rw [List.filter_eq_nil_iff]
  intro e he
  rw [htail _ (mem_runSteps he) e rfl]
  simp

/-- Witness of C15: the direct branch and the HDR branch with bloom on a capable driver. -/
theorem renderScene_selects_one_branch_witness :
    (runSteps (((construct allOff capableDriver).setBaseRenderPass true).renderScene
        1 0 ⟨true⟩ false)).1.filter Event.isBaseRenderPass
      = [Event.baseRenderPass 1 0 .display] ∧
    (runSteps (((construct allOn capableDriver).setBaseRenderPass true).renderScene
        1 0 ⟨true⟩ false)).1.filter Event.isBaseRenderPass
      = [Event.baseRenderPass 1 0 .hdrTarget] :=
  ⟨((renderScene_selects_one_branch ((construct allOff capableDriver).setBaseRenderPass true)
      1 0 ⟨true⟩ false).1 (by decide) (by decide)).2,
   ((renderScene_selects_one_branch ((construct allOn capableDriver).setBaseRenderPass true)
      1 0 ⟨true⟩ false).1 (by decide) (by decide)).2⟩

/-! ## The pass sequences of the scenarios -/

/-- The trace of a render call that runs to its end: the gate event, the preprocess block,
the passes of the selected branch, and the bridge iff the last pass wrote to blitTarget. -/
theorem render_completed_trace (s : VROChoreographer) (eye : VROEyeType)
    (scene outgoing : VROScene) (metadata : VRORenderMetadata) (pp : Bool)
    (h : (s.render eye scene outgoing metadata pp).completed = true) :
    (s.render eye scene outgoing metadata pp).trace
      = gateEvents s ++ preprocessEvents s.renderGate eye scene
        ++ (mainPasses s.renderGate scene outgoing metadata pp
            ++ (if finalPassWritesBlit s.renderGate then bridgeEvents s.renderGate else [])) := by
  have hr := render_eq s eye scene outgoing metadata pp
  rw [hr.2.2] at h
  rw [hr.2.1, runSteps_renderScene _ scene outgoing metadata pp h]

/-- What is not a step of renderScene is no pass and no bridge step. -/
theorem classes_of_not_sceneStep (e : Event) (h : e.isSceneStep = false) :
    e.isBaseRenderPass = false ∧ e.isToneMapping = false ∧ e.isGaussianBlur = false ∧
    e.isAdditiveBlend = false ∧ e.isBridge = false := by
  cases e <;> first | exact ⟨rfl, rfl, rfl, rfl, rfl⟩ | simp [Event.isSceneStep] at h

/-- The gate event and the preprocess block are no steps of renderScene. -/
theorem gate_and_preprocess_events (s g : VROChoreographer) (eye : VROEyeType)
    (scene : VROScene) (e : Event) (h : e ∈ gateEvents s ++ preprocessEvents g eye scene) :
    e.isSceneStep = false := by
  rcases List.mem_append.1 h with h | h
  · unfold gateEvents at h
    split at h
    · simp only [List.mem_singleton] at h
      subst h; rfl
    · simp at h
  · exact (preprocessEvents_events g eye scene e h).1

/-- The flags and settings renderScene branches on, after the gate. -/
theorem renderGate_branch_flags (s : VROChoreographer) :
    s.renderGate.hdrEnabled = s.hdrEnabled ∧
    s.renderGate.bloomEnabled = s.bloomEnabled ∧
    s.renderGate.mrtSupported = s.mrtSupported ∧
    s.renderGate.renderToTexture = s.renderToTexture ∧
    s.renderGate.baseRenderPass = s.baseRenderPass ∧
    s.renderGate.renderToTextureDelegate = s.renderToTextureDelegate ∧
    s.renderGate.renderToTextureCallback = s.renderToTextureCallback := by
  have hf := renderGate_flags s
  have hs := renderGate_settings s
  exact ⟨hf.2.2.2.2.2.1, hf.2.2.2.2.2.2.2, hf.1, hs.2.2.1, hs.2.2.2.1, hs.2.2.2.2.1,
    hs.2.2.2.2.2⟩

/-- C16: for every state with hdrEnabled = false and render-to-texture disabled (whatever
bloomEnabled is) and the base render pass installed, a render call runs to its end and
issues, after the gate and the preprocess block, exactly one pass: the base pass into the
display; it issues no tone-mapping pass, no gaussian blur pass, no additive blend and no
step of the render-to-texture bridge. -/
theorem direct_render_sequence (s : VROChoreographer) (eye : VROEyeType)
    (scene outgoing : VROScene) (metadata : VRORenderMetadata) (pp : Bool)
    (hh : s.hdrEnabled = false) (hr : s.renderToTexture = false)
    (hb : s.baseRenderPass = true) :
    (s.render eye scene outgoing metadata pp).completed = true ∧
    (s.render eye scene outgoing metadata pp).trace
      = gateEvents s
        ++ preprocessEvents (s.render eye scene outgoing metadata pp).state eye scene
        ++ [Event.baseRenderPass scene outgoing .display] ∧
    (s.render eye scene outgoing metadata pp).trace.filter Event.isBaseRenderPass
      = [Event.baseRenderPass scene outgoing .display] ∧
    ∀ e ∈ (s.render eye scene outgoing metadata pp).trace,
      e.isToneMapping = false ∧ e.isGaussianBlur = false ∧ e.isAdditiveBlend = false ∧
      e.isBridge = false := by
  have hr0 := render_eq s eye scene outgoing metadata pp
  have hg := renderGate_branch_flags s
  have hscene : s.renderGate.renderScene scene outgoing metadata pp
      = [invoke true (Event.baseRenderPass scene outgoing .display)] := by
    unfold renderScene
    simp [hg.1, hg.2.2.2.1, hg.2.2.2.2.1, hh, hr, hb]
  have hrun : runSteps (s.renderGate.renderScene scene outgoing metadata pp)
      = ([Event.baseRenderPass scene outgoing .display], true) := by
    rw [hscene]; rfl
  have htrace : (s.render eye scene outgoing metadata pp).trace
      = gateEvents s
        ++ preprocessEvents (s.render eye scene outgoing metadata pp).state eye scene
        ++ [Event.baseRenderPass scene outgoing .display] := by
    rw [hr0.2.1, hr0.1, hrun]
  have hpre : ∀ e ∈ gateEvents s ++ preprocessEvents s.renderGate eye scene,
      e.isSceneStep = false := gate_and_preprocess_events s _ eye scene
  refine ⟨?_, htrace, ?_, ?_⟩
  · rw [hr0.2.2, hrun]
  · rw [htrace, hr0.1, List.filter_append]
    have : (gateEvents s ++ preprocessEvents s.renderGate eye scene).filter
        Event.isBaseRenderPass = [] := by
      rw [List.filter_eq_nil_iff]
      intro e he
      rw [(classes_of_not_sceneStep e (hpre e he)).1]
      simp
    rw [this]
    rfl
  · intro e he
    rw [htrace, hr0.1] at he
    rcases List.mem_append.1 he with h | h
    · exact (classes_of_not_sceneStep e (hpre e h)).2
    · simp only [List.mem_singleton] at h
      subst h
      exact ⟨rfl, rfl, rfl, rfl⟩

/-- Witness of C16: nothing enabled, left eye. -/
theorem direct_render_sequence_witness :
    ((construct allOff capableDriver).setBaseRenderPass true).hdrEnabled = false ∧
    ((construct allOff capableDriver).setBaseRenderPass true).renderToTexture = false ∧
    ((construct allOff capableDriver).setBaseRenderPass true).baseRenderPass = true ∧
    (((construct allOff capableDriver).setBaseRenderPass true).render
        .Left 1 0 ⟨true⟩ false).trace
      = [Event.setPBREnabled false, Event.baseRenderPass 1 0 .display] :=
  ⟨by decide, by decide, by decide,
   (direct_render_sequence ((construct allOff capableDriver).setBaseRenderPass true)
      .Left 1 0 ⟨true⟩ false (by decide) (by decide) (by decide)).2.1.trans (by decide)⟩

/-- A class of events that has no member among the gate event and the preprocess block. -/
theorem filter_gate_and_preprocess (c : Event → Bool)
    (hc : ∀ e : Event, e.isSceneStep = false → c e = false) (s g : VROChoreographer)
    (eye : VROEyeType) (scene : VROScene) :
    (gateEvents s ++ preprocessEvents g eye scene).filter c = [] := by
  rw [List.filter_eq_nil_iff]
  intro e he
  rw [hc e (gate_and_preprocess_events s g eye scene e he)]
  simp

/-- The state between the eyes with HDR just switched on is reached from construction. -/
theorem toggledBetweenEyes_reachable : Reachable toggledBetweenEyes :=
  ⟨allOff, capableDriver,
    ReachableFrom.step (Op.setHDREnabled true)
      (ReachableFrom.step (Op.render .Left 1 0 ⟨false⟩ false)
        (ReachableFrom.step (Op.setBaseRenderPass true) ReachableFrom.refl rfl)
        (by decide)) rfl⟩

/-- The state with HDR switched on after the driver expired is reached from construction. -/
theorem hdrAfterExpiryState_reachable : Reachable hdrAfterExpiryState :=
  ⟨allOff, capableDriver,
    ReachableFrom.step (Op.setHDREnabled true)
      (ReachableFrom.step Op.driverExpired
        (ReachableFrom.step (Op.setBaseRenderPass true) ReachableFrom.refl rfl) rfl) rfl⟩

/-- The state with bloom switched on after the driver expired is reached from
construction. -/
theorem bloomAfterExpiryState_reachable : Reachable bloomAfterExpiryState :=
  ⟨hdrOnlyConfig, capableDriver,
    ReachableFrom.step (Op.setBloomEnabled true)
      (ReachableFrom.step Op.driverExpired
        (ReachableFrom.step (Op.setBaseRenderPass true) ReachableFrom.refl rfl) rfl) rfl⟩

/-- C17, for the states in which the rebuild can take place: for every state reached from
construction with the driver still alive and the base render pass installed, with
hdrEnabled = true, bloomEnabled = false and render-to-texture disabled, a render call runs
to its end and issues, after the gate and the preprocess block and in this order: the base
pass into hdrTarget, the post-process stage from hdrTarget to postProcessTarget, and one
tone-mapping pass into the display, its only one; no blur pass, no additive blend and no
bridge step. -/
theorem hdr_only_render_sequence (s : VROChoreographer) (eye : VROEyeType)
    (scene outgoing : VROScene) (metadata : VRORenderMetadata) (pp : Bool)
    (hre : Reachable s) (ha : s.driverAlive = true) (hb : s.baseRenderPass = true)
    (hh : s.hdrEnabled = true) (hbl : s.bloomEnabled = false)
    (hr : s.renderToTexture = false) :
    (s.render eye scene outgoing metadata pp).completed = true ∧
    (s.render eye scene outgoing metadata pp).trace
      = gateEvents s
        ++ preprocessEvents (s.render eye scene outgoing metadata pp).state eye scene
        ++ [Event.baseRenderPass scene outgoing .hdrTarget,
            Event.handlePostProcessing .hdrTarget .postProcessTarget pp,
            Event.toneMappingPass
              (if pp then ⟨.postProcessTarget, 0⟩ else ⟨.hdrTarget, 0⟩) .display] ∧
    (s.render eye scene outgoing metadata pp).trace.filter Event.isToneMapping
      = [Event.toneMappingPass
          (if pp then ⟨.postProcessTarget, 0⟩ else ⟨.hdrTarget, 0⟩) .display] ∧
    ∀ e ∈ (s.render eye scene outgoing metadata pp).trace,
      e.isGaussianBlur = false ∧ e.isAdditiveBlend = false ∧ e.isBridge = false := by
  have hc := render_completes hre ha hb eye scene outgoing metadata pp
  have hg := renderGate_branch_flags s
  have hst := (render_eq s eye scene outgoing metadata pp).1
  have hm : mainPasses s.renderGate scene outgoing metadata pp
      ++ (if finalPassWritesBlit s.renderGate then bridgeEvents s.renderGate else [])
      = [Event.baseRenderPass scene outgoing .hdrTarget,
          Event.handlePostProcessing .hdrTarget .postProcessTarget pp,
          Event.toneMappingPass
            (if pp then ⟨.postProcessTarget, 0⟩ else ⟨.hdrTarget, 0⟩) .display] := by
    simp [mainPasses, selectBranch, finalPassWritesBlit, hg.1, hg.2.1, hg.2.2.2.1, hh, hbl, hr]
  have htrace := render_completed_trace s eye scene outgoing metadata pp hc
  rw [hm] at htrace
  rw [hst]
  refine ⟨hc, htrace, ?_, ?_⟩
  · rw [htrace, List.filter_append,
      filter_gate_and_preprocess _ (fun e h => (classes_of_not_sceneStep e h).2.1)]
    rfl
  · intro e he
    rw [htrace] at he
    rcases List.mem_append.1 he with h | h
    · exact (classes_of_not_sceneStep e (gate_and_preprocess_events s _ eye scene e h)).2.2
    · simp only [List.mem_cons, List.mem_singleton, List.not_mem_nil, or_false] at h
      rcases h with h | h | h <;> subst h <;> exact ⟨rfl, rfl, rfl⟩

/-- Witness of the amended C17: HDR switched on between the eyes on a live driver, bloom
off, the post-process stage declining. -/
theorem hdr_only_render_sequence_witness :
    Reachable toggledBetweenEyes ∧ toggledBetweenEyes.driverAlive = true ∧
    toggledBetweenEyes.baseRenderPass = true ∧
    toggledBetweenEyes.hdrEnabled = true ∧ toggledBetweenEyes.bloomEnabled = false ∧
    toggledBetweenEyes.renderToTexture = false ∧
    (toggledBetweenEyes.render .Left 1 0 ⟨false⟩ false).completed = true ∧
    (toggledBetweenEyes.render .Left 1 0 ⟨false⟩ false).trace
      = [Event.createRenderTargets, Event.setPBREnabled false,
         Event.baseRenderPass 1 0 .hdrTarget,
         Event.handlePostProcessing .hdrTarget .postProcessTarget false,
         Event.toneMappingPass ⟨.hdrTarget, 0⟩ .display] :=
  ⟨toggledBetweenEyes_reachable, by decide, by decide, by decide, by decide, by decide,
   (hdr_only_render_sequence toggledBetweenEyes .Left 1 0 ⟨false⟩ false
      toggledBetweenEyes_reachable (by decide) (by decide) (by decide) (by decide)
      (by decide)).1,
   (hdr_only_render_sequence toggledBetweenEyes .Left 1 0 ⟨false⟩ false
      toggledBetweenEyes_reachable (by decide) (by decide) (by decide) (by decide)
      (by decide)).2.1.trans (by decide)⟩

/-- C17 fails as stated once the driver has expired: the state is reached from
construction with the base render pass installed, HDR was switched on after the expiry, so
hdrEnabled = true, bloomEnabled = false and render-to-texture is disabled; the render call
calls createRenderTargets, which returns at its guard, and then meets the null hdrTarget:
no base pass, no post-process stage and no tone-mapping pass is issued. -/
theorem hdr_only_expired_driver_counterexample :
    Reachable hdrAfterExpiryState ∧
    hdrAfterExpiryState.hdrEnabled = true ∧
    hdrAfterExpiryState.bloomEnabled = false ∧
    hdrAfterExpiryState.renderToTexture = false ∧
    hdrAfterExpiryState.baseRenderPass = true ∧
    hdrAfterExpiryState.driverAlive = false ∧
    (hdrAfterExpiryState.render .Monocular 3 2 ⟨false⟩ false).trace
      = [Event.createRenderTargets, Event.setPBREnabled false] ∧
    (hdrAfterExpiryState.render .Monocular 3 2 ⟨false⟩ false).trace.filter Event.isToneMapping
      = [] ∧
    (hdrAfterExpiryState.render .Monocular 3 2 ⟨false⟩ false).completed = false :=
  ⟨hdrAfterExpiryState_reachable, by decide, by decide, by decide, by decide, by decide,
   by decide, by decide, by decide⟩

/-- C18, for the states in which the rebuild can take place: for every state reached from
construction with the driver still alive and the base render pass installed, with
hdrEnabled = true, bloomEnabled = true and render-to-texture disabled, and metadata that
requires the bloom pass, a render call runs to its end and issues, after the gate and the
preprocess block and in this order: the base pass into hdrTarget, which has 2 colour
attachments; the gaussian blur pass with hdrTarget as input, blurTargetA as ping-pong buffer
and blurTargetB as output; the additive blend of texture 0 of hdrTarget and texture 0 of
blurTargetB into postProcessTarget; the post-process stage from postProcessTarget to
hdrTarget; and one tone-mapping pass into the display, its only one. -/
theorem hdr_bloom_render_sequence (s : VROChoreographer) (eye : VROEyeType)
    (scene outgoing : VROScene) (metadata : VRORenderMetadata) (pp : Bool)
    (hre : Reachable s) (ha : s.driverAlive = true) (hb : s.baseRenderPass = true)
    (hh : s.hdrEnabled = true) (hbl : s.bloomEnabled = true)
    (hr : s.renderToTexture = false) (hq : metadata.requiresBloomPass = true) :
    (s.render eye scene outgoing metadata pp).completed = true ∧
    (s.render eye scene outgoing metadata pp).trace
      = gateEvents s
        ++ preprocessEvents (s.render eye scene outgoing metadata pp).state eye scene
        ++ [Event.baseRenderPass scene outgoing .hdrTarget,
            Event.gaussianBlurPass .hdrTarget .blurTargetA .blurTargetB,
            Event.additiveBlend [⟨.hdrTarget, 0⟩, ⟨.blurTargetB, 0⟩] .postProcessTarget,
            Event.handlePostProcessing .postProcessTarget .hdrTarget pp,
            Event.toneMappingPass
              (if pp then ⟨.hdrTarget, 0⟩ else ⟨.postProcessTarget, 0⟩) .display] ∧
    (s.render eye scene outgoing metadata pp).trace.filter Event.isToneMapping
      = [Event.toneMappingPass
          (if pp then ⟨.hdrTarget, 0⟩ else ⟨.postProcessTarget, 0⟩) .display] ∧
    (s.render eye scene outgoing metadata pp).state.hdrTarget.map (fun t => t.numAttachments)
      = some 2 := by
  have hc := render_completes hre ha hb eye scene outgoing metadata pp
  have hg := renderGate_branch_flags s
  have hst := (render_eq s eye scene outgoing metadata pp).1
  have hm : mainPasses s.renderGate scene outgoing metadata pp
      ++ (if finalPassWritesBlit s.renderGate then bridgeEvents s.renderGate else [])
      = [Event.baseRenderPass scene outgoing .hdrTarget,
          Event.gaussianBlurPass .hdrTarget .blurTargetA .blurTargetB,
          Event.additiveBlend [⟨.hdrTarget, 0⟩, ⟨.blurTargetB, 0⟩] .postProcessTarget,
          Event.handlePostProcessing .postProcessTarget .hdrTarget pp,
          Event.toneMappingPass
            (if pp then ⟨.hdrTarget, 0⟩ else ⟨.postProcessTarget, 0⟩) .display] := by
    simp [mainPasses, selectBranch, finalPassWritesBlit, hg.1, hg.2.1, hg.2.2.2.1, hh, hbl,
      hr, hq]
  have htrace := render_completed_trace s eye scene outgoing metadata pp hc
  rw [hm] at htrace
  have hcons := renderGate_consistent s ha (reachable_dirtyProtocol hre)
  rw [hst]
  refine ⟨hc, htrace, ?_, ?_⟩
  · rw [htrace, List.filter_append,
      filter_gate_and_preprocess _ (fun e h => (classes_of_not_sceneStep e h).2.1)]
    rfl
  · rw [hcons.2.2.2.2.2, hg.1, hg.2.1, hh, hbl]
    rfl

/-- Witness of the amended C18: every feature on, on a live driver, bloom required, the
post-process stage declining. -/
theorem hdr_bloom_render_sequence_witness :
    Reachable ((construct allOn capableDriver).setBaseRenderPass true) ∧
    ((construct allOn capableDriver).setBaseRenderPass true).driverAlive = true ∧
    ((construct allOn capableDriver).setBaseRenderPass true).baseRenderPass = true ∧
    ((construct allOn capableDriver).setBaseRenderPass true).hdrEnabled = true ∧
    ((construct allOn capableDriver).setBaseRenderPass true).bloomEnabled = true ∧
    ((construct allOn capableDriver).setBaseRenderPass true).renderToTexture = false ∧
    (((construct allOn capableDriver).setBaseRenderPass true).render
        .Right 1 0 ⟨true⟩ false).completed = true ∧
    (((construct allOn capableDriver).setBaseRenderPass true).render
        .Right 1 0 ⟨true⟩ false).trace
      = [Event.baseRenderPass 1 0 .hdrTarget,
         Event.gaussianBlurPass .hdrTarget .blurTargetA .blurTargetB,
         Event.additiveBlend [⟨.hdrTarget, 0⟩, ⟨.blurTargetB, 0⟩] .postProcessTarget,
         Event.handlePostProcessing .postProcessTarget .hdrTarget false,
         Event.toneMappingPass ⟨.postProcessTarget, 0⟩ .display] ∧
    (((construct allOn capableDriver).setBaseRenderPass true).render
        .Right 1 0 ⟨true⟩ false).state.hdrTarget.map (fun t => t.numAttachments) = some 2 :=
  ⟨⟨allOn, capableDriver,
      ReachableFrom.step (Op.setBaseRenderPass true) ReachableFrom.refl rfl⟩,
   by decide, by decide, by decide, by decide, by decide,
   (hdr_bloom_render_sequence ((construct allOn capableDriver).setBaseRenderPass true)
      .Right 1 0 ⟨true⟩ false
      ⟨allOn, capableDriver,
        ReachableFrom.step (Op.setBaseRenderPass true) ReachableFrom.refl rfl⟩
      (by decide) (by decide) (by decide) (by decide) (by decide) rfl).1,
   (hdr_bloom_render_sequence ((construct allOn capableDriver).setBaseRenderPass true)
      .Right 1 0 ⟨true⟩ false
      ⟨allOn, capableDriver,
        ReachableFrom.step (Op.setBaseRenderPass true) ReachableFrom.refl rfl⟩
      (by decide) (by decide) (by decide) (by decide) (by decide) rfl).2.1.trans (by decide),
   by decide⟩

/-- C18 fails as stated once the driver has expired: the state is reached from
construction with HDR on and the base render pass installed, bloom was switched on after
the expiry, so hdrEnabled = true, bloomEnabled = true and render-to-texture is disabled;
with metadata that requires the bloom pass the render call calls createRenderTargets, which
returns at its guard, renders the base pass into the hdrTarget of before, which has 1
colour attachment, and meets the null gaussian blur pass: no blur, no additive blend, no
post-process stage and no tone-mapping pass is issued. -/
theorem hdr_bloom_expired_driver_counterexample :
    Reachable bloomAfterExpiryState ∧
    bloomAfterExpiryState.hdrEnabled = true ∧
    bloomAfterExpiryState.bloomEnabled = true ∧
    bloomAfterExpiryState.renderToTexture = false ∧
    bloomAfterExpiryState.baseRenderPass = true ∧
    bloomAfterExpiryState.driverAlive = false ∧
    (bloomAfterExpiryState.render .Left 1 0 ⟨true⟩ false).trace
      = [Event.createRenderTargets, Event.setPBREnabled false,
         Event.baseRenderPass 1 0 .hdrTarget] ∧
    (bloomAfterExpiryState.render .Left 1 0 ⟨true⟩ false).completed = false ∧
    (bloomAfterExpiryState.render .Left 1 0 ⟨true⟩ false).state.hdrTarget.map
        (fun t => t.numAttachments) = some 1 ∧
    (bloomAfterExpiryState.render .Left 1 0 ⟨true⟩ false).state.gaussianBlurPass = none :=
  ⟨bloomAfterExpiryState_reachable, by decide, by decide, by decide, by decide, by decide,
   by decide, by decide, by decide, by decide⟩

/-! ## The render-to-texture bridge -/

/-- Every event of the bridge is a bridge step. -/
theorem filter_isBridge_bridgeEvents (g : VROChoreographer) :
    (bridgeEvents g).filter Event.isBridge = bridgeEvents g := by
  unfold bridgeEvents
  cases g.renderToTextureDelegate <;> cases g.renderToTextureCallback <;> rfl

/-- After setViewport every slot that holds a target has the viewport meant for it. -/
theorem setViewport_target (s : VROChoreographer) (v : VROViewport) (slot : TargetSlot)
    (t : VRORenderTarget) (h : (s.setViewport v).target slot = some t) :
    t.viewport = some (expectedViewport v slot) := by
  cases slot <;>
    simp only [target, setViewport, Option.map_eq_some', Option.some.injEq] at h
  · subst h; rfl
  all_goals
    obtain ⟨a, _, rfl⟩ := h
    rfl

/-- After createRenderTargets with a live driver and a viewport set, every slot that holds
a target has the viewport meant for it. -/
theorem createRenderTargets_target_viewport (s : VROChoreographer) (v : VROViewport)
    (ha : s.driverAlive = true) (hv : s.viewport = some v) (slot : TargetSlot)
    (t : VRORenderTarget) (h : s.createRenderTargets.target slot = some t) :
    t.viewport = some (expectedViewport v slot) := by
  revert h
  cases slot <;> cases h2 : s.mrtSupported <;> cases h3 : s.hdrEnabled <;>
    cases h4 : s.bloomEnabled <;>
    simp [createRenderTargets, createHDRTargets, createBlitTargets, resetTargets, setViewport,
      setClearColor, target, expectedViewport, VRODriver.newRenderTarget,
      VRORenderTarget.setViewport, VRORenderTarget.setClearColor, ha, hv, h2, h3, h4] <;>
    (intro h; subst h; rfl)

/-- After createRenderTargets with a live driver and no viewport set, no target of the six
slots has a viewport, and the display keeps the one it had. -/
theorem createRenderTargets_target_no_viewport (s : VROChoreographer)
    (ha : s.driverAlive = true) (hv : s.viewport = none) (slot : TargetSlot)
    (t : VRORenderTarget) (h : s.createRenderTargets.target slot = some t) :
    t.viewport = if slot = TargetSlot.display then s.driver.display.viewport else none := by
  revert h
  cases slot <;> cases h2 : s.mrtSupported <;> cases h3 : s.hdrEnabled <;>
    cases h4 : s.bloomEnabled <;>
    simp [createRenderTargets, createHDRTargets, createBlitTargets, resetTargets, setViewport,
      setClearColor, target, VRODriver.newRenderTarget,
      VRORenderTarget.setViewport, VRORenderTarget.setClearColor, ha, hv, h2, h3, h4] <;>
    (intro h; subst h; rfl)

/-- After setClearColor every slot but renderToTextureTarget that holds a target has the
colour; renderToTextureTarget is left as it was. -/
theorem setClearColor_target (s : VROChoreographer) (c : VROVector4f) (slot : TargetSlot)
    (t : VRORenderTarget) (hs : slot ≠ TargetSlot.renderToTextureTarget)
    (h : (s.setClearColor c).target slot = some t) : t.clearColor = some c := by
  cases slot <;>
    simp only [target, setClearColor, Option.map_eq_some', Option.some.injEq] at h
  · subst h; rfl
  · obtain ⟨a, _, rfl⟩ := h; rfl
  · exact absurd rfl hs
  all_goals
    obtain ⟨a, _, rfl⟩ := h
    rfl

/-- After createRenderTargets with a live driver every slot but renderToTextureTarget that
holds a target has the last clear colour; renderToTextureTarget has none. -/
theorem createRenderTargets_target_clearColor (s : VROChoreographer)
    (ha : s.driverAlive = true) (slot : TargetSlot) (t : VRORenderTarget)
    (h : s.createRenderTargets.target slot = some t) :
    t.clearColor
      = if slot = TargetSlot.renderToTextureTarget then none else some s.clearColor := by
  revert h
  cases slot <;> cases h2 : s.mrtSupported <;> cases h3 : s.hdrEnabled <;>
    cases h4 : s.bloomEnabled <;> cases h5 : s.viewport <;>
    simp [createRenderTargets, createHDRTargets, createBlitTargets, resetTargets, setViewport,
      setClearColor, target, VRODriver.newRenderTarget,
      VRORenderTarget.setViewport, VRORenderTarget.setClearColor, ha, h2, h3, h4, h5] <;>
    (intro h; subst h; rfl)

/-- An int of magnitude below 2^24 is a single-precision float: the conversion keeps it. -/
theorem floatOfInt_small (w : Int) (h : w.natAbs < 2 ^ 24) : floatOfInt w = w := by
  have h1 : floatSpacing w.natAbs = 1 := by
    unfold floatSpacing
    rw [if_pos h]
  have h2 : floatOfInt w = Int.sign w * ((w.natAbs : Nat) : Int) := by
    simp only [floatOfInt, h1, Nat.div_one, Nat.mod_one, Nat.mul_zero, Nat.mul_one]
    simp
  rw [h2]
  exact Int.sign_mul_natAbs w

/-- C21, with the conversions of the code: after setViewport(v), and after
createRenderTargets with a live driver once the viewport v is set, the viewport of
blurTargetA and of blurTargetB, when present, is at origin (0, 0) with width
`(int)(w * 0.25f)` and height `(int)(h * 0.25f)`, the dimension being converted to single
precision before the product.  For a dimension of magnitude below 2^24 the conversion is
exact, so the blur dimension is the quarter truncated toward zero: exactly a quarter of a
multiple of 4, and otherwise the integer next to the quarter on the side of zero (less than
1 away from it). -/
theorem blur_viewport_is_truncated_quarter :
    (∀ (s : VROChoreographer) (v : VROViewport) (t : VRORenderTarget),
      ((s.setViewport v).blurTargetA = some t ∨ (s.setViewport v).blurTargetB = some t) →
      t.viewport
        = some ⟨0, 0, Int.tdiv (floatOfInt v.width) 4, Int.tdiv (floatOfInt v.height) 4⟩ ∧
      (v.width.natAbs < 2 ^ 24 → v.height.natAbs < 2 ^ 24 →
        t.viewport = some ⟨0, 0, Int.tdiv v.width 4, Int.tdiv v.height 4⟩)) ∧
    (∀ (s : VROChoreographer) (v : VROViewport) (t : VRORenderTarget),
      s.driverAlive = true → s.viewport = some v →
      (s.createRenderTargets.blurTargetA = some t ∨ s.createRenderTargets.blurTargetB = some t) →
      t.viewport
        = some ⟨0, 0, Int.tdiv (floatOfInt v.width) 4, Int.tdiv (floatOfInt v.height) 4⟩ ∧
      (v.width.natAbs < 2 ^ 24 → v.height.natAbs < 2 ^ 24 →
        t.viewport = some ⟨0, 0, Int.tdiv v.width 4, Int.tdiv v.height 4⟩)) ∧
    (∀ w : Int, w.natAbs < 2 ^ 24 →
      blurScaled w = Int.tdiv w 4 ∧
      (4 ∣ w → 4 * blurScaled w = w) ∧
      (0 ≤ w → 4 * blurScaled w ≤ w ∧ w < 4 * blurScaled w + 4) ∧
      (w ≤ 0 → w ≤ 4 * blurScaled w ∧ 4 * blurScaled w - 4 < w)) := by
  refine ⟨?_, ?_, ?_⟩
  · intro s v t h
    have h1 : t.viewport
        = some ⟨0, 0, Int.tdiv (floatOfInt v.width) 4, Int.tdiv (floatOfInt v.height) 4⟩ := by
      rcases h with h | h
      · exact setViewport_target s v .blurTargetA t h
      · exact setViewport_target s v .blurTargetB t h
    refine ⟨h1, ?_⟩
    intro hw hh
    rw [h1, floatOfInt_small _ hw, floatOfInt_small _ hh]
  · intro s v t ha hv h
    have h1 : t.viewport
        = some ⟨0, 0, Int.tdiv (floatOfInt v.width) 4, Int.tdiv (floatOfInt v.height) 4⟩ := by
      rcases h with h | h
      · exact createRenderTargets_target_viewport s v ha hv .blurTargetA t h
      · exact createRenderTargets_target_viewport s v ha hv .blurTargetB t h
    refine ⟨h1, ?_⟩
    intro hw hh
    rw [h1, floatOfInt_small _ hw, floatOfInt_small _ hh]
  · intro w hw
    have hb : blurScaled w = Int.tdiv w 4 := by
      rw [blurScaled, floatOfInt_small w hw]
    rw [hb]
    refine ⟨rfl, ?_, ?_, ?_⟩
    · intro hd
      exact Int.mul_tdiv_cancel' hd
    · intro h0
      rw [Int.tdiv_eq_ediv h0 (by decide)]
      omega
    · intro h0
      have h1 : Int.tdiv w 4 = -(Int.tdiv (-w) 4) := by
        rw [Int.neg_tdiv, neg_neg]
      rw [h1, Int.tdiv_eq_ediv (by omega : (0 : Int) ≤ -w) (by decide)]
      omega

/-- Witness of the amended C21: a 1920 by 1080 viewport on a state with bloom, set and then
rebuilt; the width 1922 gives 480 as well, and the width 16777219, above 2^24, is rounded
to 16777220 by the conversion and gives 4194305. -/
theorem blur_viewport_is_truncated_quarter_witness :
    ((construct allOn capableDriver).setViewport ⟨0, 0, 1920, 1080⟩).driverAlive = true ∧
    ((construct allOn capableDriver).setViewport ⟨0, 0, 1920, 1080⟩).viewport
      = some ⟨0, 0, 1920, 1080⟩ ∧
    ((construct allOn capableDriver).setViewport
        ⟨0, 0, 1920, 1080⟩).createRenderTargets.blurTargetA
      = some (VRODriver.newRenderTarget .ColorTextureHDR16 1 1 false
          |>.setViewport ⟨0, 0, 480, 270⟩ |>.setClearColor ⟨0, 0, 0, 1⟩) ∧
    (VRODriver.newRenderTarget .ColorTextureHDR16 1 1 false
          |>.setViewport ⟨0, 0, 480, 270⟩ |>.setClearColor ⟨0, 0, 0, 1⟩).viewport
      = some ⟨0, 0, Int.tdiv 1920 4, Int.tdiv 1080 4⟩ ∧
    (((construct allOn capableDriver).setViewport ⟨0, 0, 1922, 1080⟩).blurTargetB.bind
        (fun t => t.viewport)) = some ⟨0, 0, 480, 270⟩ ∧
    (((construct allOn capableDriver).setViewport ⟨0, 0, 16777219, 1080⟩).blurTargetA.bind
        (fun t => t.viewport)) = some ⟨0, 0, 4194305, 270⟩ :=
  ⟨by decide, by decide, by decide,
   (blur_viewport_is_truncated_quarter.2.1
      ((construct allOn capableDriver).setViewport ⟨0, 0, 1920, 1080⟩) ⟨0, 0, 1920, 1080⟩ _
      (by decide) (by decide) (Or.inl (by decide))).2 (by decide) (by decide),
   by decide, by decide⟩

/-- C21 fails as stated: for a main viewport of 5 by 7 the blur target has width 1 and
height 1, which are not 0.25 times 5 and 0.25 times 7. -/
theorem blur_viewport_not_exact_quarter_counterexample :
    (((construct allOn capableDriver).setViewport ⟨0, 0, 5, 7⟩).blurTargetA.bind
        (fun t => t.viewport)) = some ⟨0, 0, 1, 1⟩ ∧
    (((construct allOn capableDriver).setViewport ⟨0, 0, 5, 7⟩).blurTargetB.bind
        (fun t => t.viewport)) = some ⟨0, 0, 1, 1⟩ ∧
    ((1 : Int) : ℚ) ≠ (1 / 4 : ℚ) * ((5 : Int) : ℚ) ∧
    ((1 : Int) : ℚ) ≠ (1 / 4 : ℚ) * ((7 : Int) : ℚ) := by
  refine ⟨by decide, by decide, ?_, ?_⟩ <;> norm_num

/-- C22: after setViewport(v), and after createRenderTargets with a live driver once v is
set, every present target has the viewport `expectedViewport` gives its slot, which is: the
full viewport v for the display; the untranslated viewport (0, 0, w, h) for blitTarget,
renderToTextureTarget, hdrTarget and postProcessTarget; and for the two blur targets alone
the untranslated viewport with width and height multiplied by the blur factor and cut to an
int, the quarter truncated toward zero for dimensions of magnitude below 2^24, which differs
from (0, 0, w, h) as soon as w or h is not 0.  When no viewport was ever set,
createRenderTargets gives no target a viewport and leaves the one of the display. -/
theorem viewport_broadcast :
    (∀ (s : VROChoreographer) (v : VROViewport),
      (s.setViewport v).viewport = some v ∧
      (s.setViewport v).driver.display.viewport = some v ∧
      ∀ (slot : TargetSlot) (t : VRORenderTarget), (s.setViewport v).target slot = some t →
        t.viewport = some (expectedViewport v slot)) ∧
    (∀ (s : VROChoreographer) (v : VROViewport), s.driverAlive = true → s.viewport = some v →
      s.createRenderTargets.driver.display.viewport = some v ∧
      ∀ (slot : TargetSlot) (t : VRORenderTarget), s.createRenderTargets.target slot = some t →
        t.viewport = some (expectedViewport v slot)) ∧
    (∀ (s : VROChoreographer), s.driverAlive = true → s.viewport = none →
      s.createRenderTargets.driver.display.viewport = s.driver.display.viewport ∧
      ∀ (slot : TargetSlot) (t : VRORenderTarget), slot ≠ TargetSlot.display →
        s.createRenderTargets.target slot = some t → t.viewport = none) ∧
    (∀ (v : VROViewport) (slot : TargetSlot),
      (slot = .display → expectedViewport v slot = v) ∧
      ((slot = .blitTarget ∨ slot = .renderToTextureTarget ∨ slot = .hdrTarget
          ∨ slot = .postProcessTarget) →
        expectedViewport v slot = ⟨0, 0, v.width, v.height⟩) ∧
      ((slot = .blurTargetA ∨ slot = .blurTargetB) →
        expectedViewport v slot
          = ⟨0, 0, Int.tdiv (floatOfInt v.width) 4, Int.tdiv (floatOfInt v.height) 4⟩ ∧
        (v.width.natAbs < 2 ^ 24 → v.height.natAbs < 2 ^ 24 →
          expectedViewport v slot = ⟨0, 0, Int.tdiv v.width 4, Int.tdiv v.height 4⟩ ∧
          ((v.width ≠ 0 ∨ v.height ≠ 0) →
            expectedViewport v slot ≠ ⟨0, 0, v.width, v.height⟩)))) := by
  refine ⟨?_, ?_, ?_, ?_⟩
  · intro s v
    exact ⟨rfl, rfl, setViewport_target s v⟩
  · intro s v ha hv
    refine ⟨?_, createRenderTargets_target_viewport s v ha hv⟩
    have := createRenderTargets_target_viewport s v ha hv .display _ rfl
    exact this
  · intro s ha hv
    refine ⟨?_, ?_⟩
    · have := createRenderTargets_target_no_viewport s ha hv .display _ rfl
      simpa using this
    · intro slot t hs h
      have := createRenderTargets_target_no_viewport s ha hv slot t h
      simpa [hs] using this
  · intro v slot
    refine ⟨?_, ?_, ?_⟩
    · intro h
      subst h
      rfl
    · intro h
      rcases h with h | h | h | h <;> subst h <;> rfl
    · intro h
      have h1 : expectedViewport v slot
          = ⟨0, 0, Int.tdiv (floatOfInt v.width) 4, Int.tdiv (floatOfInt v.height) 4⟩ := by
        rcases h with h | h <;> subst h <;> rfl
      refine ⟨h1, ?_⟩
      intro hw hh
      have h2 : expectedViewport v slot = ⟨0, 0, Int.tdiv v.width 4, Int.tdiv v.height 4⟩ := by
        rw [h1, floatOfInt_small _ hw, floatOfInt_small _ hh]
      refine ⟨h2, ?_⟩
      intro hne
      rw [h2]
      intro heq
      have e1 : Int.tdiv v.width 4 = v.width := congrArg VROViewport.width heq
      have e2 : Int.tdiv v.height 4 = v.height := congrArg VROViewport.height heq
      have q1 : ∀ w : Int, Int.tdiv w 4 = w → w = 0 := by
        intro w hq
        rcases Int.le_total 0 w with h0 | h0
        · rw [Int.tdiv_eq_ediv h0 (by decide)] at hq
          omega
        · have h3 : Int.tdiv w 4 = -(Int.tdiv (-w) 4) := by
            rw [Int.neg_tdiv, neg_neg]
          rw [h3, Int.tdiv_eq_ediv (by omega : (0 : Int) ≤ -w) (by decide)] at hq
          omega
      rcases hne with hne | hne
      · exact hne (q1 _ e1)
      · exact hne (q1 _ e2)

/-- Witness of C22: a translated viewport on a state with every target present, then a
rebuild: the display has the full viewport, hdrTarget the untranslated one, and the blur
target the untranslated one at a quarter of the size. -/
theorem viewport_broadcast_witness :
    ((construct allOn capableDriver).setViewport ⟨960, 0, 960, 1080⟩).driverAlive = true ∧
    ((construct allOn capableDriver).setViewport ⟨960, 0, 960, 1080⟩).viewport
      = some ⟨960, 0, 960, 1080⟩ ∧
    ((construct allOn capableDriver).setViewport
        ⟨960, 0, 960, 1080⟩).createRenderTargets.driver.display.viewport
      = some ⟨960, 0, 960, 1080⟩ ∧
    (((construct allOn capableDriver).setViewport
        ⟨960, 0, 960, 1080⟩).createRenderTargets.hdrTarget.bind (fun t => t.viewport))
      = some ⟨0, 0, 960, 1080⟩ ∧
    (((construct allOn capableDriver).setViewport
        ⟨960, 0, 960, 1080⟩).createRenderTargets.blurTargetA.bind (fun t => t.viewport))
      = some ⟨0, 0, 240, 270⟩ ∧
    (((construct allOn capableDriver).setViewport
        ⟨960, 0, 960, 1080⟩).createRenderTargets.blurTargetB.bind (fun t => t.viewport))
      = some ⟨0, 0, 240, 270⟩ ∧
    (((construct allOn capableDriver).setViewport
        ⟨960, 0, 960, 1080⟩).createRenderTargets.blitTarget.bind (fun t => t.viewport))
      = some ⟨0, 0, 960, 1080⟩ ∧
    (((construct allOn capableDriver).setViewport
        ⟨960, 0, 960, 1080⟩).createRenderTargets.postProcessTarget.bind (fun t => t.viewport))
      = some ⟨0, 0, 960, 1080⟩ :=
  ⟨by decide, by decide,
   (viewport_broadcast.2.1 ((construct allOn capableDriver).setViewport ⟨960, 0, 960, 1080⟩)
      ⟨960, 0, 960, 1080⟩ (by decide) (by decide)).1,
   by decide, by decide, by decide, by decide, by decide⟩

/-- C23, as the code has it: after setClearColor(c), and after createRenderTargets with a
live driver when c is the last clear colour, the display and every present target among
blitTarget, hdrTarget, postProcessTarget, blurTargetA and blurTargetB have clear colour c;
renderToTextureTarget is not in the list of setClearColor: the call leaves it as it was, and
after createRenderTargets it has no clear colour set. -/
theorem clearColor_broadcast :
    (∀ (s : VROChoreographer) (c : VROVector4f),
      (s.setClearColor c).clearColor = c ∧
      (s.setClearColor c).renderToTextureTarget = s.renderToTextureTarget ∧
      ∀ (slot : TargetSlot) (t : VRORenderTarget), slot ≠ TargetSlot.renderToTextureTarget →
        (s.setClearColor c).target slot = some t → t.clearColor = some c) ∧
    (∀ (s : VROChoreographer), s.driverAlive = true →
      s.createRenderTargets.clearColor = s.clearColor ∧
      (∀ (slot : TargetSlot) (t : VRORenderTarget), slot ≠ TargetSlot.renderToTextureTarget →
        s.createRenderTargets.target slot = some t → t.clearColor = some s.clearColor) ∧
      ∀ t : VRORenderTarget, s.createRenderTargets.renderToTextureTarget = some t →
        t.clearColor = none) := by
  refine ⟨?_, ?_⟩
  · intro s c
    exact ⟨rfl, rfl, fun slot t hs h => setClearColor_target s c slot t hs h⟩
  · intro s ha
    refine ⟨(createRenderTargets_settings s).2.2.2.1, ?_, ?_⟩
    · intro slot t hs h
      have := createRenderTargets_target_clearColor s ha slot t h
      simpa [hs] using this
    · intro t h
      exact createRenderTargets_target_clearColor s ha .renderToTextureTarget t h

/-- Witness of the amended C23: a red clear colour on a state with every target present. -/
theorem clearColor_broadcast_witness :
    (((construct allOn capableDriver).setClearColor ⟨1, 0, 0, 1⟩).target .hdrTarget).isSome
      = true ∧
    (((construct allOn capableDriver).setClearColor ⟨1, 0, 0, 1⟩).hdrTarget.bind
        (fun t => t.clearColor)) = some ⟨1, 0, 0, 1⟩ ∧
    ((construct allOn capableDriver).setClearColor ⟨1, 0, 0, 1⟩).renderToTextureTarget
      = (construct allOn capableDriver).renderToTextureTarget :=
  ⟨by decide, by decide,
   (clearColor_broadcast.1 (construct allOn capableDriver) ⟨1, 0, 0, 1⟩).2.1⟩

/-- C23 fails as stated: after setClearColor with a red colour, and after a rebuild that
follows, renderToTextureTarget is present and has no clear colour set, while blitTarget has
the colour. -/
theorem renderToTextureTarget_no_clearColor_counterexample :
    ((construct allOn capableDriver).setClearColor ⟨1, 0, 0, 1⟩).renderToTextureTarget.isSome
      = true ∧
    (((construct allOn capableDriver).setClearColor ⟨1, 0, 0, 1⟩).renderToTextureTarget.bind
        (fun t => t.clearColor)) = none ∧
    (((construct allOn capableDriver).setClearColor ⟨1, 0, 0, 1⟩).blitTarget.bind
        (fun t => t.clearColor)) = some ⟨1, 0, 0, 1⟩ ∧
    ((construct allOn capableDriver).setClearColor ⟨1, 0, 0, 1⟩).driverAlive = true ∧
    (((construct allOn capableDriver).setClearColor
        ⟨1, 0, 0, 1⟩).createRenderTargets.renderToTextureTarget.bind
        (fun t => t.clearColor)) = none := by
  decide

/-! ## Capability negotiation for other GPU types -/

/-- C24, as the code has it: capability negotiation has no error path, and the only GPU
type it treats apart is the low-end tier Adreno330OrOlder, for which the four supported
flags are false; for every other GPU type, whatever it is, mrtSupported is true,
hdrSupported and pbrSupported hold iff the colour mode is not NonLinear, and bloomSupported
holds iff moreover the driver reports bloom support. -/
theorem capabilities_by_gpu_type (config : VRORendererConfiguration) (driver : VRODriver) :
    (driver.gpuType = VROGPUType.Adreno330OrOlder →
      (construct config driver).mrtSupported = false ∧
      (construct config driver).hdrSupported = false ∧
      (construct config driver).pbrSupported = false ∧
      (construct config driver).bloomSupported = false) ∧
    (driver.gpuType ≠ VROGPUType.Adreno330OrOlder →
      (construct config driver).mrtSupported = true ∧
      (construct config driver).hdrSupported
        = decide (driver.colorRenderingMode ≠ VROColorRenderingMode.NonLinear) ∧
      (construct config driver).pbrSupported
        = decide (driver.colorRenderingMode ≠ VROColorRenderingMode.NonLinear) ∧
      (construct config driver).bloomSupported
        = (decide (driver.colorRenderingMode ≠ VROColorRenderingMode.NonLinear)
            && driver.bloomSupported)) := by
  have hs := construct_supported config driver
  constructor
  · intro h
    rw [hs.1, hs.2.1, hs.2.2.1, hs.2.2.2]
    simp [h]
  · intro h
    rw [hs.1, hs.2.1, hs.2.2.1, hs.2.2.2]
    simp [h]

/-- Witness of the amended C24: the low-end driver and a driver of another GPU type. -/
theorem capabilities_by_gpu_type_witness :
    lowEndDriver.gpuType = VROGPUType.Adreno330OrOlder ∧
    (construct allOn lowEndDriver).bloomSupported = false ∧
    capableDriver.gpuType ≠ VROGPUType.Adreno330OrOlder ∧
    (construct allOn capableDriver).mrtSupported = true :=
  ⟨rfl, ((capabilities_by_gpu_type allOn lowEndDriver).1 rfl).2.2.2, by decide,
   ((capabilities_by_gpu_type allOn capableDriver).2 (by decide)).1⟩

/-- C24 fails as stated: a driver whose GPU type is none of the named ones (tag 4711), with
a linear colour mode and bloom support, gets all four supported flags true. -/
theorem unrecognized_gpu_fully_supported_counterexample :
    (construct allOff
      { gpuType := .other 4711, colorRenderingMode := .other 2, bloomSupported := true,
        display := sampleDisplay }).mrtSupported = true ∧
    (construct allOff
      { gpuType := .other 4711, colorRenderingMode := .other 2, bloomSupported := true,
        display := sampleDisplay }).hdrSupported = true ∧
    (construct allOff
      { gpuType := .other 4711, colorRenderingMode := .other 2, bloomSupported := true,
        display := sampleDisplay }).pbrSupported = true ∧
    (construct allOff
      { gpuType := .other 4711, colorRenderingMode := .other 2, bloomSupported := true,
        display := sampleDisplay }).bloomSupported = true := by
  decide

/-! ## Safety of the render call -/

/-- C25: in every state reachable from construction with the driver alive and a base render
pass installed, a render call, for every eye, scene, metadata and answer of the
post-process stage, runs to its end without meeting a null pointer: every render target and
pass object it reads or writes is present when it is used; and the targets and passes it
runs on after the gate are those the flags call for. -/
theorem render_uses_only_present_objects (s : VROChoreographer) (hr : Reachable s)
    (ha : s.driverAlive = true) (hb : s.baseRenderPass = true) (eye : VROEyeType)
    (scene outgoing : VROScene) (metadata : VRORenderMetadata) (pp : Bool) :
    (s.render eye scene outgoing metadata pp).completed = true ∧
    TargetSetConsistent (s.render eye scene outgoing metadata pp).state ∧
    (s.render eye scene outgoing metadata pp).trace
      = gateEvents s
        ++ preprocessEvents (s.render eye scene outgoing metadata pp).state eye scene
        ++ (mainPasses (s.render eye scene outgoing metadata pp).state scene outgoing metadata pp
            ++ (if finalPassWritesBlit (s.render eye scene outgoing metadata pp).state
                then bridgeEvents (s.render eye scene outgoing metadata pp).state else [])) := by
  have hc := render_completes hr ha hb eye scene outgoing metadata pp
  refine ⟨hc, ?_, ?_⟩
  · rw [(render_eq s eye scene outgoing metadata pp).1]
    exact renderGate_consistent s ha (reachable_dirtyProtocol hr)
  · rw [(render_eq s eye scene outgoing metadata pp).1]
    exact render_completed_trace s eye scene outgoing metadata pp hc

/-- The sample state is reachable. -/
theorem busyState_reachable : Reachable busyState :=
  ⟨allOff, capableDriver,
    ReachableFrom.step (Op.setRenderToTextureEnabled true)
      (ReachableFrom.step (Op.setBloomEnabled true)
        (ReachableFrom.step (Op.render .Left 1 0 ⟨true⟩ false)
          (ReachableFrom.step (Op.setHDREnabled true)
            (ReachableFrom.step (Op.setBaseRenderPass true) ReachableFrom.refl rfl) rfl)
          (by decide)) rfl) rfl⟩

/-- Witness of C25: HDR, then a frame, then bloom and render-to-texture, then the right
eye with bloom required. -/
theorem render_uses_only_present_objects_witness :
    Reachable busyState ∧ busyState.driverAlive = true ∧ busyState.baseRenderPass = true ∧
    (busyState.render .Right 2 1 ⟨true⟩ true).completed = true :=
  ⟨busyState_reachable, by decide, by decide,
   (render_uses_only_present_objects busyState busyState_reachable (by decide) (by decide)
      .Right 2 1 ⟨true⟩ true).1⟩

/-! ## What the operations leave alone -/

/-- C26: no operation changes a supported flag; each toggle setter changes nothing but its
own enabled flag and the dirty flag, so disabling HDR leaves bloomEnabled and pbrEnabled as
they are; setRenderToTextureEnabled changes nothing but the render-to-texture flag, the
dirty flag included. -/
theorem operations_are_local :
    (∀ (op : Op) (s : VROChoreographer),
      (op.next s).mrtSupported = s.mrtSupported ∧
      (op.next s).hdrSupported = s.hdrSupported ∧
      (op.next s).pbrSupported = s.pbrSupported ∧
      (op.next s).bloomSupported = s.bloomSupported) ∧
    (∀ (s : VROChoreographer) (b : Bool),
      (s.setHDREnabled b).2
        = { s with hdrEnabled := (s.setHDREnabled b).2.hdrEnabled
                   renderTargetsChanged := (s.setHDREnabled b).2.renderTargetsChanged } ∧
      (s.setPBREnabled b).2
        = { s with pbrEnabled := (s.setPBREnabled b).2.pbrEnabled
                   renderTargetsChanged := (s.setPBREnabled b).2.renderTargetsChanged } ∧
      (s.setShadowsEnabled b).2
        = { s with shadowsEnabled := (s.setShadowsEnabled b).2.shadowsEnabled
                   renderTargetsChanged := (s.setShadowsEnabled b).2.renderTargetsChanged } ∧
      (s.setBloomEnabled b).2
        = { s with bloomEnabled := (s.setBloomEnabled b).2.bloomEnabled
                   renderTargetsChanged := (s.setBloomEnabled b).2.renderTargetsChanged }) ∧
    (∀ s : VROChoreographer,
      (s.setHDREnabled false).2.bloomEnabled = s.bloomEnabled ∧
      (s.setHDREnabled false).2.pbrEnabled = s.pbrEnabled ∧
      (s.setHDREnabled false).2.shadowsEnabled = s.shadowsEnabled ∧
      (s.setHDREnabled false).2.renderToTexture = s.renderToTexture) ∧
    (∀ (s : VROChoreographer) (b : Bool),
      s.setRenderToTextureEnabled b = { s with renderToTexture := b } ∧
      (s.setRenderToTextureEnabled b).renderTargetsChanged = s.renderTargetsChanged) := by
  refine ⟨next_supported, ?_, ?_, fun s b => ⟨rfl, rfl⟩⟩
  · intro s b
    obtain ⟨driver, alive, clear, dirty, rtt, mrtS, hdrS, pbrS, bloomS, shadows, hdr, pbr,
      bloom, vp, bp, bt, rt, ppt, ht, ba, bb, gp, ab, tm, pre, base, dlg, cb⟩ := s
    refine ⟨?_, ?_, ?_, ?_⟩
    · cases b <;> cases hdr <;> cases hdrS <;> rfl
    · cases b <;> cases pbr <;> cases pbrS <;> rfl
    · cases b <;> cases shadows <;> cases mrtS <;> rfl
    · cases b <;> cases bloom <;> cases bloomS <;> rfl
  · intro s
    cases h : s.hdrEnabled <;> simp [setHDREnabled, h]

/-! ## The tone-mapping input and the attachments of hdrTarget -/

/-- Every event of the bridge is a bridge step. -/
theorem bridgeEvents_isBridge (g : VROChoreographer) (e : Event) (h : e ∈ bridgeEvents g) :
    e.isBridge = true := by
  rw [← filter_isBridge_bridgeEvents g] at h
  exact (List.mem_filter.1 h).2

/-- A bridge step is not a tone-mapping pass. -/
theorem not_toneMapping_of_isBridge (e : Event) (h : e.isBridge = true) :
    e.isToneMapping = false := by
  cases e <;> first | rfl | simp [Event.isBridge] at h

/-- C27, for the states in which the rebuild can take place: for every state reached from
construction with the driver still alive and the base render pass installed, in both HDR
branches a render call runs to its end and issues the tone-mapping pass exactly once, right
after the post-process stage, and its HDR input is the target that is current after that
stage: with bloom (bloomEnabled and the metadata requiring it) the stage goes from
postProcessTarget to hdrTarget and the input is texture 0 of hdrTarget if it ran, of
postProcessTarget if it declined; without, the stage goes from hdrTarget to
postProcessTarget and the input is texture 0 of postProcessTarget if it ran, of hdrTarget if
it declined. -/
theorem tone_mapping_consumes_current_target (s : VROChoreographer) (eye : VROEyeType)
    (scene outgoing : VROScene) (metadata : VRORenderMetadata) (pp : Bool)
    (hre : Reachable s) (ha : s.driverAlive = true) (hbp : s.baseRenderPass = true)
    (hh : s.hdrEnabled = true) :
    (s.render eye scene outgoing metadata pp).completed = true ∧
    (s.render eye scene outgoing metadata pp).trace.filter Event.isToneMapping
      = [Event.toneMappingPass
          (if s.bloomEnabled && metadata.requiresBloomPass
            then (if pp then ⟨.hdrTarget, 0⟩ else ⟨.postProcessTarget, 0⟩)
            else (if pp then ⟨.postProcessTarget, 0⟩ else ⟨.hdrTarget, 0⟩))
          (if s.renderToTexture then .blitTarget else .display)] ∧
    ∃ before after : List Event,
      (s.render eye scene outgoing metadata pp).trace
        = before
          ++ [(if s.bloomEnabled && metadata.requiresBloomPass
                then Event.handlePostProcessing .postProcessTarget .hdrTarget pp
                else Event.handlePostProcessing .hdrTarget .postProcessTarget pp),
              Event.toneMappingPass
                (if s.bloomEnabled && metadata.requiresBloomPass
                  then (if pp then ⟨.hdrTarget, 0⟩ else ⟨.postProcessTarget, 0⟩)
                  else (if pp then ⟨.postProcessTarget, 0⟩ else ⟨.hdrTarget, 0⟩))
                (if s.renderToTexture then .blitTarget else .display)]
          ++ after := by
  have hc := render_completes hre ha hbp eye scene outgoing metadata pp
  have hg := renderGate_branch_flags s
  have htrace := render_completed_trace s eye scene outgoing metadata pp hc
  have hbridge : ((if finalPassWritesBlit s.renderGate then bridgeEvents s.renderGate
      else []) : List Event).filter Event.isToneMapping = [] := by
    rw [List.filter_eq_nil_iff]
    intro e he
    split at he
    · rw [not_toneMapping_of_isBridge e (bridgeEvents_isBridge _ e he)]
      simp
    · simp at he
  cases hb : (s.bloomEnabled && metadata.requiresBloomPass)
  · have hm : mainPasses s.renderGate scene outgoing metadata pp
        = [Event.baseRenderPass scene outgoing .hdrTarget,
            Event.handlePostProcessing .hdrTarget .postProcessTarget pp,
            Event.toneMappingPass (if pp then ⟨.postProcessTarget, 0⟩ else ⟨.hdrTarget, 0⟩)
              (if s.renderToTexture then .blitTarget else .display)] := by
      have hb2 : (true && s.bloomEnabled && metadata.requiresBloomPass) = false := by
        simpa using hb
      simp only [mainPasses, selectBranch, hg.1, hg.2.1, hg.2.2.2.1, hh, hb2,
        Bool.false_eq_true, if_false, if_true]
    rw [hm] at htrace
    refine ⟨hc, ?_, ?_⟩
    · rw [htrace, List.filter_append,
        filter_gate_and_preprocess _ (fun e h => (classes_of_not_sceneStep e h).2.1),
        List.filter_append, hbridge]
      simp [List.filter, Event.isToneMapping]
    · refine ⟨gateEvents s ++ preprocessEvents s.renderGate eye scene
          ++ [Event.baseRenderPass scene outgoing .hdrTarget],
        (if finalPassWritesBlit s.renderGate then bridgeEvents s.renderGate else []), ?_⟩
      rw [htrace]
      simp
  · have hm : mainPasses s.renderGate scene outgoing metadata pp
        = [Event.baseRenderPass scene outgoing .hdrTarget,
            Event.gaussianBlurPass .hdrTarget .blurTargetA .blurTargetB,
            Event.additiveBlend [⟨.hdrTarget, 0⟩, ⟨.blurTargetB, 0⟩] .postProcessTarget,
            Event.handlePostProcessing .postProcessTarget .hdrTarget pp,
            Event.toneMappingPass (if pp then ⟨.hdrTarget, 0⟩ else ⟨.postProcessTarget, 0⟩)
              (if s.renderToTexture then .blitTarget else .display)] := by
      have hb2 : (true && s.bloomEnabled && metadata.requiresBloomPass) = true := by
        simpa using hb
      simp only [mainPasses, selectBranch, hg.1, hg.2.1, hg.2.2.2.1, hh, hb2, if_true]
    rw [hm] at htrace
    refine ⟨hc, ?_, ?_⟩
    · rw [htrace, List.filter_append,
        filter_gate_and_preprocess _ (fun e h => (classes_of_not_sceneStep e h).2.1),
        List.filter_append, hbridge]
      simp [List.filter, Event.isToneMapping]
    · refine ⟨gateEvents s ++ preprocessEvents s.renderGate eye scene
          ++ [Event.baseRenderPass scene outgoing .hdrTarget,
              Event.gaussianBlurPass .hdrTarget .blurTargetA .blurTargetB,
              Event.additiveBlend [⟨.hdrTarget, 0⟩, ⟨.blurTargetB, 0⟩] .postProcessTarget],
        (if finalPassWritesBlit s.renderGate then bridgeEvents s.renderGate else []), ?_⟩
      rw [htrace]
      simp

/-- Witness of the amended C27: on a live driver, bloom and render-to-texture on, the
post-process stage having run: the input is hdrTarget; and HDR only, the stage having
declined: the input is hdrTarget again. -/
theorem tone_mapping_consumes_current_target_witness :
    Reachable busyState ∧ busyState.driverAlive = true ∧ busyState.baseRenderPass = true ∧
    busyState.hdrEnabled = true ∧
    (busyState.render .Left 1 0 ⟨true⟩ true).completed = true ∧
    (busyState.render .Left 1 0 ⟨true⟩ true).trace.filter Event.isToneMapping
      = [Event.toneMappingPass ⟨.hdrTarget, 0⟩ .blitTarget] ∧
    (toggledBetweenEyes.render .Right 1 0 ⟨false⟩ false).trace.filter Event.isToneMapping
      = [Event.toneMappingPass ⟨.hdrTarget, 0⟩ .display] :=
  ⟨busyState_reachable, by decide, by decide, by decide,
   (tone_mapping_consumes_current_target busyState .Left 1 0 ⟨true⟩ true
      busyState_reachable (by decide) (by decide) (by decide)).1,
   (tone_mapping_consumes_current_target busyState .Left 1 0 ⟨true⟩ true
      busyState_reachable (by decide) (by decide) (by decide)).2.1.trans (by decide),
   (tone_mapping_consumes_current_target toggledBetweenEyes .Right 1 0 ⟨false⟩ false
      toggledBetweenEyes_reachable (by decide) (by decide) (by decide)).2.1.trans (by decide)⟩

/-- C27 fails as stated once the driver has expired: in the two states reached from
construction in which HDR, respectively bloom, was switched on after the expiry, the base
render pass is installed and hdrEnabled holds, and the render call, in the HDR-only branch
and in the bloom branch, issues no tone-mapping pass at all. -/
theorem tone_mapping_never_runs_counterexample :
    Reachable hdrAfterExpiryState ∧
    hdrAfterExpiryState.hdrEnabled = true ∧
    hdrAfterExpiryState.baseRenderPass = true ∧
    selectBranch (hdrAfterExpiryState.render .Right 1 0 ⟨false⟩ true).state ⟨false⟩
      = Branch.hdrOnly ∧
    (hdrAfterExpiryState.render .Right 1 0 ⟨false⟩ true).trace.filter Event.isToneMapping
      = [] ∧
    Reachable bloomAfterExpiryState ∧
    bloomAfterExpiryState.hdrEnabled = true ∧
    bloomAfterExpiryState.baseRenderPass = true ∧
    selectBranch (bloomAfterExpiryState.render .Right 1 0 ⟨true⟩ true).state ⟨true⟩
      = Branch.hdrBloom ∧
    (bloomAfterExpiryState.render .Right 1 0 ⟨true⟩ true).trace.filter Event.isToneMapping
      = [] :=
  ⟨hdrAfterExpiryState_reachable, by decide, by decide, by decide, by decide,
   bloomAfterExpiryState_reachable, by decide, by decide, by decide, by decide⟩

/-- C28, as the code has it: in every reachable state with a live driver, whenever the
HDR-only branch is selected (hdrEnabled holds and not both bloomEnabled and the metadata
requiring bloom), the hdrTarget the base pass renders into has the attachment count fixed at
the last rebuild by bloomEnabled alone: 1 colour attachment when bloomEnabled is false, 2
when bloomEnabled is true and it is the metadata that does not require the bloom pass. -/
theorem hdr_only_target_attachments (s : VROChoreographer) (metadata : VRORenderMetadata)
    (hr : Reachable s) (ha : s.driverAlive = true) (hh : s.hdrEnabled = true)
    (hb : (s.bloomEnabled && metadata.requiresBloomPass) = false) (eye : VROEyeType)
    (scene outgoing : VROScene) (pp : Bool) :
    selectBranch (s.render eye scene outgoing metadata pp).state metadata = Branch.hdrOnly ∧
    (s.render eye scene outgoing metadata pp).state.hdrTarget.map (fun t => t.numAttachments)
      = some (if s.bloomEnabled then 2 else 1) := by
  have hg := renderGate_branch_flags s
  have hst := (render_eq s eye scene outgoing metadata pp).1
  have hcons := renderGate_consistent s ha (reachable_dirtyProtocol hr)
  rw [hst]
  constructor
  · have hb2 : (true && s.bloomEnabled && metadata.requiresBloomPass) = false := by
      simpa using hb
    simp only [selectBranch, hg.1, hg.2.1, hh, hb2, Bool.false_eq_true, if_false, if_true]
  · rw [hcons.2.2.2.2.2, hg.1, hg.2.1, hh]
    rfl

/-- Witness of the amended C28: HDR on and bloom off on a capable driver. -/
theorem hdr_only_target_attachments_witness :
    Reachable (construct hdrOnlyConfig capableDriver) ∧
    (construct hdrOnlyConfig capableDriver).driverAlive = true ∧
    (construct hdrOnlyConfig capableDriver).hdrEnabled = true ∧
    ((construct hdrOnlyConfig capableDriver).bloomEnabled && true) = false ∧
    ((construct hdrOnlyConfig capableDriver).render .Left 1 0 ⟨true⟩ false).state.hdrTarget.map
        (fun t => t.numAttachments) = some 1 :=
  ⟨⟨hdrOnlyConfig, capableDriver, ReachableFrom.refl⟩, by decide, by decide, by decide,
   (hdr_only_target_attachments (construct hdrOnlyConfig capableDriver) ⟨true⟩
      ⟨hdrOnlyConfig, capableDriver, ReachableFrom.refl⟩ (by decide) (by decide) (by decide)
      .Left 1 0 false).2.trans (by decide)⟩

/-- C28 fails as stated: with HDR and bloom enabled on a live driver and metadata that does
not require the bloom pass, the HDR-only branch is selected, the render call runs to its end
with the base pass rendering into hdrTarget, and hdrTarget has 2 colour attachments. -/
theorem hdr_only_branch_two_attachments_counterexample :
    ((construct allOn capableDriver).setBaseRenderPass true).hdrEnabled = true ∧
    ((construct allOn capableDriver).setBaseRenderPass true).bloomEnabled = true ∧
    selectBranch
      (((construct allOn capableDriver).setBaseRenderPass true).render
        .Right 1 0 ⟨false⟩ false).state ⟨false⟩ = Branch.hdrOnly ∧
    (((construct allOn capableDriver).setBaseRenderPass true).render
        .Right 1 0 ⟨false⟩ false).trace
      = [Event.baseRenderPass 1 0 .hdrTarget,
         Event.handlePostProcessing .hdrTarget .postProcessTarget false,
         Event.toneMappingPass ⟨.hdrTarget, 0⟩ .display] ∧
    (((construct allOn capableDriver).setBaseRenderPass true).render
        .Right 1 0 ⟨false⟩ false).completed = true ∧
    (((construct allOn capableDriver).setBaseRenderPass true).render
        .Right 1 0 ⟨false⟩ false).state.hdrTarget.map (fun t => t.numAttachments) = some 2 := by
  decide

/-! ## The dirty flag as a function of the flag change -/

/-- C30: for each of the four toggles, every state and every argument, the dirty flag after
the call is the dirty flag before or-ed with "the enabled flag was changed by the call"; a
call that leaves the enabled flag as it was leaves the whole state, the dirty flag
included, as it was; and calling the setter a second time with the same argument returns
the same value and state as the first call. -/
theorem dirty_tracks_flag_change (f : Feature) (s : VROChoreographer) (b : Bool) :
    (f.set s b).2.renderTargetsChanged
      = (s.renderTargetsChanged || (f.enabled (f.set s b).2 != f.enabled s)) ∧
    (f.enabled (f.set s b).2 = f.enabled s → (f.set s b).2 = s) ∧
    f.set (f.set s b).2 b = f.set s b := by
  obtain ⟨driver, alive, clear, dirty, rtt, mrtS, hdrS, pbrS, bloomS, shadows, hdr, pbr,
    bloom, vp, bp, bt, rt, ppt, ht, ba, bb, gp, ab, tm, pre, base, dlg, cb⟩ := s
  cases f
  · cases b <;> cases hdr <;> cases hdrS <;> cases dirty <;>
      simp [Feature.set, Feature.enabled, setHDREnabled]
  · cases b <;> cases pbr <;> cases pbrS <;> cases dirty <;>
      simp [Feature.set, Feature.enabled, setPBREnabled]
  · cases b <;> cases shadows <;> cases mrtS <;> cases dirty <;>
      simp [Feature.set, Feature.enabled, setShadowsEnabled]
  · cases b <;> cases bloom <;> cases bloomS <;> cases dirty <;>
      simp [Feature.set, Feature.enabled, setBloomEnabled]

/-- Witness of C30: enabling shadows where they are enabled leaves the state as it was. -/
theorem dirty_tracks_flag_change_witness :
    Feature.shadows.enabled (Feature.shadows.set (construct allOn capableDriver) true).2
      = Feature.shadows.enabled (construct allOn capableDriver) ∧
    (Feature.shadows.set (construct allOn capableDriver) true).2
      = construct allOn capableDriver :=
  ⟨by decide,
   (dirty_tracks_flag_change Feature.shadows (construct allOn capableDriver) true).2.1
      (by decide)⟩

/-! ## The dirty-flag protocol in full -/

set_option maxHeartbeats 1000000 in
/-- With a live driver the targets, passes and preprocesses createRenderTargets leaves are
a function of what it reads: two states with the same flags, colour mode, viewport and clear
colour get the same. -/
theorem createRenderTargets_of_key (s r : VROChoreographer) (hs : s.driverAlive = true)
    (hr : r.driverAlive = true) (hk : allocKey r = allocKey s) :
    (∀ slot : TargetSlot, slot ≠ .display →
      r.createRenderTargets.target slot = s.createRenderTargets.target slot) ∧
    r.createRenderTargets.blitPostProcess = s.createRenderTargets.blitPostProcess ∧
    r.createRenderTargets.gaussianBlurPass = s.createRenderTargets.gaussianBlurPass ∧
    r.createRenderTargets.additiveBlendPostProcess
      = s.createRenderTargets.additiveBlendPostProcess ∧
    r.createRenderTargets.toneMappingPass = s.createRenderTargets.toneMappingPass ∧
    r.createRenderTargets.preprocesses = s.createRenderTargets.preprocesses := by
  simp only [allocKey, Prod.mk.injEq] at hk
  obtain ⟨e1, e2, e3, e4, e5, e6, e7, e8⟩ := hk
  refine ⟨?_, ?_, ?_, ?_, ?_, ?_⟩
  · intro slot hslot
    cases slot <;> first | exact absurd rfl hslot | skip
    all_goals
      cases h2 : s.mrtSupported <;> cases h3 : s.hdrEnabled <;> cases h4 : s.bloomEnabled <;>
        cases h5 : s.viewport <;>
        simp [createRenderTargets, createHDRTargets, createBlitTargets, resetTargets,
          setViewport, setClearColor, target, hs, hr, e1, e2, e3, e4, e5, e6, e7, e8, h2, h3,
          h4, h5]
  all_goals
    cases h2 : s.mrtSupported <;> cases h3 : s.hdrEnabled <;> cases h4 : s.bloomEnabled <;>
      cases h5 : s.viewport <;>
      simp [createRenderTargets, createHDRTargets, createBlitTargets, resetTargets,
        setViewport, setClearColor, hs, hr, e1, e2, e3, e4, e5, e6, e7, e8, h2, h3, h4, h5]

/-- What createRenderTargets reads it leaves as it was. -/
theorem createRenderTargets_allocKey (s : VROChoreographer) :
    allocKey s.createRenderTargets = allocKey s := by
  have hf := createRenderTargets_flags s
  have hs := createRenderTargets_settings s
  have hm : s.createRenderTargets.driver.colorRenderingMode = s.driver.colorRenderingMode := by
    cases h1 : s.driverAlive <;> cases h2 : s.mrtSupported <;> cases h3 : s.hdrEnabled <;>
      cases h4 : s.bloomEnabled <;> cases h5 : s.viewport <;>
      simp [createRenderTargets, createHDRTargets, createBlitTargets, resetTargets, setViewport,
        setClearColor, h1, h2, h3, h4, h5]
  simp only [allocKey, hf.1, hf.2.2.2.2.1, hf.2.2.2.2.2.1, hf.2.2.2.2.2.2.1, hf.2.2.2.2.2.2.2,
    hs.2.2.2.1, hs.2.2.2.2.1, hm]

/-- The target of a slot after setViewport. -/
theorem setViewport_target_map (s : VROChoreographer) (v : VROViewport) (slot : TargetSlot)
    (h : slot ≠ .display) :
    (s.setViewport v).target slot
      = (s.target slot).map (fun t => t.setViewport (expectedViewport v slot)) := by
  cases slot <;> first | exact absurd rfl h | rfl

/-- The target of a slot after setClearColor. -/
theorem setClearColor_target_map (s : VROChoreographer) (c : VROVector4f) (slot : TargetSlot)
    (h : slot ≠ .display) :
    (s.setClearColor c).target slot = (s.target slot).map (clearColorOn c slot) := by
  cases slot <;> first | exact absurd rfl h | rfl | skip
  simp only [target, setClearColor]
  cases s.renderToTextureTarget <;> rfl

set_option maxHeartbeats 1000000 in
/-- With a live driver, setting the viewport after createRenderTargets gives the targets
that createRenderTargets gives once the viewport is set; the passes and preprocesses do not
depend on the viewport. -/
theorem createRenderTargets_setViewport (s : VROChoreographer) (v : VROViewport)
    (hs : s.driverAlive = true) :
    (∀ slot : TargetSlot, slot ≠ .display →
      (s.setViewport v).createRenderTargets.target slot
        = (s.createRenderTargets.setViewport v).target slot) ∧
    (s.setViewport v).createRenderTargets.blitPostProcess
      = s.createRenderTargets.blitPostProcess ∧
    (s.setViewport v).createRenderTargets.gaussianBlurPass
      = s.createRenderTargets.gaussianBlurPass ∧
    (s.setViewport v).createRenderTargets.additiveBlendPostProcess
      = s.createRenderTargets.additiveBlendPostProcess ∧
    (s.setViewport v).createRenderTargets.toneMappingPass
      = s.createRenderTargets.toneMappingPass ∧
    (s.setViewport v).createRenderTargets.preprocesses = s.createRenderTargets.preprocesses := by
  refine ⟨?_, ?_, ?_, ?_, ?_, ?_⟩
  · intro slot hslot
    cases slot <;> first | exact absurd rfl hslot | skip
    all_goals
      cases h2 : s.mrtSupported <;> cases h3 : s.hdrEnabled <;> cases h4 : s.bloomEnabled <;>
        cases h5 : s.viewport <;>
        simp [createRenderTargets, createHDRTargets, createBlitTargets, resetTargets,
          setViewport, setClearColor, target, VRORenderTarget.setViewport,
          VRORenderTarget.setClearColor, hs, h2, h3, h4, h5]
  all_goals
    cases h2 : s.mrtSupported <;> cases h3 : s.hdrEnabled <;> cases h4 : s.bloomEnabled <;>
      cases h5 : s.viewport <;>
      simp [createRenderTargets, createHDRTargets, createBlitTargets, resetTargets,
        setViewport, setClearColor, hs, h2, h3, h4, h5]

set_option maxHeartbeats 1000000 in
/-- With a live driver, setting the clear colour after createRenderTargets gives the targets
that createRenderTargets gives once the clear colour is set; the passes and preprocesses do
not depend on the clear colour. -/
theorem createRenderTargets_setClearColor (s : VROChoreographer) (c : VROVector4f)
    (hs : s.driverAlive = true) :
    (∀ slot : TargetSlot, slot ≠ .display →
      (s.setClearColor c).createRenderTargets.target slot
        = (s.createRenderTargets.setClearColor c).target slot) ∧
    (s.setClearColor c).createRenderTargets.blitPostProcess
      = s.createRenderTargets.blitPostProcess ∧
    (s.setClearColor c).createRenderTargets.gaussianBlurPass
      = s.createRenderTargets.gaussianBlurPass ∧
    (s.setClearColor c).createRenderTargets.additiveBlendPostProcess
      = s.createRenderTargets.additiveBlendPostProcess ∧
    (s.setClearColor c).createRenderTargets.toneMappingPass
      = s.createRenderTargets.toneMappingPass ∧
    (s.setClearColor c).createRenderTargets.preprocesses
      = s.createRenderTargets.preprocesses := by
  refine ⟨?_, ?_, ?_, ?_, ?_, ?_⟩
  · intro slot hslot
    cases slot <;> first | exact absurd rfl hslot | skip
    all_goals
      cases h2 : s.mrtSupported <;> cases h3 : s.hdrEnabled <;> cases h4 : s.bloomEnabled <;>
        cases h5 : s.viewport <;>
        simp [createRenderTargets, createHDRTargets, createBlitTargets, resetTargets,
          setViewport, setClearColor, target, VRORenderTarget.setViewport,
          VRORenderTarget.setClearColor, hs, h2, h3, h4, h5]
  all_goals
    cases h2 : s.mrtSupported <;> cases h3 : s.hdrEnabled <;> cases h4 : s.bloomEnabled <;>
      cases h5 : s.viewport <;>
      simp [createRenderTargets, createHDRTargets, createBlitTargets, resetTargets,
        setViewport, setClearColor, hs, h2, h3, h4, h5]

/-- Being the same target set is reflexive. -/
theorem sameTargetSet_refl (s : VROChoreographer) : SameTargetSet s s :=
  ⟨fun _ _ => rfl, rfl, rfl, rfl, rfl, rfl⟩

/-- Being the same target set is transitive. -/
theorem sameTargetSet_trans {a b c : VROChoreographer} (h1 : SameTargetSet a b)
    (h2 : SameTargetSet b c) : SameTargetSet a c :=
  ⟨fun slot hs => (h1.1 slot hs).trans (h2.1 slot hs), h1.2.1.trans h2.2.1,
    h1.2.2.1.trans h2.2.2.1, h1.2.2.2.1.trans h2.2.2.2.1, h1.2.2.2.2.1.trans h2.2.2.2.2.1,
    h1.2.2.2.2.2.trans h2.2.2.2.2.2⟩

/-- Two live states that createRenderTargets reads alike get the same target set from it. -/
theorem sameTargetSet_of_key (s r : VROChoreographer) (hs : s.driverAlive = true)
    (hr : r.driverAlive = true) (hk : allocKey r = allocKey s) :
    SameTargetSet r.createRenderTargets s.createRenderTargets := by
  have h := createRenderTargets_of_key s r hs hr hk
  exact ⟨fun slot hslot => by rw [h.1 slot hslot], h.2.1, h.2.2.1, h.2.2.2.1, h.2.2.2.2.1,
    h.2.2.2.2.2⟩

/-- With a live driver createRenderTargets, run a second time, gives the same target set. -/
theorem createRenderTargets_idempotent (s : VROChoreographer) (hs : s.driverAlive = true) :
    SameTargetSet s.createRenderTargets s.createRenderTargets.createRenderTargets := by
  have ha : s.createRenderTargets.driverAlive = true :=
    (createRenderTargets_settings s).1.trans hs
  have h := sameTargetSet_of_key s s.createRenderTargets hs ha (createRenderTargets_allocKey s)
  exact ⟨fun slot hslot => (h.1 slot hslot).symm, h.2.1.symm, h.2.2.1.symm, h.2.2.2.1.symm,
    h.2.2.2.2.1.symm, h.2.2.2.2.2.symm⟩

/-- The constructed state follows the dirty-flag protocol in full. -/
theorem construct_rebuildProtocol (config : VRORendererConfiguration) (driver : VRODriver) :
    RebuildProtocol (construct config driver) := by
  intro _ _
  unfold construct
  exact createRenderTargets_idempotent _ rfl

/-- An operation that changes nothing createRenderTargets reads, nor the target set, nor
the liveness of the driver or the dirty flag, preserves the protocol. -/
theorem rebuildProtocol_of_same (s r : VROChoreographer) (h : RebuildProtocol s)
    (ha : r.driverAlive = s.driverAlive) (hd : r.renderTargetsChanged = s.renderTargetsChanged)
    (hk : allocKey r = allocKey s) (hsame : SameTargetSet r s) : RebuildProtocol r := by
  intro hra hrd
  have hsa : s.driverAlive = true := ha ▸ hra
  have hsd : s.renderTargetsChanged = false := hd ▸ hrd
  have h1 := h hsa hsd
  have h2 := sameTargetSet_of_key s r hsa hra hk
  refine sameTargetSet_trans hsame (sameTargetSet_trans h1 ?_)
  exact ⟨fun slot hslot => (h2.1 slot hslot).symm, h2.2.1.symm, h2.2.2.1.symm,
    h2.2.2.2.1.symm, h2.2.2.2.2.1.symm, h2.2.2.2.2.2.symm⟩

/-- Being the same target set is symmetric. -/
theorem sameTargetSet_symm {a b : VROChoreographer} (h : SameTargetSet a b) :
    SameTargetSet b a :=
  ⟨fun slot hs => (h.1 slot hs).symm, h.2.1.symm, h.2.2.1.symm, h.2.2.2.1.symm,
    h.2.2.2.2.1.symm, h.2.2.2.2.2.symm⟩

/-- Setting the viewport on two states with the same target set keeps it the same. -/
theorem sameTargetSet_setViewport {a b : VROChoreographer} (v : VROViewport)
    (h : SameTargetSet a b) : SameTargetSet (a.setViewport v) (b.setViewport v) := by
  refine ⟨?_, h.2.1, h.2.2.1, h.2.2.2.1, h.2.2.2.2.1, h.2.2.2.2.2⟩
  intro slot hslot
  have hc : (VRORenderTarget.detached ∘ fun t => t.setViewport (expectedViewport v slot))
      = ((fun t => t.setViewport (expectedViewport v slot)) ∘ VRORenderTarget.detached) := rfl
  rw [setViewport_target_map _ _ _ hslot, setViewport_target_map _ _ _ hslot,
    Option.map_map, Option.map_map, hc, ← Option.map_map, ← Option.map_map, h.1 slot hslot]

/-- Setting the clear colour on two states with the same target set keeps it the same. -/
theorem sameTargetSet_setClearColor {a b : VROChoreographer} (c : VROVector4f)
    (h : SameTargetSet a b) : SameTargetSet (a.setClearColor c) (b.setClearColor c) := by
  refine ⟨?_, h.2.1, h.2.2.1, h.2.2.2.1, h.2.2.2.2.1, h.2.2.2.2.2⟩
  intro slot hslot
  have hc : (VRORenderTarget.detached ∘ clearColorOn c slot)
      = (clearColorOn c slot ∘ VRORenderTarget.detached) := by
    funext t
    cases slot <;> rfl
  rw [setClearColor_target_map _ _ _ hslot, setClearColor_target_map _ _ _ hslot,
    Option.map_map, Option.map_map, hc, ← Option.map_map, ← Option.map_map, h.1 slot hslot]

/-- Every operation preserves the dirty-flag protocol in full. -/
theorem next_rebuildProtocol (op : Op) (s : VROChoreographer) (h : RebuildProtocol s) :
    RebuildProtocol (op.next s) := by
  cases op with
  | setHDREnabled b =>
    cases b <;> cases h1 : s.hdrEnabled <;> cases h2 : s.hdrSupported <;>
      simp [Op.next, setHDREnabled, h1, h2, RebuildProtocol] <;> exact h
  | setPBREnabled b =>
    cases b <;> cases h1 : s.pbrEnabled <;> cases h2 : s.pbrSupported <;>
      simp [Op.next, setPBREnabled, h1, h2, RebuildProtocol] <;> exact h
  | setShadowsEnabled b =>
    cases b <;> cases h1 : s.shadowsEnabled <;> cases h2 : s.mrtSupported <;>
      simp [Op.next, setShadowsEnabled, h1, h2, RebuildProtocol] <;> exact h
  | setBloomEnabled b =>
    cases b <;> cases h1 : s.bloomEnabled <;> cases h2 : s.bloomSupported <;>
      simp [Op.next, setBloomEnabled, h1, h2, RebuildProtocol] <;> exact h
  | setRenderToTextureEnabled b =>
    exact rebuildProtocol_of_same s _ h rfl rfl rfl
      ⟨fun slot _ => by cases slot <;> rfl, rfl, rfl, rfl, rfl, rfl⟩
  | setViewport v =>
    intro ha hd
    have hsa : s.driverAlive = true := ha
    have h1 := sameTargetSet_setViewport v (h hsa hd)
    have h2 := createRenderTargets_setViewport s v hsa
    refine sameTargetSet_trans h1 ?_
    exact ⟨fun slot hslot => congrArg _ (h2.1 slot hslot).symm, h2.2.1.symm, h2.2.2.1.symm,
      h2.2.2.2.1.symm, h2.2.2.2.2.1.symm, h2.2.2.2.2.2.symm⟩
  | setClearColor c =>
    intro ha hd
    have hsa : s.driverAlive = true := ha
    have h1 := sameTargetSet_setClearColor c (h hsa hd)
    have h2 := createRenderTargets_setClearColor s c hsa
    refine sameTargetSet_trans h1 ?_
    exact ⟨fun slot hslot => congrArg _ (h2.1 slot hslot).symm, h2.2.1.symm, h2.2.2.1.symm,
      h2.2.2.2.1.symm, h2.2.2.2.2.1.symm, h2.2.2.2.2.2.symm⟩
  | render eye scene outgoing metadata pp =>
    simp only [Op.next, render]
    unfold renderGate
    cases hd : s.renderTargetsChanged
    · simp only [Bool.false_eq_true, if_false]
      exact h
    · simp only [if_true]
      intro ha _
      have hsa : s.driverAlive = true := (createRenderTargets_settings s).1.symm.trans ha
      have hk : allocKey { s.createRenderTargets with renderTargetsChanged := false }
          = allocKey s := createRenderTargets_allocKey s
      have h2 := sameTargetSet_of_key s
        { s.createRenderTargets with renderTargetsChanged := false } hsa ha hk
      refine sameTargetSet_trans ?_ (sameTargetSet_symm h2)
      exact ⟨fun slot _ => by cases slot <;> rfl, rfl, rfl, rfl, rfl, rfl⟩
  | setRenderToTextureCallback c =>
    exact rebuildProtocol_of_same s _ h rfl rfl rfl
      ⟨fun slot _ => by cases slot <;> rfl, rfl, rfl, rfl, rfl, rfl⟩
  | setRenderToTextureDelegate d =>
    exact rebuildProtocol_of_same s _ h rfl rfl rfl
      ⟨fun slot _ => by cases slot <;> rfl, rfl, rfl, rfl, rfl, rfl⟩
  | setRenderTexture t =>
    cases ht : s.renderToTextureTarget with
    | none =>
      simp only [Op.next, setRenderTexture, ht, Option.getD_none]
      exact h
    | some r =>
      simp only [Op.next, setRenderTexture, ht, Option.getD_some]
      refine rebuildProtocol_of_same s _ h rfl rfl rfl ?_
      refine ⟨fun slot _ => ?_, rfl, rfl, rfl, rfl, rfl⟩
      cases slot <;> simp [target, ht, VRORenderTarget.detached, VRORenderTarget.attachTexture]
  | setBaseRenderPass p =>
    exact rebuildProtocol_of_same s _ h rfl rfl rfl
      ⟨fun slot _ => by cases slot <;> rfl, rfl, rfl, rfl, rfl, rfl⟩
  | driverExpired =>
    intro ha
    simp [Op.next, driverExpired] at ha

/-- Every reachable state follows the dirty-flag protocol in full. -/
theorem reachable_rebuildProtocol {s : VROChoreographer} (h : Reachable s) :
    RebuildProtocol s := by
  obtain ⟨config, driver, hr⟩ := h
  induction hr with
  | refl => exact construct_rebuildProtocol config driver
  | @step t op _ _ ih => exact next_rebuildProtocol op t ih

/-- C29, with the guard of createRenderTargets: in every state reachable from construction
whose driver is still alive, if the dirty flag is false then the render targets (up to a
texture attached by setRenderTexture), the pass objects and the preprocess list are exactly
those createRenderTargets would produce now from the flags, the viewport and the clear
colour, and they are those the flags call for; consequently in every render call the state
left by the gate, on which the first pass executes, has the targets and passes the flags
call for, and they are those a rebuild would produce. -/
theorem clean_state_matches_rebuild (s : VROChoreographer) (hr : Reachable s)
    (ha : s.driverAlive = true) :
    (s.renderTargetsChanged = false →
      SameTargetSet s s.createRenderTargets ∧ TargetSetConsistent s) ∧
    ∀ (eye : VROEyeType) (scene outgoing : VROScene) (metadata : VRORenderMetadata)
      (pp : Bool),
      (s.render eye scene outgoing metadata pp).state.renderTargetsChanged = false ∧
      SameTargetSet (s.render eye scene outgoing metadata pp).state
        (s.render eye scene outgoing metadata pp).state.createRenderTargets ∧
      TargetSetConsistent (s.render eye scene outgoing metadata pp).state := by
  constructor
  · intro hd
    exact ⟨reachable_rebuildProtocol hr ha hd, reachable_dirtyProtocol hr ha hd⟩
  · intro eye scene outgoing metadata pp
    have hst := (render_eq s eye scene outgoing metadata pp).1
    have hs := renderGate_settings s
    rw [hst]
    refine ⟨hs.2.1, ?_, renderGate_consistent s ha (reachable_dirtyProtocol hr)⟩
    have hnext := next_rebuildProtocol (Op.render eye scene outgoing metadata pp) s
      (reachable_rebuildProtocol hr)
    simp only [Op.next, hst] at hnext
    exact hnext (hs.1.trans ha) hs.2.1

/-- Witness of the amended C29: the constructed state with every feature on. -/
theorem clean_state_matches_rebuild_witness :
    Reachable (construct allOn capableDriver) ∧
    (construct allOn capableDriver).driverAlive = true ∧
    (construct allOn capableDriver).renderTargetsChanged = false ∧
    TargetSetConsistent (construct allOn capableDriver) :=
  ⟨⟨allOn, capableDriver, ReachableFrom.refl⟩, by decide, by decide,
   ((clean_state_matches_rebuild (construct allOn capableDriver)
      ⟨allOn, capableDriver, ReachableFrom.refl⟩ (by decide)).1 (by decide)).2⟩

/-- C29 fails as stated.  With an expired driver: the state is reached from construction,
its dirty flag is false, HDR and bloom are enabled, yet no blur target exists, while a
rebuild with a driver would produce one; the targets are not those the flags call for, and
the next render call that requires bloom meets a null pointer after the base pass.  With a
live driver: after setRenderTexture the dirty flag is false and renderToTextureTarget
carries a texture that the one createRenderTargets would produce does not. -/
theorem clean_state_not_rebuilt_counterexample :
    (Reachable staleBloomState ∧
     staleBloomState.renderTargetsChanged = false ∧
     staleBloomState.hdrEnabled = true ∧ staleBloomState.bloomEnabled = true ∧
     staleBloomState.blurTargetA = none ∧
     ({ staleBloomState with driverAlive := true }).createRenderTargets.blurTargetA.isSome
       = true ∧
     ¬ TargetSetConsistent staleBloomState ∧
     ¬ TargetSetConsistent (staleBloomState.render .Left 2 1 ⟨true⟩ false).state ∧
     (staleBloomState.render .Left 2 1 ⟨true⟩ false).trace
       = [Event.setPBREnabled false, Event.baseRenderPass 2 1 .hdrTarget] ∧
     (staleBloomState.render .Left 2 1 ⟨true⟩ false).completed = false) ∧
    (Reachable textureAttachedState ∧
     textureAttachedState.driverAlive = true ∧
     textureAttachedState.renderTargetsChanged = false ∧
     textureAttachedState.renderToTextureTarget
       ≠ textureAttachedState.createRenderTargets.renderToTextureTarget) := by
  refine ⟨⟨⟨hdrOnlyConfig, capableDriver, ?_⟩, by decide, by decide, by decide, by decide,
    by decide, by decide, by decide, by decide, by decide⟩,
    ⟨⟨allOff, capableDriver, ?_⟩, by decide, by decide, by decide⟩⟩
  · exact ReachableFrom.step (Op.render .Left 1 0 ⟨false⟩ false)
      (ReachableFrom.step (Op.setBloomEnabled true)
        (ReachableFrom.step Op.driverExpired
          (ReachableFrom.step (Op.setBaseRenderPass true) ReachableFrom.refl rfl) rfl) rfl)
      (by decide)
  · exact ReachableFrom.step (Op.setRenderTexture 5) ReachableFrom.refl (by decide)

end Viro
